import Mathlib

/-!
# PetIBM: orchestration of the linear solves, the driver loop and field I/O

A shallow embedding of `PetIBM.cpp` and of the `NavierStokesSolver` routines in
`solveVP.inl`, `getSolverIterations.inl`, `createKSPs.inl`, `createAmgXs.inl`,
`createLinSolvers.inl` and `io.inl`.

Conventions of the embedding.

* A routine returning `PetscErrorCode` becomes a function from the process state to a
  `Flow` (how the routine ended) and the state it left behind.  `exit(c)` ends the whole
  process, a nonzero error code travels up the call chain through `CHKERRQ`.
* Calls into PETSc/MPI return the error code the environment `Petsc` assigns to that
  library function; the numerics of the two linear-solver backends are functions of the
  environment as well.
* Matrices (`M`) and the blocks of a distributed vector (`V`) are abstract; a `Vec` built
  on a composite DM is the family of its blocks, block `i` being the `i`-th sub-vector
  `DMCompositeGetAccess` hands out (the DM decides how many of them are in use).
* `PetscInt` values are integers (`Int`, no overflow); `%` is C++ truncated remainder.
* A `PetscReal` is given by its bit pattern; the text an output stream produces for it is a
  function of the environment.
* Text files are the strings they hold; opening an output stream on a path succeeds
  exactly when the world has the path writable, and the program never tests the stream.
-/

namespace PetIBM

/-! ## Values and control flow -/

abbrev PetscErrorCode := Int

/-- How a routine ends: it returns an error code to its caller, or it ends the process
through `exit(status)`. -/
inductive Flow where
  | returned (ierr : PetscErrorCode)
  | exited (status : Int)
  deriving DecidableEq

/-- Exit status of the process when `main` ends with the given flow. -/
def Flow.exitStatus : Flow → Int
  | Flow.returned ierr => ierr
  | Flow.exited status => status

/-- Whether the process was ended by `exit`. -/
def Flow.terminated : Flow → Bool
  | Flow.returned _ => false
  | Flow.exited _ => true

/-- Text produced by the conversion `%d` of `printf` and by `operator<<` on an integer. -/
def fmt_d (n : Int) : String := Int.repr n

/-- The number a list of characters denotes when read as decimal digits, most significant
digit first. -/
def decimalValue (l : List Char) : Nat :=
  l.foldl (fun acc c => acc * 10 + (c.toNat - 48)) 0

/-- Text a stream produces for a string under `std::setfill(c) << std::setw(w)`:
the fill character is inserted on the left until the field is `w` characters wide. -/
def setfill_setw (c : Char) (w : Nat) (s : String) : String :=
  String.mk (List.replicate (w - s.length) c) ++ s

/-- A `PetscReal`: a double, given by its bit pattern. -/
structure PetscReal where
  bits : Nat
  deriving DecidableEq

/-! ## The PETSc / MPI / AmgX environment -/

/-- Library entry points whose error code is checked with `CHKERRQ`. -/
inductive PetscCall where
  | PetscInitialize | PetscLogBegin | PetscFinalize | PetscOptionsGetString
  | PetscOptionsInsertFile | PetscPrintf | PetscLogStagePush | PetscLogStagePop
  | MPI_Comm_rank
  | KSPCreate | KSPSetOptionsPrefix | KSPSetOperators | KSPSetInitialGuessNonzero
  | KSPSetType | KSPSetReusePreconditioner | KSPSetFromOptions | KSPView
  | KSPSolve | KSPGetConvergedReason | KSPGetIterationNumber
  | DMCompositeGetAccess | DMCompositeRestoreAccess
  | PetscViewerBinaryOpen | VecView | VecLoad | PetscViewerDestroy
  deriving DecidableEq

/-- A distributed vector (`Vec`) as the family of its blocks. -/
abbrev Vec (V : Type) := Nat → V

/-- A Krylov solver object (`KSP`): the settings the creation routines touch and the
outcome of the last solve. -/
structure KSP (M : Type) where
  optionsPre : String := ""
  Amat : Option M := none
  Pmat : Option M := none
  initialGuessNonzero : Bool := false
  kspType : String := "gmres"
  reusePreconditioner : Bool := false
  reason : Int := 0
  its : Int := 0

/-- Modelled from the spec: the class `AmgXSolver` is declared in `AmgXSolver.hpp`, which is
not part of the sources at hand.  Per the specification a backend exposes configure(matrix),
solve and an iteration count; the object keeps what `initialize` and `setA` stored and the
iteration count of the last solve. -/
structure AmgXSolver (M : Type) where
  mode : String := ""
  configFile : String := ""
  A : Option M := none
  iters : Int := 0

/-- What a Krylov solve leaves behind: the solution vector, the converged reason and the
iteration number. -/
structure KrylovResult (V : Type) where
  x : Vec V
  reason : Int
  its : Int

/-- What a multigrid solve leaves behind: the solution vector and the iteration count. -/
structure AmgXResult (V : Type) where
  p : Vec V
  iters : Int

/-- Behaviour of the libraries the program is linked with.
`err c` is the error code library function `c` returns; `krylov ksp b x` is the numerical
outcome of `KSPSolve(ksp, b, x)` and `multigrid amgx p b` that of `amgx.solve(p, b)`, each
with the arguments in the order of the library's own signature; `kspViewText ksp` is the
description `KSPView` prints; `fmtReal r` is the text the insertion of the `PetscReal` `r`
into a freshly constructed output stream produces. -/
structure Petsc (M V : Type) where
  err : PetscCall → PetscErrorCode
  krylov : KSP M → Vec V → Vec V → KrylovResult V
  multigrid : AmgXSolver M → Vec V → Vec V → AmgXResult V
  kspViewText : KSP M → String
  fmtReal : PetscReal → String

/-- Every library call succeeds. -/
def Petsc.allOk {M V : Type} (E : Petsc M V) : Prop := ∀ c, E.err c = 0

/-! ## The solver object and the world around the process -/

/-- Spatial dimension, the template argument of `NavierStokesSolver<dim>`. -/
inductive Dim where
  | two
  | three
  deriving DecidableEq

/-- Numerical value of the template argument. -/
def Dim.val : Dim → Int
  | Dim.two => 2
  | Dim.three => 3

/-- Fields of `SimulationParameters` the routines read: the simulation directory and the
save interval.  `maxSteps` is the configured maximum step count the specification names
for `finished()`. -/
structure SimulationParameters where
  directory : String
  nsave : Int
  maxSteps : Int := 0

/-- Members of `CartesianMesh` that `writeGrid` reads: the number of cells and the
coordinates of the grid lines in each direction (`std::vector<PetscReal>`). -/
structure CartesianMesh where
  nx : Int := 0
  ny : Int := 0
  nz : Int := 0
  x : List PetscReal := []
  y : List PetscReal := []
  z : List PetscReal := []

/-- Targets of the `FP_solving` member-function pointers. -/
inductive SolveFn where
  | solveV_KSP | solveP_KSP | solveV_AmgX | solveP_AmgX
  deriving DecidableEq

/-- Targets of the `FP_getIter` member-function pointers. -/
inductive GetIterFn where
  | getSolverIterationsKSP1 | getSolverIterationsKSP2
  | getSolverIterationsAmgX1 | getSolverIterationsAmgX2
  deriving DecidableEq

/-- Targets of the `FP_solver` member-function pointers. -/
inductive CreateFn where
  | createKSP1 | createKSP2 | createAmgX1 | createAmgX2
  deriving DecidableEq

/-- State of a `std::ofstream`: whether a file is attached, which one, the fail state and
the characters not yet handed to the file. -/
structure OfStream where
  isOpen : Bool := false
  path : String := ""
  failed : Bool := false
  buf : String := ""

/-- Data members of `NavierStokesSolver<dim>` used by the embedded routines. -/
structure NavierStokesSolver (M V : Type) where
  dim : Dim
  timeStep : Int
  parameters : SimulationParameters
  q : Vec V
  qStar : Vec V
  lambda : Vec V
  rhs1 : Vec V
  rhs2 : Vec V
  A : M
  QTBNQ : M
  ksp1 : KSP M := {}
  ksp2 : KSP M := {}
  amgx1 : AmgXSolver M := {}
  amgx2 : AmgXSolver M := {}
  rank : Int := 0
  size : Int := 1
  createLinSolver1 : CreateFn := CreateFn.createKSP1
  createLinSolver2 : CreateFn := CreateFn.createKSP2
  solveV : SolveFn := SolveFn.solveV_KSP
  solveP : SolveFn := SolveFn.solveP_KSP
  getSolverIterationsFP1 : GetIterFn := GetIterFn.getSolverIterationsKSP1
  getSolverIterationsFP2 : GetIterFn := GetIterFn.getSolverIterationsKSP2
  iterationCountsFile : OfStream := {}
  mesh : CartesianMesh := {}

/-- Member functions of the solver, recorded when control enters them. -/
inductive Routine where
  | writeData | writeIterationCounts | writeFluxes | writeLambda
  | readFluxes | readLambda | writeGrid
  deriving DecidableEq

/-- Observable actions of the process on its surroundings, in the order they happen. -/
inductive IOEvent where
  | enter (r : Routine)
  | mkdir (path : String)
  | binaryOpen (path : String) (write : Bool)
  | textOpen (path : String) (append : Bool)
  deriving DecidableEq

/-- What surrounds the process: its rank in `PETSC_COMM_WORLD`, the options given on the
command line, the text printed through
`PetscPrintf`, the options database, option files, text files, binary files (each the
sequence of vectors dumped into it), the log of observable actions, and the paths on which
opening an output stream succeeds (the directory exists and may be written). -/
structure World (V : Type) where
  commRank : Int := 0
  commandLine : List (String × String) := []
  stdout : String := ""
  options : List (String × String) := []
  optionFiles : String → Option (List (String × String)) := fun _ => none
  textFiles : String → Option String := fun _ => none
  binFiles : String → Option (List V) := fun _ => none
  events : List IOEvent := []
  writable : String → Bool := fun _ => true

/-- The process: the solver object and the world. -/
structure Proc (M V : Type) where
  solver : NavierStokesSolver M V
  world : World V

variable {M V : Type}

/-! ## Library calls -/

/-- The call `PetscPrintf(PETSC_COMM_WORLD, text)` seen from the world: the text reaches
the output of the run when the call succeeds. -/
def World.PetscPrintf (E : Petsc M V) (text : String) (w : World V) :
    PetscErrorCode × World V :=
  if E.err PetscCall.PetscPrintf = 0 then
    (0, { w with stdout := w.stdout ++ text })
  else
    (E.err PetscCall.PetscPrintf, w)

/-- The call `PetscPrintf(PETSC_COMM_WORLD, text)` made by a routine of the solver. -/
def PetscPrintf (E : Petsc M V) (text : String) (p : Proc M V) : PetscErrorCode × Proc M V :=
  ((p.world.PetscPrintf E text).1, { p with world := (p.world.PetscPrintf E text).2 })

/-- The call `KSPSolve(ksp, b, x)`, with `b` the right-hand side and `x` the vector that
holds the initial guess on entry and the solution on return: on success `x` holds the
solution and `ksp` remembers the converged reason and the iteration number. -/
def KSPSolve (E : Petsc M V) (ksp : KSP M) (b x : Vec V) :
    PetscErrorCode × KSP M × Vec V :=
  if E.err PetscCall.KSPSolve = 0 then
    (0, { ksp with reason := (E.krylov ksp b x).reason, its := (E.krylov ksp b x).its },
      (E.krylov ksp b x).x)
  else
    (E.err PetscCall.KSPSolve, ksp, x)

/-- The call `KSPGetConvergedReason(ksp, &reason)`: error code and the value stored in
`reason`. -/
def KSPGetConvergedReason (E : Petsc M V) (ksp : KSP M) : PetscErrorCode × Int :=
  (E.err PetscCall.KSPGetConvergedReason, ksp.reason)

/-- Modelled from the spec: `AmgXSolver::solve(p, b)` is not part of the sources at hand.
It is the backend service solve(A, x, b) of the specification, with the unknown `p` (initial
guess on entry, solution on return) as first and the right-hand side `b` as second argument:
`p` holds the solution afterwards and the object remembers the iteration count. -/
def AmgXSolver.solve (E : Petsc M V) (amgx : AmgXSolver M) (p b : Vec V) :
    AmgXSolver M × Vec V :=
  ({ amgx with iters := (E.multigrid amgx p b).iters }, (E.multigrid amgx p b).p)

/-! ## solveVP.inl -/

/-- Solving the intermediate velocity with a KSP solver (`solveVP.inl`, lines 18-43). -/
def solveV_KSP (E : Petsc M V) (p : Proc M V) : Flow × Proc M V :=
  let ierr := E.err PetscCall.PetscLogStagePush
  if ierr ≠ 0 then (Flow.returned ierr, p) else
  let r := KSPSolve E p.solver.ksp1 p.solver.rhs1 p.solver.qStar
  let p := { p with solver := { p.solver with ksp1 := r.2.1, qStar := r.2.2 } }
  if r.1 ≠ 0 then (Flow.returned r.1, p) else
  let ierr := E.err PetscCall.PetscLogStagePop
  if ierr ≠ 0 then (Flow.returned ierr, p) else
  let g := KSPGetConvergedReason E p.solver.ksp1
  let reason := g.2
  if g.1 ≠ 0 then (Flow.returned g.1, p) else
  if reason < 0 then
    let w := PetscPrintf E ("\n[time-step " ++ fmt_d p.solver.timeStep ++ "]") p
    if w.1 ≠ 0 then (Flow.returned w.1, w.2) else
    let w := PetscPrintf E
      ("\nERROR: velocity solver diverged due to reason: " ++ fmt_d reason ++ "\n") w.2
    if w.1 ≠ 0 then (Flow.returned w.1, w.2) else
    (Flow.exited 0, w.2)
  else
    (Flow.returned 0, p)

/-- Solving the pressure with a KSP solver (`solveVP.inl`, lines 53-78). -/
def solveP_KSP (E : Petsc M V) (p : Proc M V) : Flow × Proc M V :=
  let ierr := E.err PetscCall.PetscLogStagePush
  if ierr ≠ 0 then (Flow.returned ierr, p) else
  let r := KSPSolve E p.solver.ksp2 p.solver.rhs2 p.solver.lambda
  let p := { p with solver := { p.solver with ksp2 := r.2.1, lambda := r.2.2 } }
  if r.1 ≠ 0 then (Flow.returned r.1, p) else
  let ierr := E.err PetscCall.PetscLogStagePop
  if ierr ≠ 0 then (Flow.returned ierr, p) else
  let g := KSPGetConvergedReason E p.solver.ksp2
  let reason := g.2
  if g.1 ≠ 0 then (Flow.returned g.1, p) else
  if reason < 0 then
    let w := PetscPrintf E ("\n[time-step " ++ fmt_d p.solver.timeStep ++ "]") p
    if w.1 ≠ 0 then (Flow.returned w.1, w.2) else
    let w := PetscPrintf E
      ("\nERROR: Poisson solver diverged due to reason: " ++ fmt_d reason ++ "\n") w.2
    if w.1 ≠ 0 then (Flow.returned w.1, w.2) else
    (Flow.exited 0, w.2)
  else
    (Flow.returned 0, p)

/-- Solving the intermediate velocity with an AmgX solver (`solveVP.inl`, lines 88-100). -/
def solveV_AmgX (E : Petsc M V) (p : Proc M V) : Flow × Proc M V :=
  let ierr := E.err PetscCall.PetscLogStagePush
  if ierr ≠ 0 then (Flow.returned ierr, p) else
  let r := AmgXSolver.solve E p.solver.amgx1 p.solver.qStar p.solver.rhs1
  let p := { p with solver := { p.solver with amgx1 := r.1, qStar := r.2 } }
  let ierr := E.err PetscCall.PetscLogStagePop
  if ierr ≠ 0 then (Flow.returned ierr, p) else
  (Flow.returned 0, p)

/-- Solving the pressure with an AmgX solver (`solveVP.inl`, lines 110-122). -/
def solveP_AmgX (E : Petsc M V) (p : Proc M V) : Flow × Proc M V :=
  let ierr := E.err PetscCall.PetscLogStagePush
  if ierr ≠ 0 then (Flow.returned ierr, p) else
  let r := AmgXSolver.solve E p.solver.amgx2 p.solver.lambda p.solver.rhs2
  let p := { p with solver := { p.solver with amgx2 := r.1, lambda := r.2 } }
  let ierr := E.err PetscCall.PetscLogStagePop
  if ierr ≠ 0 then (Flow.returned ierr, p) else
  (Flow.returned 0, p)

/-! ## getSolverIterations.inl -/

/-- The call `KSPGetIterationNumber(ksp, &its)`: error code and the content of `its`
afterwards. -/
def KSPGetIterationNumber (E : Petsc M V) (ksp : KSP M) (its : Int) : PetscErrorCode × Int :=
  if E.err PetscCall.KSPGetIterationNumber = 0 then (0, ksp.its)
  else (E.err PetscCall.KSPGetIterationNumber, its)

/-- Modelled from the spec: `AmgXSolver::getIters()` is not part of the sources at hand; it
is the iteration count of the last solve, reported for diagnostics. -/
def AmgXSolver.getIters (amgx : AmgXSolver M) : Int := amgx.iters

/-- Iterations of the last solve of KSP solver 1 (`getSolverIterations.inl`, lines 23-30);
the second component is the content of the reference argument afterwards. -/
def getSolverIterationsKSP1 (E : Petsc M V) (s : NavierStokesSolver M V) (iterSolver : Int) :
    Flow × Int :=
  let r := KSPGetIterationNumber E s.ksp1 iterSolver
  if r.1 ≠ 0 then (Flow.returned r.1, r.2) else
  (Flow.returned 0, r.2)

/-- Iterations of the last solve of KSP solver 2 (lines 33-40). -/
def getSolverIterationsKSP2 (E : Petsc M V) (s : NavierStokesSolver M V) (iterSolver : Int) :
    Flow × Int :=
  let r := KSPGetIterationNumber E s.ksp2 iterSolver
  if r.1 ≠ 0 then (Flow.returned r.1, r.2) else
  (Flow.returned 0, r.2)

/-- Iterations of the last solve of AmgX solver 1 (lines 43-48). -/
def getSolverIterationsAmgX1 (s : NavierStokesSolver M V) (_iterSolver : Int) : Flow × Int :=
  (Flow.returned 0, s.amgx1.getIters)

/-- Iterations of the last solve of AmgX solver 2 (lines 51-56). -/
def getSolverIterationsAmgX2 (s : NavierStokesSolver M V) (_iterSolver : Int) : Flow × Int :=
  (Flow.returned 0, s.amgx2.getIters)

/-- Call through a `FP_getIter` member-function pointer. -/
def GetIterFn.call (E : Petsc M V) (s : NavierStokesSolver M V) :
    GetIterFn → Int → Flow × Int
  | GetIterFn.getSolverIterationsKSP1 => PetIBM.getSolverIterationsKSP1 E s
  | GetIterFn.getSolverIterationsKSP2 => PetIBM.getSolverIterationsKSP2 E s
  | GetIterFn.getSolverIterationsAmgX1 => PetIBM.getSolverIterationsAmgX1 s
  | GetIterFn.getSolverIterationsAmgX2 => PetIBM.getSolverIterationsAmgX2 s

/-- Top-level routine getting the iterations of both solvers (`getSolverIterations.inl`,
lines 10-20); the last two components are the contents of the two reference arguments
afterwards. -/
def getSolverIterations (E : Petsc M V) (s : NavierStokesSolver M V)
    (iterSolver1 iterSolver2 : Int) : Flow × Int × Int :=
  let r1 := s.getSolverIterationsFP1.call E s iterSolver1
  if r1.1 ≠ Flow.returned 0 then (r1.1, r1.2, iterSolver2) else
  let r2 := s.getSolverIterationsFP2.call E s iterSolver2
  if r2.1 ≠ Flow.returned 0 then (r2.1, r1.2, r2.2) else
  (Flow.returned 0, r1.2, r2.2)

/-! ## createKSPs.inl, createAmgXs.inl, createLinSolvers.inl -/

/-- Setting a key of the options database: a value given later replaces the earlier one. -/
def PetscOptionsSetValue (db : List (String × String)) (kv : String × String) :
    List (String × String) :=
  db.filter (fun e => e.1 ≠ kv.1) ++ [kv]

/-- The call `PetscOptionsInsertFile(comm, file, PETSC_FALSE)`: the entries of the file go
into the options database; a missing file is not an error. -/
def PetscOptionsInsertFile (E : Petsc M V) (file : String) (w : World V) :
    PetscErrorCode × World V :=
  if E.err PetscCall.PetscOptionsInsertFile = 0 then
    match w.optionFiles file with
    | some entries => (0, { w with options := entries.foldl PetscOptionsSetValue w.options })
    | none => (0, w)
  else
    (E.err PetscCall.PetscOptionsInsertFile, w)

/-- The value the option sources of a solver give for a key when the solver is created in
the given directory: the last entry for the key in the options file
`solversPetscOptions.info` of the directory or, when the file is missing or has no entry for
the key, the entry of the options database. -/
def optionSource (w : World V) (directory key : String) : Option String :=
  (((w.optionFiles (directory ++ "/solversPetscOptions.info")).getD []).reverse.lookup key).or
    (w.options.lookup key)

/-- Truth value PETSc reads from an option string. -/
def PetscOptionsStringToBool (v : String) : Bool :=
  v = "" ∨ v = "true" ∨ v = "TRUE" ∨ v = "yes" ∨ v = "YES" ∨ v = "1" ∨ v = "on" ∨ v = "ON"

/-- The call `KSPSetFromOptions(ksp)`: every setting for which the options database holds
a key `-<prefix>ksp_...` takes the value given there. -/
def KSPSetFromOptions (E : Petsc M V) (db : List (String × String)) (ksp : KSP M) :
    PetscErrorCode × KSP M :=
  if E.err PetscCall.KSPSetFromOptions = 0 then
    let ksp := match db.lookup ("-" ++ ksp.optionsPre ++ "ksp_type") with
      | some v => { ksp with kspType := v }
      | none => ksp
    let ksp := match db.lookup ("-" ++ ksp.optionsPre ++ "ksp_initial_guess_nonzero") with
      | some v => { ksp with initialGuessNonzero := PetscOptionsStringToBool v }
      | none => ksp
    let ksp := match db.lookup ("-" ++ ksp.optionsPre ++ "ksp_reuse_preconditioner") with
      | some v => { ksp with reusePreconditioner := PetscOptionsStringToBool v }
      | none => ksp
    (0, ksp)
  else
    (E.err PetscCall.KSPSetFromOptions, ksp)

/-- The Krylov method `KSPCG`. -/
def KSPCG : String := "cg"

/-- Instantiates the KSP solver for the intermediate velocity fluxes (`createKSPs.inl`,
lines 20-51). -/
def createKSP1 (E : Petsc M V) (p : Proc M V) : Flow × Proc M V :=
  let petscOptionsFile := p.solver.parameters.directory ++ "/solversPetscOptions.info"
  let o := PetscOptionsInsertFile E petscOptionsFile p.world
  let p := { p with world := o.2 }
  if o.1 ≠ 0 then (Flow.returned o.1, p) else
  let ierr := E.err PetscCall.KSPCreate
  let ksp1 : KSP M := {}
  if ierr ≠ 0 then (Flow.returned ierr, p) else
  let ierr := E.err PetscCall.KSPSetOptionsPrefix
  if ierr ≠ 0 then (Flow.returned ierr, { p with solver := { p.solver with ksp1 := ksp1 } }) else
  let ksp1 := { ksp1 with optionsPre := "velocity_" }
  let ierr := E.err PetscCall.KSPSetOperators
  if ierr ≠ 0 then (Flow.returned ierr, { p with solver := { p.solver with ksp1 := ksp1 } }) else
  let ksp1 := { ksp1 with Amat := some p.solver.A, Pmat := some p.solver.A }
  let ierr := E.err PetscCall.KSPSetInitialGuessNonzero
  if ierr ≠ 0 then (Flow.returned ierr, { p with solver := { p.solver with ksp1 := ksp1 } }) else
  let ksp1 := { ksp1 with initialGuessNonzero := true }
  let ierr := E.err PetscCall.KSPSetType
  if ierr ≠ 0 then (Flow.returned ierr, { p with solver := { p.solver with ksp1 := ksp1 } }) else
  let ksp1 := { ksp1 with kspType := KSPCG }
  let ierr := E.err PetscCall.KSPSetReusePreconditioner
  if ierr ≠ 0 then (Flow.returned ierr, { p with solver := { p.solver with ksp1 := ksp1 } }) else
  let ksp1 := { ksp1 with reusePreconditioner := true }
  let f := KSPSetFromOptions E p.world.options ksp1
  let p := { p with solver := { p.solver with ksp1 := f.2 } }
  if f.1 ≠ 0 then (Flow.returned f.1, p) else
  let w := PetscPrintf E "\n----------------------------------------\n" p
  if w.1 ≠ 0 then (Flow.returned w.1, w.2) else
  let w := PetscPrintf E "KSP info: Velocity system" w.2
  if w.1 ≠ 0 then (Flow.returned w.1, w.2) else
  let w := PetscPrintf E "\n----------------------------------------\n" w.2
  if w.1 ≠ 0 then (Flow.returned w.1, w.2) else
  let p := w.2
  let ierr := E.err PetscCall.KSPView
  if ierr ≠ 0 then (Flow.returned ierr, p) else
  let p := { p with world := { p.world with
    stdout := p.world.stdout ++ E.kspViewText p.solver.ksp1 } }
  (Flow.returned 0, p)

/-- Instantiates the KSP solver for the pressure (`createKSPs.inl`, lines 65-96). -/
def createKSP2 (E : Petsc M V) (p : Proc M V) : Flow × Proc M V :=
  let petscOptionsFile := p.solver.parameters.directory ++ "/solversPetscOptions.info"
  let o := PetscOptionsInsertFile E petscOptionsFile p.world
  let p := { p with world := o.2 }
  if o.1 ≠ 0 then (Flow.returned o.1, p) else
  let ierr := E.err PetscCall.KSPCreate
  let ksp2 : KSP M := {}
  if ierr ≠ 0 then (Flow.returned ierr, p) else
  let ierr := E.err PetscCall.KSPSetOptionsPrefix
  if ierr ≠ 0 then (Flow.returned ierr, { p with solver := { p.solver with ksp2 := ksp2 } }) else
  let ksp2 := { ksp2 with optionsPre := "poisson_" }
  let ierr := E.err PetscCall.KSPSetOperators
  if ierr ≠ 0 then (Flow.returned ierr, { p with solver := { p.solver with ksp2 := ksp2 } }) else
  let ksp2 := { ksp2 with Amat := some p.solver.QTBNQ, Pmat := some p.solver.QTBNQ }
  let ierr := E.err PetscCall.KSPSetInitialGuessNonzero
  if ierr ≠ 0 then (Flow.returned ierr, { p with solver := { p.solver with ksp2 := ksp2 } }) else
  let ksp2 := { ksp2 with initialGuessNonzero := true }
  let ierr := E.err PetscCall.KSPSetType
  if ierr ≠ 0 then (Flow.returned ierr, { p with solver := { p.solver with ksp2 := ksp2 } }) else
  let ksp2 := { ksp2 with kspType := KSPCG }
  let ierr := E.err PetscCall.KSPSetReusePreconditioner
  if ierr ≠ 0 then (Flow.returned ierr, { p with solver := { p.solver with ksp2 := ksp2 } }) else
  let ksp2 := { ksp2 with reusePreconditioner := true }
  let f := KSPSetFromOptions E p.world.options ksp2
  let p := { p with solver := { p.solver with ksp2 := f.2 } }
  if f.1 ≠ 0 then (Flow.returned f.1, p) else
  let w := PetscPrintf E "\n----------------------------------------\n" p
  if w.1 ≠ 0 then (Flow.returned w.1, w.2) else
  let w := PetscPrintf E "KSP info: Poisson system" w.2
  if w.1 ≠ 0 then (Flow.returned w.1, w.2) else
  let w := PetscPrintf E "\n----------------------------------------\n" w.2
  if w.1 ≠ 0 then (Flow.returned w.1, w.2) else
  let p := w.2
  let ierr := E.err PetscCall.KSPView
  if ierr ≠ 0 then (Flow.returned ierr, p) else
  let p := { p with world := { p.world with
    stdout := p.world.stdout ++ E.kspViewText p.solver.ksp2 } }
  (Flow.returned 0, p)

/-- Modelled from the spec: `AmgXSolver::initialize(comm, size, rank, mode, configFile)` is
not part of the sources at hand; it configures the backend from its option source. -/
def AmgXSolver.initialize_ (amgx : AmgXSolver M) (mode configFile : String) : AmgXSolver M :=
  { amgx with mode := mode, configFile := configFile }

/-- Modelled from the spec: `AmgXSolver::setA(A)` is not part of the sources at hand; it
hands the operator of the system to the backend. -/
def AmgXSolver.setA (amgx : AmgXSolver M) (A : M) : AmgXSolver M :=
  { amgx with A := some A }

/-- Instantiates the AmgX solver for the intermediate velocity fluxes (`createAmgXs.inl`,
lines 16-30). -/
def createAmgX1 (p : Proc M V) : Flow × Proc M V :=
  let AmgXOptionsFile := p.solver.parameters.directory ++ "/solversAmgXOptions_v.info"
  let amgx1 := p.solver.amgx1.initialize_ "dDDI" AmgXOptionsFile
  let amgx1 := amgx1.setA p.solver.A
  (Flow.returned 0, { p with solver := { p.solver with amgx1 := amgx1 } })

/-- Instantiates the AmgX solver for the pressure (`createAmgXs.inl`, lines 39-53). -/
def createAmgX2 (p : Proc M V) : Flow × Proc M V :=
  let AmgXOptionsFile := p.solver.parameters.directory ++ "/solversAmgXOptions_p.info"
  let amgx2 := p.solver.amgx2.initialize_ "dDDI" AmgXOptionsFile
  let amgx2 := amgx2.setA p.solver.QTBNQ
  (Flow.returned 0, { p with solver := { p.solver with amgx2 := amgx2 } })

/-- Call through a `FP_solver` member-function pointer. -/
def CreateFn.call (E : Petsc M V) : CreateFn → Proc M V → Flow × Proc M V
  | CreateFn.createKSP1 => PetIBM.createKSP1 E
  | CreateFn.createKSP2 => PetIBM.createKSP2 E
  | CreateFn.createAmgX1 => PetIBM.createAmgX1
  | CreateFn.createAmgX2 => PetIBM.createAmgX2

/-- Top-level routine creating both solvers (`createLinSolvers.inl`, lines 18-28). -/
def createLinSolvers (E : Petsc M V) (p : Proc M V) : Flow × Proc M V :=
  let r := p.solver.createLinSolver1.call E p
  if r.1 ≠ Flow.returned 0 then r else
  let r := p.solver.createLinSolver2.call E r.2
  if r.1 ≠ Flow.returned 0 then r else
  (Flow.returned 0, r.2)

/-! ## Files: binary viewers and the iteration-count stream -/

/-- PETSc error code `PETSC_ERR_FILE_OPEN` (unable to open a file). -/
def PETSC_ERR_FILE_OPEN : PetscErrorCode := 65

/-- PETSc error code `PETSC_ERR_FILE_READ` (unable to read from a file). -/
def PETSC_ERR_FILE_READ : PetscErrorCode := 66

/-- Mode a binary viewer is opened in. -/
inductive PetscFileMode where
  | FILE_MODE_READ
  | FILE_MODE_WRITE
  deriving DecidableEq

/-- A binary viewer: the file it is attached to and its mode. -/
structure PetscViewer where
  path : String
  mode : PetscFileMode

/-- Appending an action to the log of the world. -/
def World.log (e : IOEvent) (w : World V) : World V :=
  { w with events := w.events ++ [e] }

/-- Recording that control entered a member function. -/
def Proc.enter (r : Routine) (p : Proc M V) : Proc M V :=
  { p with world := p.world.log (IOEvent.enter r) }

/-- The call `mkdir(path, mode)`; its return value is ignored by the program. -/
def mkdir (path : String) (p : Proc M V) : Proc M V :=
  { p with world := p.world.log (IOEvent.mkdir path) }

/-- The call `PetscViewerBinaryOpen(comm, path, mode, &viewer)`.  Opening for writing
creates the file empty; opening a missing file for reading fails with
`PETSC_ERR_FILE_OPEN`. -/
def PetscViewerBinaryOpen (E : Petsc M V) (path : String) (mode : PetscFileMode)
    (w : World V) : PetscErrorCode × PetscViewer × World V :=
  match mode with
  | PetscFileMode.FILE_MODE_WRITE =>
    let w := w.log (IOEvent.binaryOpen path true)
    if E.err PetscCall.PetscViewerBinaryOpen = 0 then
      (0, { path := path, mode := mode },
        { w with binFiles := fun f => if f = path then some [] else w.binFiles f })
    else
      (E.err PetscCall.PetscViewerBinaryOpen, { path := path, mode := mode }, w)
  | PetscFileMode.FILE_MODE_READ =>
    let w := w.log (IOEvent.binaryOpen path false)
    match w.binFiles path with
    | none => (PETSC_ERR_FILE_OPEN, { path := path, mode := mode }, w)
    | some _ => (E.err PetscCall.PetscViewerBinaryOpen, { path := path, mode := mode }, w)

/-- The call `VecView(vec, viewer)` on a binary viewer: the vector is appended to the
file. -/
def VecView (E : Petsc M V) (vec : V) (viewer : PetscViewer) (w : World V) :
    PetscErrorCode × World V :=
  if E.err PetscCall.VecView = 0 then
    (0, { w with binFiles := fun f =>
      if f = viewer.path then some ((w.binFiles f).getD [] ++ [vec]) else w.binFiles f })
  else
    (E.err PetscCall.VecView, w)

/-- The call `VecLoad(vec, viewer)` on a freshly opened binary viewer: the first vector of
the file becomes the content of `vec`; the second component is the content of `vec`
afterwards.  A file holding no vector cannot be read. -/
def VecLoad (E : Petsc M V) (vec : V) (viewer : PetscViewer) (w : World V) :
    PetscErrorCode × V :=
  if E.err PetscCall.VecLoad ≠ 0 then (E.err PetscCall.VecLoad, vec) else
  match w.binFiles viewer.path with
  | some (v :: _) => (0, v)
  | _ => (PETSC_ERR_FILE_READ, vec)

/-- The three checked calls `PetscViewerBinaryOpen(.., FILE_MODE_WRITE, ..)`, `VecView`,
`PetscViewerDestroy` on one file: the first nonzero error code (0 when all succeed) and
the world afterwards. -/
def viewToFile (E : Petsc M V) (filePath : String) (vec : V) (w : World V) :
    PetscErrorCode × World V :=
  let o := PetscViewerBinaryOpen E filePath PetscFileMode.FILE_MODE_WRITE w
  if o.1 ≠ 0 then (o.1, o.2.2) else
  let v := VecView E vec o.2.1 o.2.2
  if v.1 ≠ 0 then (v.1, v.2) else
  let ierr := E.err PetscCall.PetscViewerDestroy
  if ierr ≠ 0 then (ierr, v.2) else
  (0, v.2)

/-- The three checked calls `PetscViewerBinaryOpen(.., FILE_MODE_READ, ..)`, `VecLoad`,
`PetscViewerDestroy` on one file: the first nonzero error code (0 when all succeed), the
content of `vec` afterwards and the world afterwards. -/
def loadFromFile (E : Petsc M V) (filePath : String) (vec : V) (w : World V) :
    PetscErrorCode × V × World V :=
  let o := PetscViewerBinaryOpen E filePath PetscFileMode.FILE_MODE_READ w
  if o.1 ≠ 0 then (o.1, vec, o.2.2) else
  let l := VecLoad E vec o.2.1 o.2.2
  if l.1 ≠ 0 then (l.1, l.2, o.2.2) else
  let ierr := E.err PetscCall.PetscViewerDestroy
  if ierr ≠ 0 then (ierr, l.2, o.2.2) else
  (0, l.2, o.2.2)

/-- Block `i` of a composite vector takes the content of the sub-vector handed out for it
(`DMCompositeRestoreAccess`). -/
def setBlock (x : Vec V) (i : Nat) (vec : V) : Vec V :=
  fun j => if j = i then vec else x j

/-- The call `iterationCountsFile.open(path)` (`append = false`, the file is truncated) or
`iterationCountsFile.open(path, std::ios::out | std::ios::app)` (`append = true`).
Opening a stream that is already open fails, and so does opening a path that is not
writable: the stream then is in its fail state with no file attached, and no file is
touched. -/
def iterationCountsFile_open (path : String) (append : Bool) (p : Proc M V) : Proc M V :=
  if p.solver.iterationCountsFile.isOpen then
    { p with solver := { p.solver with
        iterationCountsFile := { p.solver.iterationCountsFile with failed := true } } }
  else if p.world.writable path = false then
    { p with solver := { p.solver with
        iterationCountsFile := { p.solver.iterationCountsFile with failed := true } } }
  else
    { solver := { p.solver with
        iterationCountsFile := { isOpen := true, path := path, failed := false, buf := "" } },
      world := { p.world with
        textFiles := fun f =>
          if f = path then some (if append then (p.world.textFiles path).getD "" else "")
          else p.world.textFiles f,
        events := p.world.events ++ [IOEvent.textOpen path append] } }

/-- The insertion `iterationCountsFile << text`. -/
def iterationCountsFile_put (text : String) (p : Proc M V) : Proc M V :=
  if p.solver.iterationCountsFile.isOpen && !p.solver.iterationCountsFile.failed then
    { p with solver := { p.solver with iterationCountsFile :=
        { p.solver.iterationCountsFile with buf := p.solver.iterationCountsFile.buf ++ text } } }
  else
    { p with solver := { p.solver with
        iterationCountsFile := { p.solver.iterationCountsFile with failed := true } } }

/-- Handing the buffered characters of the stream to its file. -/
def iterationCountsFile_flush (p : Proc M V) : Proc M V :=
  if p.solver.iterationCountsFile.isOpen then
    { solver := { p.solver with
        iterationCountsFile := { p.solver.iterationCountsFile with buf := "" } },
      world := { p.world with
        textFiles := fun f =>
          if f = p.solver.iterationCountsFile.path then
            some ((p.world.textFiles f).getD "" ++ p.solver.iterationCountsFile.buf)
          else p.world.textFiles f } }
  else p

/-- The insertion `iterationCountsFile << std::endl`: a newline, then a flush. -/
def iterationCountsFile_endl (p : Proc M V) : Proc M V :=
  iterationCountsFile_flush (iterationCountsFile_put "\n" p)

/-- The call `iterationCountsFile.close()`. -/
def iterationCountsFile_close (p : Proc M V) : Proc M V :=
  if p.solver.iterationCountsFile.isOpen then
    let p := iterationCountsFile_flush p
    { p with solver := { p.solver with
        iterationCountsFile := { p.solver.iterationCountsFile with isOpen := false } } }
  else
    { p with solver := { p.solver with
        iterationCountsFile := { p.solver.iterationCountsFile with failed := true } } }

/-! ## io.inl -/

/-- The solution directory: `ss << directory << "/" << std::setfill('0') << std::setw(7)
<< timeStep` (`io.inl`, lines 40, 105, 160 and 226). -/
def solutionDirectory (directory : String) (timeStep : Int) : String :=
  directory ++ "/" ++ setfill_setw '0' 7 (fmt_d timeStep)

/-- Read fluxes from file (`io.inl`, lines 29-88). -/
def readFluxes (E : Petsc M V) (p : Proc M V) : Flow × Proc M V :=
  let p := p.enter Routine.readFluxes
  let w := PetscPrintf E
    ("\n[time-step " ++ fmt_d p.solver.timeStep ++ "] Reading fluxes from file... ") p
  if w.1 ≠ 0 then (Flow.returned w.1, w.2) else
  let p := w.2
  let solutionDirectory := solutionDirectory p.solver.parameters.directory p.solver.timeStep
  let ierr :=
    if p.solver.dim.val = 2 then E.err PetscCall.DMCompositeGetAccess
    else if p.solver.dim.val = 3 then E.err PetscCall.DMCompositeGetAccess
    else 0
  if ierr ≠ 0 then (Flow.returned ierr, p) else
  let filePath := solutionDirectory ++ "/qx.dat"
  let l := loadFromFile E filePath (p.solver.q 0) p.world
  let p := { solver := { p.solver with q := setBlock p.solver.q 0 l.2.1 }, world := l.2.2 }
  if l.1 ≠ 0 then (Flow.returned l.1, p) else
  let filePath := solutionDirectory ++ "/qy.dat"
  let l := loadFromFile E filePath (p.solver.q 1) p.world
  let p := { solver := { p.solver with q := setBlock p.solver.q 1 l.2.1 }, world := l.2.2 }
  if l.1 ≠ 0 then (Flow.returned l.1, p) else
  let l :=
    if p.solver.dim.val = 3 then
      loadFromFile E (solutionDirectory ++ "/qz.dat") (p.solver.q 2) p.world
    else (0, p.solver.q 2, p.world)
  let p := { solver := { p.solver with q := setBlock p.solver.q 2 l.2.1 }, world := l.2.2 }
  if l.1 ≠ 0 then (Flow.returned l.1, p) else
  let ierr :=
    if p.solver.dim.val = 2 then E.err PetscCall.DMCompositeRestoreAccess
    else if p.solver.dim.val = 3 then E.err PetscCall.DMCompositeRestoreAccess
    else 0
  if ierr ≠ 0 then (Flow.returned ierr, p) else
  let w := PetscPrintf E "done.\n" p
  if w.1 ≠ 0 then (Flow.returned w.1, w.2) else
  (Flow.returned 0, w.2)

/-- Reads the pressure field from the saved numerical solution (`io.inl`, lines 94-123). -/
def readLambda (E : Petsc M V) (p : Proc M V) : Flow × Proc M V :=
  let p := p.enter Routine.readLambda
  let w := PetscPrintf E
    ("\n[time-step " ++ fmt_d p.solver.timeStep ++ "] Reading pressure from file... ") p
  if w.1 ≠ 0 then (Flow.returned w.1, w.2) else
  let p := w.2
  let solutionDirectory := solutionDirectory p.solver.parameters.directory p.solver.timeStep
  let ierr := E.err PetscCall.DMCompositeGetAccess
  if ierr ≠ 0 then (Flow.returned ierr, p) else
  let filePath := solutionDirectory ++ "/phi.dat"
  let l := loadFromFile E filePath (p.solver.lambda 0) p.world
  let p := { solver := { p.solver with lambda := setBlock p.solver.lambda 0 l.2.1 },
             world := l.2.2 }
  if l.1 ≠ 0 then (Flow.returned l.1, p) else
  let ierr := E.err PetscCall.DMCompositeRestoreAccess
  if ierr ≠ 0 then (Flow.returned ierr, p) else
  let w := PetscPrintf E "done.\n" p
  if w.1 ≠ 0 then (Flow.returned w.1, w.2) else
  (Flow.returned 0, w.2)

/-- Writes fluxes into files located in the time-step directory (`io.inl`, lines 149-209). -/
def writeFluxes (E : Petsc M V) (p : Proc M V) : Flow × Proc M V :=
  let p := p.enter Routine.writeFluxes
  let w := PetscPrintf E
    ("\n[time-step " ++ fmt_d p.solver.timeStep ++ "] Writing fluxes into file... ") p
  if w.1 ≠ 0 then (Flow.returned w.1, w.2) else
  let p := w.2
  let solutionDirectory := solutionDirectory p.solver.parameters.directory p.solver.timeStep
  let p := mkdir solutionDirectory p
  let ierr :=
    if p.solver.dim.val = 2 then E.err PetscCall.DMCompositeGetAccess
    else if p.solver.dim.val = 3 then E.err PetscCall.DMCompositeGetAccess
    else 0
  if ierr ≠ 0 then (Flow.returned ierr, p) else
  let filePath := solutionDirectory ++ "/qx.dat"
  let v := viewToFile E filePath (p.solver.q 0) p.world
  let p := { p with world := v.2 }
  if v.1 ≠ 0 then (Flow.returned v.1, p) else
  let filePath := solutionDirectory ++ "/qy.dat"
  let v := viewToFile E filePath (p.solver.q 1) p.world
  let p := { p with world := v.2 }
  if v.1 ≠ 0 then (Flow.returned v.1, p) else
  let v :=
    if p.solver.dim.val = 3 then
      viewToFile E (solutionDirectory ++ "/qz.dat") (p.solver.q 2) p.world
    else (0, p.world)
  let p := { p with world := v.2 }
  if v.1 ≠ 0 then (Flow.returned v.1, p) else
  let ierr :=
    if p.solver.dim.val = 2 then E.err PetscCall.DMCompositeRestoreAccess
    else if p.solver.dim.val = 3 then E.err PetscCall.DMCompositeRestoreAccess
    else 0
  if ierr ≠ 0 then (Flow.returned ierr, p) else
  let w := PetscPrintf E "done.\n" p
  if w.1 ≠ 0 then (Flow.returned w.1, w.2) else
  (Flow.returned 0, w.2)

/-- Writes the pressure field into the file located in the solution directory (`io.inl`,
lines 215-245). -/
def writeLambda (E : Petsc M V) (p : Proc M V) : Flow × Proc M V :=
  let p := p.enter Routine.writeLambda
  let w := PetscPrintf E
    ("\n[time-step " ++ fmt_d p.solver.timeStep ++ "] Writing pressure into file... ") p
  if w.1 ≠ 0 then (Flow.returned w.1, w.2) else
  let p := w.2
  let solutionDirectory := solutionDirectory p.solver.parameters.directory p.solver.timeStep
  let p := mkdir solutionDirectory p
  let ierr := E.err PetscCall.DMCompositeGetAccess
  if ierr ≠ 0 then (Flow.returned ierr, p) else
  let filePath := solutionDirectory ++ "/phi.dat"
  let v := viewToFile E filePath (p.solver.lambda 0) p.world
  let p := { p with world := v.2 }
  if v.1 ≠ 0 then (Flow.returned v.1, p) else
  let ierr := E.err PetscCall.DMCompositeRestoreAccess
  if ierr ≠ 0 then (Flow.returned ierr, p) else
  let w := PetscPrintf E "done.\n" p
  if w.1 ≠ 0 then (Flow.returned w.1, w.2) else
  (Flow.returned 0, w.2)

/-- The definition `std::ofstream streamFile(path)` of a local stream: on a writable path
the file is created empty and attached to the stream; otherwise the stream is in its fail
state with no file attached, and no file is touched. -/
def ofstream_open (path : String) (w : World V) : OfStream × World V :=
  if w.writable path = false then
    ({ isOpen := false, path := "", failed := true, buf := "" }, w)
  else
    ({ isOpen := true, path := path, failed := false, buf := "" },
      { w with
        textFiles := fun f => if f = path then some "" else w.textFiles f,
        events := w.events ++ [IOEvent.textOpen path false] })

/-- The insertion `streamFile << text` into a local stream. -/
def OfStream.put (text : String) (s : OfStream) : OfStream :=
  if s.isOpen && !s.failed then { s with buf := s.buf ++ text }
  else { s with failed := true }

/-- The call `streamFile.close()` on a local stream: the buffered characters go to the
file. -/
def ofstream_close (s : OfStream) (w : World V) : OfStream × World V :=
  if s.isOpen then
    ({ s with isOpen := false, buf := "" },
      { w with
        textFiles := fun f =>
          if f = s.path then some ((w.textFiles f).getD "" ++ s.buf) else w.textFiles f })
  else
    ({ s with failed := true }, w)

/-- The loop over a coordinate array that inserts each entry followed by a newline
character (`io.inl`, lines 271-272, 273-274 and 277-278). -/
def putCoordinates (E : Petsc M V) (v : List PetscReal) (streamFile : OfStream) : OfStream :=
  v.foldl (fun s i => (s.put (E.fmtReal i)).put "\n") streamFile

/-- Writes the grid into file (`io.inl`, lines 251-287). -/
def writeGrid (E : Petsc M V) (p : Proc M V) : Flow × Proc M V :=
  let p := p.enter Routine.writeGrid
  let w := PetscPrintf E
    ("\n[time-step " ++ fmt_d p.solver.timeStep ++ "] Writing grid into file... ") p
  if w.1 ≠ 0 then (Flow.returned w.1, w.2) else
  let p := w.2
  let ierr := E.err PetscCall.MPI_Comm_rank
  let rank := p.world.commRank
  if ierr ≠ 0 then (Flow.returned ierr, p) else
  let p :=
    if rank = 0 then
      let o := ofstream_open (p.solver.parameters.directory ++ "/grid.txt") p.world
      let streamFile := o.1
      let streamFile :=
        if p.solver.dim.val = 2 then
          (((streamFile.put (fmt_d p.solver.mesh.nx)).put "\t").put
            (fmt_d p.solver.mesh.ny)).put "\n"
        else if p.solver.dim.val = 3 then
          (((((streamFile.put (fmt_d p.solver.mesh.nx)).put "\t").put
            (fmt_d p.solver.mesh.ny)).put "\t").put (fmt_d p.solver.mesh.nz)).put "\n"
        else streamFile
      let streamFile := putCoordinates E p.solver.mesh.x streamFile
      let streamFile := putCoordinates E p.solver.mesh.y streamFile
      let streamFile :=
        if p.solver.dim.val = 3 then putCoordinates E p.solver.mesh.z streamFile
        else streamFile
      let c := ofstream_close streamFile o.2
      { p with world := c.2 }
    else p
  let w := PetscPrintf E "done.\n" p
  if w.1 ≠ 0 then (Flow.returned w.1, w.2) else
  (Flow.returned 0, w.2)

/-- The lines of the grid description as the specification lists them: the cell counts of
the directions separated by tabs, then the entries of `x`, of `y` and (in three dimensions)
of `z`, each array in its stored order. -/
def gridLines (E : Petsc M V) (dim : Dim) (mesh : CartesianMesh) : List String :=
  match dim with
  | Dim.two =>
    (fmt_d mesh.nx ++ "\t" ++ fmt_d mesh.ny)
      :: (mesh.x.map E.fmtReal ++ mesh.y.map E.fmtReal)
  | Dim.three =>
    (fmt_d mesh.nx ++ "\t" ++ fmt_d mesh.ny ++ "\t" ++ fmt_d mesh.nz)
      :: (mesh.x.map E.fmtReal ++ mesh.y.map E.fmtReal ++ mesh.z.map E.fmtReal)

/-- The text of a file made of the given lines, each ended by a newline. -/
def linesText (lines : List String) : String :=
  lines.foldl (fun text line => text ++ line ++ "\n") ""

/-- Writes the iteration count of each solver into a file (`io.inl`, lines 293-324).  The
two local counters are not set before `getSolverIterations` fills them. -/
def writeIterationCounts (E : Petsc M V) (p : Proc M V) : Flow × Proc M V :=
  let p := p.enter Routine.writeIterationCounts
  let ierr := E.err PetscCall.MPI_Comm_rank
  let rank := p.world.commRank
  if ierr ≠ 0 then (Flow.returned ierr, p) else
  if rank = 0 then
    let filePath := p.solver.parameters.directory ++ "/iterationCounts.txt"
    let p :=
      if p.solver.timeStep = 1 then iterationCountsFile_open filePath false p
      else iterationCountsFile_open filePath true p
    let g := getSolverIterations E p.solver 0 0
    if g.1 ≠ Flow.returned 0 then (g.1, p) else
    let countVelocitySolver := g.2.1
    let countPoissonSolver := g.2.2
    let p := iterationCountsFile_put (fmt_d p.solver.timeStep) p
    let p := iterationCountsFile_put "\t" p
    let p := iterationCountsFile_put (fmt_d countVelocitySolver) p
    let p := iterationCountsFile_put "\t" p
    let p := iterationCountsFile_put (fmt_d countPoissonSolver) p
    let p := iterationCountsFile_endl p
    let p := iterationCountsFile_close p
    (Flow.returned 0, p)
  else
    (Flow.returned 0, p)

/-- A row of the iteration-count log: the time step, the iteration count of the velocity
solver and that of the pressure solver, separated by tabs and ended by a newline (`io.inl`,
lines 316-318). -/
def iterationRow (timeStep countVelocitySolver countPoissonSolver : Int) : String :=
  fmt_d timeStep ++ "\t" ++ fmt_d countVelocitySolver ++ "\t" ++ fmt_d countPoissonSolver
    ++ "\n"

/-- Consecutive rows of the iteration-count log: one row per pair of iteration counts, the
first row for time step `t`, the next for `t + 1`, and so on. -/
def iterationRows (t : Int) : List (Int × Int) → String
  | [] => ""
  | c :: cs => iterationRow t c.1 c.2 ++ iterationRows (t + 1) cs

/-- Writes the numerical solution into respective files (`io.inl`, lines 129-143). -/
def writeData (E : Petsc M V) (p : Proc M V) : Flow × Proc M V :=
  let p := p.enter Routine.writeData
  let r := writeIterationCounts E p
  if r.1 ≠ Flow.returned 0 then r else
  let p := r.2
  if Int.tmod p.solver.timeStep p.solver.parameters.nsave = 0 then
    let r := writeFluxes E p
    if r.1 ≠ Flow.returned 0 then r else
    let r := writeLambda E r.2
    if r.1 ≠ Flow.returned 0 then r else
    (Flow.returned 0, r.2)
  else
    (Flow.returned 0, p)

/-! ## The time step -/

/-- Modelled from the spec: the assembly and projection routines (`assembleRHSVelocity`,
`assembleRHSPoisson`, `projectionStep`) are not part of the sources at hand; the
specification describes them as computing `rhs1`, `rhs2` and the corrected `q` from the
current fields. -/
structure Numerics (M V : Type) where
  assembleRHSVelocity : NavierStokesSolver M V → Vec V
  assembleRHSPoisson : NavierStokesSolver M V → Vec V
  projectionStep : NavierStokesSolver M V → Vec V

/-- Call through a `FP_solving` member-function pointer. -/
def SolveFn.call (E : Petsc M V) : SolveFn → Proc M V → Flow × Proc M V
  | SolveFn.solveV_KSP => PetIBM.solveV_KSP E
  | SolveFn.solveP_KSP => PetIBM.solveP_KSP E
  | SolveFn.solveV_AmgX => PetIBM.solveV_AmgX E
  | SolveFn.solveP_AmgX => PetIBM.solveP_AmgX E

/-- Modelled from the spec: `solveIntermediateVelocity` is declared in
`NavierStokesSolver.h` as the top-level function solving the system for the intermediate
velocity but its body is not part of the sources at hand; the specification has the
velocity solve performed by the backend selected for the velocity system, which the
header keeps in the pointer `solveV`. -/
def solveIntermediateVelocity (E : Petsc M V) (p : Proc M V) : Flow × Proc M V :=
  let r := p.solver.solveV.call E p
  if r.1 ≠ Flow.returned 0 then r else
  (Flow.returned 0, r.2)

/-- Modelled from the spec: `solvePoissonSystem` is declared in `NavierStokesSolver.h` but
its body is not part of the sources at hand; the specification has the pressure solve
performed by the backend selected for the pressure system, which the header keeps in the
pointer `solveP`. -/
def solvePoissonSystem (E : Petsc M V) (p : Proc M V) : Flow × Proc M V :=
  let r := p.solver.solveP.call E p
  if r.1 ≠ Flow.returned 0 then r else
  (Flow.returned 0, r.2)

/-- Modelled from the spec: `stepTime` is declared in `NavierStokesSolver.h` but its body
is not part of the sources at hand.  Per the specification it first increments the time
step and computes the right-hand side of the velocity system; this is the state in which
the velocity solve starts. -/
def beforeVelocitySolve (N : Numerics M V) (p : Proc M V) : Proc M V :=
  let p := { p with solver := { p.solver with timeStep := p.solver.timeStep + 1 } }
  { p with solver := { p.solver with rhs1 := N.assembleRHSVelocity p.solver } }

/-- Modelled from the spec: after the velocity solve `stepTime` computes the right-hand
side of the pressure system; this is the state in which the pressure solve starts. -/
def beforePoissonSolve (N : Numerics M V) (p : Proc M V) : Proc M V :=
  { p with solver := { p.solver with rhs2 := N.assembleRHSPoisson p.solver } }

/-- Modelled from the spec: `stepTime` is declared in `NavierStokesSolver.h` but its body
is not part of the sources at hand.  Per the specification it increments the time step,
computes the right-hand side of the velocity system, invokes the velocity solve, computes
the right-hand side of the pressure system, invokes the pressure solve and projects. -/
def stepTime (E : Petsc M V) (N : Numerics M V) (p : Proc M V) : Flow × Proc M V :=
  let p := beforeVelocitySolve N p
  let r := solveIntermediateVelocity E p
  if r.1 ≠ Flow.returned 0 then r else
  let p := beforePoissonSolve N r.2
  let r := solvePoissonSystem E p
  if r.1 ≠ Flow.returned 0 then r else
  let p := r.2
  let p := { p with solver := { p.solver with q := N.projectionStep p.solver } }
  (Flow.returned 0, p)

/-- The Krylov backend diverges during the solves of the step started from `p`: either the
velocity system is on the Krylov backend and its solve ends with a negative converged
reason, or the velocity solve returns normally, the pressure system is on the Krylov
backend and its solve ends with a negative converged reason. -/
def KrylovDivergesInStep (E : Petsc M V) (N : Numerics M V) (p : Proc M V) : Prop :=
  ((beforeVelocitySolve N p).solver.solveV = SolveFn.solveV_KSP ∧
    (E.krylov (beforeVelocitySolve N p).solver.ksp1 (beforeVelocitySolve N p).solver.rhs1
      (beforeVelocitySolve N p).solver.qStar).reason < 0)
  ∨ ((solveIntermediateVelocity E (beforeVelocitySolve N p)).1 = Flow.returned 0 ∧
    (beforePoissonSolve N
      (solveIntermediateVelocity E (beforeVelocitySolve N p)).2).solver.solveP
        = SolveFn.solveP_KSP ∧
    (E.krylov
      (beforePoissonSolve N (solveIntermediateVelocity E (beforeVelocitySolve N p)).2).solver.ksp2
      (beforePoissonSolve N (solveIntermediateVelocity E (beforeVelocitySolve N p)).2).solver.rhs2
      (beforePoissonSolve N
        (solveIntermediateVelocity E (beforeVelocitySolve N p)).2).solver.lambda).reason < 0)

/-- Modelled from the spec: `finished` is declared in `NavierStokesSolver.h` but its body
is not part of the sources at hand.  Per the specification it is true once the time step
has reached the configured maximum step count. -/
def finished (p : Proc M V) : Bool :=
  decide (p.solver.parameters.maxSteps ≤ p.solver.timeStep)

/-! ## PetIBM.cpp -/

/-- The member functions `main` calls on the solver object it received from
`createSolver` (three of them are virtual). -/
structure Methods (M V : Type) where
  initialize_ : Proc M V → Flow × Proc M V
  finished : Proc M V → Bool
  stepTime : Proc M V → Flow × Proc M V
  writeData : Proc M V → Flow × Proc M V
  finalize : Proc M V → Flow × Proc M V

/-- The methods of the class `NavierStokesSolver` itself; `initialize` and `finalize` are
not part of the sources at hand and are supplied. -/
def NavierStokesSolver.methods (E : Petsc M V) (N : Numerics M V)
    (init fin : Proc M V → Flow × Proc M V) : Methods M V :=
  { initialize_ := init
    finished := PetIBM.finished
    stepTime := PetIBM.stepTime E N
    writeData := PetIBM.writeData E
    finalize := fin }

/-- A call `main` makes on the solver object, with the time step at which it is made. -/
inductive DriverCall where
  | initialize_ (timeStep : Int)
  | stepTime (timeStep : Int)
  | writeData (timeStep : Int)
  | finalize (timeStep : Int)
  deriving DecidableEq

/-- The loop `while(!solver->finished()) { stepTime; CHKERRQ; writeData; CHKERRQ; }`
(`PetIBM.cpp`, lines 51-55), run for at most `fuel` evaluations of the loop condition.
The result is `none` when the fuel does not suffice; otherwise it holds the way the loop
was left (`Flow.returned 0` when the condition became false, else the error code or exit
that made `main` stop inside the body), the state, and the calls made. -/
def timeLoop (S : Methods M V) : Nat → Proc M V → Option (Flow × Proc M V × List DriverCall)
  | 0, _ => none
  | fuel + 1, p =>
    if S.finished p then some (Flow.returned 0, p, []) else
    let r := S.stepTime p
    if r.1 ≠ Flow.returned 0 then
      some (r.1, r.2, [DriverCall.stepTime p.solver.timeStep]) else
    let r2 := S.writeData r.2
    if r2.1 ≠ Flow.returned 0 then
      some (r2.1, r2.2,
        [DriverCall.stepTime p.solver.timeStep, DriverCall.writeData r.2.solver.timeStep]) else
    match timeLoop S fuel r2.2 with
    | none => none
    | some (f, p', calls) =>
      some (f, p',
        DriverCall.stepTime p.solver.timeStep :: DriverCall.writeData r.2.solver.timeStep
          :: calls)

/-- The part of `main` that drives the solver (`PetIBM.cpp`, lines 49-63): `initialize`,
the time loop, `finalize`, the closing banner, `PetscFinalize`, `return 0`. -/
def runSolver (E : Petsc M V) (S : Methods M V) (fuel : Nat) (p : Proc M V) :
    Option (Flow × Proc M V × List DriverCall) :=
  let i := S.initialize_ p
  if i.1 ≠ Flow.returned 0 then
    some (i.1, i.2, [DriverCall.initialize_ p.solver.timeStep]) else
  match timeLoop S fuel i.2 with
  | none => none
  | some (f, q, calls) =>
    if f ≠ Flow.returned 0 then
      some (f, q, DriverCall.initialize_ p.solver.timeStep :: calls) else
    let z := S.finalize q
    let calls := DriverCall.initialize_ p.solver.timeStep :: calls
      ++ [DriverCall.finalize q.solver.timeStep]
    if z.1 ≠ Flow.returned 0 then some (z.1, z.2, calls) else
    let w := PetscPrintf E
      "\n=====================\n*** PetIBM - Done ***\n=====================\n" z.2
    if w.1 ≠ 0 then some (Flow.returned w.1, w.2, calls) else
    let ierr := E.err PetscCall.PetscFinalize
    if ierr ≠ 0 then some (Flow.returned ierr, w.2, calls) else
    some (Flow.returned 0, w.2, calls)

/-- The state after `n` complete passes through the body of the time loop (`stepTime`, then
`writeData`). -/
def afterSteps (S : Methods M V) : Nat → Proc M V → Proc M V
  | 0, p => p
  | n + 1, p => afterSteps S n (S.writeData (S.stepTime p).2).2

/-- The calls of `n` passes through the body of the time loop entered at time step `t0`,
when each `stepTime` adds one to the time step: `stepTime` at `t0 + k` immediately followed
by `writeData` at `t0 + k + 1`, for `k = 0, ..., n - 1`. -/
def loopCalls (t0 : Int) : Nat → List DriverCall
  | 0 => []
  | n + 1 => DriverCall.stepTime t0 :: DriverCall.writeData (t0 + 1) :: loopCalls (t0 + 1) n

/-- The constant `PETSC_MAX_PATH_LEN`. -/
def PETSC_MAX_PATH_LEN : Nat := 4096

/-- The call `PetscOptionsGetString(NULL, name, string, len, NULL)`: error code and the
content of the buffer `string` afterwards; the buffer is left alone when the option is
not in the database. -/
def PetscOptionsGetString (E : Petsc M V) (w : World V) (name string : String) (len : Nat) :
    PetscErrorCode × String :=
  if E.err PetscCall.PetscOptionsGetString ≠ 0 then
    (E.err PetscCall.PetscOptionsGetString, string)
  else
    match w.options.lookup name with
    | some v => (0, v.take (len - 1))
    | none => (0, string)

/-- The program (`PetIBM.cpp`, lines 24-64).  `dir` is the content of the local buffer
`dir`, which the program does not set before `PetscOptionsGetString`; `createSolver`
stands for the constructors of the mesh, flow and parameter descriptions and the factory
`createSolver`, which build the solver object from the files of the simulation directory.
The result holds the way `main` ended, the world, and the calls made on the solver. -/
def main (E : Petsc M V) (S : Methods M V)
    (createSolver : String → World V → NavierStokesSolver M V) (dir : String)
    (fuel : Nat) (w : World V) : Option (Flow × World V × List DriverCall) :=
  let ierr := E.err PetscCall.PetscInitialize
  if ierr ≠ 0 then some (Flow.returned ierr, w, []) else
  let w := { w with options := w.commandLine.foldl PetscOptionsSetValue w.options }
  let ierr := E.err PetscCall.PetscLogBegin
  if ierr ≠ 0 then some (Flow.returned ierr, w, []) else
  let o := w.PetscPrintf E
    "\n======================\n*** PetIBM - Start ***\n======================\n"
  if o.1 ≠ 0 then some (Flow.returned o.1, o.2, []) else
  let w := o.2
  let g := PetscOptionsGetString E w "-directory" dir PETSC_MAX_PATH_LEN
  if g.1 ≠ 0 then some (Flow.returned g.1, w, []) else
  let directory := g.2
  let solver := createSolver directory w
  match runSolver E S fuel { solver := solver, world := w } with
  | none => none
  | some (f, p, calls) => some (f, p.world, calls)

/-! ## Sample environments and states -/

/-- An environment in which every library call succeeds, the Krylov solver converges
(reason 2 after 5 iterations) and the multigrid solver takes 7 iterations; both return the
right-hand side as the solution. -/
def sampleEnv : Petsc Nat Nat :=
  { err := fun _ => 0
    krylov := fun _ b _ => { x := b, reason := 2, its := 5 }
    multigrid := fun _ _ b => { p := b, iters := 7 }
    kspViewText := fun _ => ""
    fmtReal := fun r =>
      if r.bits = 0 then "0"
      else if r.bits = 0x3FE0000000000000 then "0.5"
      else if r.bits = 0x3FF0000000000000 then "1"
      else "nan" }

/-- An environment in which every library call succeeds and the Krylov solver diverges
with reason -3 (`KSP_DIVERGED_ITS`). -/
def divergingEnv : Petsc Nat Nat :=
  { sampleEnv with krylov := fun _ _ x => { x := x, reason := -3, its := 10000 } }

/-- An environment in which every library call succeeds and the Krylov solver converges as
long as the first block of the right-hand side is below 2, and diverges with reason -3
(`KSP_DIVERGED_ITS`) from then on. -/
def divergingLaterEnv : Petsc Nat Nat :=
  { sampleEnv with
    krylov := fun _ b x =>
      if b 0 < 2 then { x := b, reason := 2, its := 5 }
      else { x := x, reason := -3, its := 10000 } }

/-- A two-dimensional solver object at time step 0 in directory `run`, saving every 2 steps
and ending after 2 steps, with both systems on the Krylov backend. -/
def sampleSolver : NavierStokesSolver Nat Nat :=
  { dim := Dim.two
    timeStep := 0
    parameters := { directory := "run", nsave := 2, maxSteps := 2 }
    q := fun i => 10 + i
    qStar := fun _ => 0
    lambda := fun i => 30 + i
    rhs1 := fun i => 1 + i
    rhs2 := fun i => 3 + i
    A := 100
    QTBNQ := 200 }

/-- The process of rank 0 holding `sampleSolver` in an empty world. -/
def sampleProc : Proc Nat Nat :=
  { solver := sampleSolver, world := {} }

/-- The sample process at time step `t`. -/
def sampleProcAt (t : Int) : Proc Nat Nat :=
  { solver := { sampleSolver with timeStep := t }, world := {} }

/-- A mesh of two cells by one cell on the unit square (the doubles 0, 0.5 and 1). -/
def sampleMesh : CartesianMesh :=
  { nx := 2, ny := 1
    x := [⟨0⟩, ⟨0x3FE0000000000000⟩, ⟨0x3FF0000000000000⟩]
    y := [⟨0⟩, ⟨0x3FF0000000000000⟩] }

/-- The sample process of the given rank with the sample mesh. -/
def sampleProcWithMesh (rank : Int) : Proc Nat Nat :=
  { solver := { sampleSolver with mesh := sampleMesh }, world := { commRank := rank } }

/-- The sample process at time step `t` in a world whose iteration-count log holds a line
of an earlier run. -/
def sampleProcWithLog (t : Int) : Proc Nat Nat :=
  { solver := { sampleSolver with timeStep := t }
    world := { textFiles := fun f =>
      if f = "run/iterationCounts.txt" then some "stale\n" else none } }

/-- The sample process in a world where no output stream can be opened (the simulation
directory may not be written). -/
def sampleProcReadOnly : Proc Nat Nat :=
  { solver := sampleSolver, world := { writable := fun _ => false } }

/-- The sample process of rank 0 with the sample mesh in a world where no output stream can
be opened. -/
def sampleProcWithMeshReadOnly : Proc Nat Nat :=
  { solver := { sampleSolver with mesh := sampleMesh }, world := { writable := fun _ => false } }

/-- The sample process in a world whose options database asks for `bcgs` on both systems
and a zero initial guess on the pressure system, and whose options file asks for `gmres` on
the velocity system. -/
def sampleProcWithOptionsFile : Proc Nat Nat :=
  { solver := sampleSolver
    world :=
      { options := [("-velocity_ksp_type", "bcgs"), ("-poisson_ksp_type", "bcgs"),
          ("-poisson_ksp_initial_guess_nonzero", "false")]
        optionFiles := fun f =>
          if f = "run/solversPetscOptions.info" then some [("-velocity_ksp_type", "gmres")]
          else none } }

/-- The sample process with a given content of the options database. -/
def sampleProcWithOptions (options : List (String × String)) : Proc Nat Nat :=
  { solver := sampleSolver, world := { options := options } }

/-- Numerics that leave the right-hand sides and the fluxes as they are. -/
def sampleNumerics : Numerics Nat Nat :=
  { assembleRHSVelocity := fun s => s.rhs1
    assembleRHSPoisson := fun s => s.rhs2
    projectionStep := fun s => s.qStar }

/-- Numerics whose right-hand side of the velocity system holds the time step and whose
right-hand side of the pressure system is zero. -/
def clockNumerics : Numerics Nat Nat :=
  { assembleRHSVelocity := fun s _ => s.timeStep.toNat
    assembleRHSPoisson := fun _ _ => 0
    projectionStep := fun s => s.qStar }

/-- Methods of the solver class over an environment, with `createLinSolvers` standing for
`initialize` and a `finalize` that does nothing. -/
def sampleMethods (E : Petsc Nat Nat) : Methods Nat Nat :=
  NavierStokesSolver.methods E sampleNumerics (createLinSolvers E)
    (fun p => (Flow.returned 0, p))

/-- Construction of `sampleSolver` for a given simulation directory. -/
def sampleCreateSolver (directory : String) (_w : World Nat) : NavierStokesSolver Nat Nat :=
  { sampleSolver with parameters := { sampleSolver.parameters with directory := directory } }

/-- A world of rank 0 where the program was started with `-directory run`. -/
def sampleWorld : World Nat :=
  { commandLine := [("-directory", "run")] }

/-- A process restarted at time step `t` with zeroed fields, in the world the sample
process left after writing its fluxes and its pressure at that time step. -/
def sampleRestart (t : Int) : Proc Nat Nat :=
  { solver := { sampleSolver with timeStep := t, q := fun _ => 0, lambda := fun _ => 0 }
    world := (writeLambda sampleEnv (writeFluxes sampleEnv (sampleProcAt t)).2).2.world }

/-- The methods of the solver class over the sample environment, with `finished` fixed to
"the time step has reached 2". -/
def sampleMethodsUntilTwo : Methods Nat Nat :=
  { sampleMethods sampleEnv with finished := fun s => decide (2 ≤ s.solver.timeStep) }

/-! ## Reading the log of actions -/

/-- The member functions entered, in order. -/
def routinesEntered (events : List IOEvent) : List Routine :=
  events.filterMap fun e =>
    match e with
    | IOEvent.enter r => some r
    | _ => none

/-- The paths of the binary files opened for writing, in order. -/
def binaryWrites (events : List IOEvent) : List String :=
  events.filterMap fun e =>
    match e with
    | IOEvent.binaryOpen path true => some path
    | _ => none

/-- The paths of the binary files opened for reading, in order. -/
def binaryReads (events : List IOEvent) : List String :=
  events.filterMap fun e =>
    match e with
    | IOEvent.binaryOpen path false => some path
    | _ => none

/-- The directories handed to `mkdir`, in order. -/
def directoriesMade (events : List IOEvent) : List String :=
  events.filterMap fun e =>
    match e with
    | IOEvent.mkdir path => some path
    | _ => none

/-! ## Auxiliary facts -/

/-- Passing on the result of a checked call when nothing follows it. -/
theorem checked_tail {σ : Type} (r : Flow × σ) :
    (if r.1 ≠ Flow.returned 0 then r else (Flow.returned 0, r.2)) = r := by
  split_ifs with hne
  · rfl
  · exact Prod.ext (not_not.mp hne).symm rfl

/-- Appending to the same string is injective. -/
theorem string_append_right_inj (a b c : String) : a ++ b = a ++ c ↔ b = c := by
  constructor
  · intro h
    have hd := congrArg String.data h
    simp only [String.data_append] at hd
    exact String.ext (List.append_cancel_left hd)
  · intro h
    rw [h]

/-- The decimal text of a time step that is not negative. -/
theorem fmt_d_of_nonneg (t : Int) (h0 : 0 ≤ t) : fmt_d t = Nat.repr t.toNat := by
  obtain ⟨n, rfl⟩ := Int.eq_ofNat_of_zero_le h0
  rfl

/-- The modelled `solveIntermediateVelocity` is the call through the pointer `solveV`. -/
theorem solveIntermediateVelocity_eq (E : Petsc M V) (p : Proc M V) :
    solveIntermediateVelocity E p = p.solver.solveV.call E p := by
  unfold solveIntermediateVelocity
  exact checked_tail _

/-- The modelled `solvePoissonSystem` is the call through the pointer `solveP`. -/
theorem solvePoissonSystem_eq (E : Petsc M V) (p : Proc M V) :
    solvePoissonSystem E p = p.solver.solveP.call E p := by
  unfold solvePoissonSystem
  exact checked_tail _

/-- Assembling the right-hand side of the velocity system does not touch the world. -/
@[simp] theorem beforeVelocitySolve_world (N : Numerics M V) (p : Proc M V) :
    (beforeVelocitySolve N p).world = p.world := rfl

/-- Assembling the right-hand side of the pressure system does not touch the world. -/
@[simp] theorem beforePoissonSolve_world (N : Numerics M V) (p : Proc M V) :
    (beforePoissonSolve N p).world = p.world := rfl

/-- A solve routine changes nothing of the world but the printed text. -/
theorem solveFn_call_world (E : Petsc M V) (hok : E.allOk) (f : SolveFn) (p : Proc M V) :
    (f.call E p).2.world.events = p.world.events
    ∧ (f.call E p).2.world.binFiles = p.world.binFiles
    ∧ (f.call E p).2.world.textFiles = p.world.textFiles := by
  have h : ∀ c, E.err c = 0 := hok
  cases f
  · by_cases hr : (E.krylov p.solver.ksp1 p.solver.rhs1 p.solver.qStar).reason < 0 <;>
      simp [SolveFn.call, solveV_KSP, KSPSolve, KSPGetConvergedReason, PetscPrintf,
        World.PetscPrintf, h, hr]
  · by_cases hr : (E.krylov p.solver.ksp2 p.solver.rhs2 p.solver.lambda).reason < 0 <;>
      simp [SolveFn.call, solveP_KSP, KSPSolve, KSPGetConvergedReason, PetscPrintf,
        World.PetscPrintf, h, hr]
  · simp [SolveFn.call, solveV_AmgX, AmgXSolver.solve, h]
  · simp [SolveFn.call, solveP_AmgX, AmgXSolver.solve, h]

/-- A solve routine leaves the time step alone, and returns 0 when the library calls succeed
and the Krylov solves do not diverge. -/
theorem solveFn_call_frame (E : Petsc M V) (hok : E.allOk) (f : SolveFn) (p : Proc M V) :
    (f.call E p).2.solver.timeStep = p.solver.timeStep
    ∧ ((∀ ksp b x, 0 ≤ (E.krylov ksp b x).reason) → (f.call E p).1 = Flow.returned 0) := by
  have h : ∀ c, E.err c = 0 := hok
  cases f
  · by_cases hr : (E.krylov p.solver.ksp1 p.solver.rhs1 p.solver.qStar).reason < 0
    · refine ⟨?_, fun hall => absurd (hall _ _ _) (not_le.mpr hr)⟩
      simp [SolveFn.call, solveV_KSP, KSPSolve, KSPGetConvergedReason, PetscPrintf,
        World.PetscPrintf, h, hr]
    · simp [SolveFn.call, solveV_KSP, KSPSolve, KSPGetConvergedReason, PetscPrintf,
        World.PetscPrintf, h, hr]
  · by_cases hr : (E.krylov p.solver.ksp2 p.solver.rhs2 p.solver.lambda).reason < 0
    · refine ⟨?_, fun hall => absurd (hall _ _ _) (not_le.mpr hr)⟩
      simp [SolveFn.call, solveP_KSP, KSPSolve, KSPGetConvergedReason, PetscPrintf,
        World.PetscPrintf, h, hr]
    · simp [SolveFn.call, solveP_KSP, KSPSolve, KSPGetConvergedReason, PetscPrintf,
        World.PetscPrintf, h, hr]
  · simp [SolveFn.call, solveV_AmgX, AmgXSolver.solve, h]
  · simp [SolveFn.call, solveP_AmgX, AmgXSolver.solve, h]

/-- The modelled `stepTime` adds one to the time step, and returns 0 when the library calls
succeed and the Krylov solves do not diverge. -/
theorem stepTime_frame (E : Petsc M V) (hok : E.allOk) (N : Numerics M V) (p : Proc M V) :
    (stepTime E N p).2.solver.timeStep = p.solver.timeStep + 1
    ∧ ((∀ ksp b x, 0 ≤ (E.krylov ksp b x).reason) → (stepTime E N p).1 = Flow.returned 0) := by
  obtain ⟨a1, a2⟩ := solveFn_call_frame E hok (beforeVelocitySolve N p).solver.solveV
    (beforeVelocitySolve N p)
  obtain ⟨b1, b2⟩ := solveFn_call_frame E hok
    (beforePoissonSolve N (solveIntermediateVelocity E (beforeVelocitySolve N p)).2).solver.solveP
    (beforePoissonSolve N (solveIntermediateVelocity E (beforeVelocitySolve N p)).2)
  rw [← solveIntermediateVelocity_eq] at a1 a2
  rw [← solvePoissonSystem_eq] at b1 b2
  have t0 : (beforeVelocitySolve N p).solver.timeStep = p.solver.timeStep + 1 := rfl
  have t1 : (beforePoissonSolve N
      (solveIntermediateVelocity E (beforeVelocitySolve N p)).2).solver.timeStep
      = (solveIntermediateVelocity E (beforeVelocitySolve N p)).2.solver.timeStep := rfl
  constructor
  · unfold stepTime
    simp only []
    split_ifs
    · rw [a1, t0]
    · rw [b1, t1, a1, t0]
    · simp only []
      rw [b1, t1, a1, t0]
  · intro hall
    unfold stepTime
    simp [a2 hall, b2 hall]

/-- `KSPSetFromOptions` leaves the operators of the solver alone. -/
theorem KSPSetFromOptions_Amat (E : Petsc M V) (db : List (String × String)) (ksp : KSP M) :
    (KSPSetFromOptions E db ksp).2.Amat = ksp.Amat := by
  unfold KSPSetFromOptions
  split_ifs
  · simp only []
    split <;> split <;> split <;> rfl
  · rfl

/-- `KSPSetFromOptions` succeeds when the library says so. -/
theorem KSPSetFromOptions_fst (E : Petsc M V) (hok : E.allOk) (db : List (String × String))
    (ksp : KSP M) : (KSPSetFromOptions E db ksp).1 = 0 := by
  unfold KSPSetFromOptions
  simp [hok PetscCall.KSPSetFromOptions]

/-- `PetscOptionsInsertFile` succeeds when the library says so. -/
theorem PetscOptionsInsertFile_fst (E : Petsc M V) (hok : E.allOk) (file : String)
    (w : World V) : (PetscOptionsInsertFile E file w).1 = 0 := by
  unfold PetscOptionsInsertFile
  simp only [hok PetscCall.PetscOptionsInsertFile, if_true]
  split <;> rfl

/-- What `createKSP1` sets up when the library calls succeed. -/
theorem createKSP1_ok (E : Petsc M V) (hok : E.allOk) (p : Proc M V) :
    (createKSP1 E p).1 = Flow.returned 0
    ∧ (createKSP1 E p).2.solver.ksp1.Amat = some p.solver.A
    ∧ (createKSP1 E p).2.solver.rhs1 = p.solver.rhs1
    ∧ (createKSP1 E p).2.solver.qStar = p.solver.qStar := by
  have h : ∀ c, E.err c = 0 := hok
  unfold createKSP1
  simp [h, PetscPrintf, World.PetscPrintf, PetscOptionsInsertFile_fst E hok,
    KSPSetFromOptions_fst E hok, KSPSetFromOptions_Amat]

/-- What `createKSP2` sets up when the library calls succeed. -/
theorem createKSP2_ok (E : Petsc M V) (hok : E.allOk) (p : Proc M V) :
    (createKSP2 E p).1 = Flow.returned 0
    ∧ (createKSP2 E p).2.solver.ksp2.Amat = some p.solver.QTBNQ
    ∧ (createKSP2 E p).2.solver.rhs2 = p.solver.rhs2
    ∧ (createKSP2 E p).2.solver.lambda = p.solver.lambda := by
  have h : ∀ c, E.err c = 0 := hok
  unfold createKSP2
  simp [h, PetscPrintf, World.PetscPrintf, PetscOptionsInsertFile_fst E hok,
    KSPSetFromOptions_fst E hok, KSPSetFromOptions_Amat]

/-- The iteration getters do not look at the state of the log stream. -/
theorem getIterFn_call_stream (E : Petsc M V) (s : NavierStokesSolver M V) (f : OfStream)
    (fn : GetIterFn) (i : Int) :
    fn.call E { s with iterationCountsFile := f } i = fn.call E s i := by
  cases fn <;> rfl

/-- A getter behind a `FP_getIter` pointer returns 0 when `KSPGetIterationNumber` does. -/
theorem getIterFn_call_ok (E : Petsc M V) (hits : E.err PetscCall.KSPGetIterationNumber = 0)
    (s : NavierStokesSolver M V) (fn : GetIterFn) (i : Int) :
    (fn.call E s i).1 = Flow.returned 0 := by
  cases fn <;>
    simp [GetIterFn.call, getSolverIterationsKSP1, getSolverIterationsKSP2,
      getSolverIterationsAmgX1, getSolverIterationsAmgX2, KSPGetIterationNumber, hits]

/-- `getSolverIterations` returns 0 when the library calls succeed. -/
theorem getSolverIterations_ok (E : Petsc M V) (hok : E.allOk) (s : NavierStokesSolver M V)
    (i1 i2 : Int) : (getSolverIterations E s i1 i2).1 = Flow.returned 0 := by
  have h : ∀ c, E.err c = 0 := hok
  unfold getSolverIterations
  cases h1 : s.getSolverIterationsFP1 <;> cases h2 : s.getSolverIterationsFP2 <;>
    simp [GetIterFn.call, getSolverIterationsKSP1, getSolverIterationsKSP2,
      getSolverIterationsAmgX1, getSolverIterationsAmgX2, KSPGetIterationNumber, h]

/-- What `writeIterationCounts` leaves behind when the library calls succeed. -/
theorem writeIterationCounts_frame (E : Petsc M V) (hok : E.allOk) (p : Proc M V) :
    (writeIterationCounts E p).1 = Flow.returned 0
    ∧ routinesEntered (writeIterationCounts E p).2.world.events
        = routinesEntered p.world.events ++ [Routine.writeIterationCounts]
    ∧ binaryWrites (writeIterationCounts E p).2.world.events = binaryWrites p.world.events
    ∧ directoriesMade (writeIterationCounts E p).2.world.events = directoriesMade p.world.events
    ∧ (writeIterationCounts E p).2.world.binFiles = p.world.binFiles
    ∧ (writeIterationCounts E p).2.solver.timeStep = p.solver.timeStep
    ∧ (writeIterationCounts E p).2.solver.parameters = p.solver.parameters
    ∧ (writeIterationCounts E p).2.solver.dim = p.solver.dim := by
  have h : ∀ c, E.err c = 0 := hok
  have hg := getSolverIterations_ok E hok
  unfold writeIterationCounts
  by_cases hrank : p.world.commRank = 0 <;> by_cases ht : p.solver.timeStep = 1 <;>
    by_cases ho : p.solver.iterationCountsFile.isOpen = true <;>
    by_cases hw : p.world.writable (p.solver.parameters.directory ++ "/iterationCounts.txt")
      = true <;>
    simp [Proc.enter, World.log, h, hg, hrank, ht, ho, hw, iterationCountsFile_open,
      iterationCountsFile_put, iterationCountsFile_endl, iterationCountsFile_flush,
      iterationCountsFile_close, routinesEntered, binaryWrites, directoriesMade,
      List.filterMap_append]

/-- The state `writeIterationCounts` leaves on rank 0 when the stream is closed at entry, the
log file can be opened and the library calls of the routine succeed. -/
theorem writeIterationCounts_eq (E : Petsc M V) (p : Proc M V)
    (hrank : p.world.commRank = 0)
    (hmpi : E.err PetscCall.MPI_Comm_rank = 0)
    (hits : E.err PetscCall.KSPGetIterationNumber = 0)
    (hclosed : p.solver.iterationCountsFile.isOpen = false)
    (hopen : p.world.writable (p.solver.parameters.directory ++ "/iterationCounts.txt")
      = true) :
    writeIterationCounts E p = (Flow.returned 0,
      { solver := { p.solver with iterationCountsFile :=
          { isOpen := false, path := p.solver.parameters.directory ++ "/iterationCounts.txt",
            failed := false, buf := "" } },
        world := { p.world with
          textFiles := fun f =>
            if f = p.solver.parameters.directory ++ "/iterationCounts.txt" then
              some ((if p.solver.timeStep = 1 then ""
                  else (p.world.textFiles
                    (p.solver.parameters.directory ++ "/iterationCounts.txt")).getD "")
                ++ (fmt_d p.solver.timeStep ++ "\t"
                  ++ fmt_d (p.solver.getSolverIterationsFP1.call E p.solver 0).2 ++ "\t"
                  ++ fmt_d (p.solver.getSolverIterationsFP2.call E p.solver 0).2 ++ "\n"))
            else p.world.textFiles f,
          events := p.world.events ++
            [IOEvent.enter Routine.writeIterationCounts,
              IOEvent.textOpen (p.solver.parameters.directory ++ "/iterationCounts.txt")
                (if p.solver.timeStep = 1 then false else true)] } }) := by
  have hc := getIterFn_call_ok E hits
  unfold writeIterationCounts
  simp only [hmpi, hrank, Proc.enter, World.log, ne_eq, not_true_eq_false, if_false, if_true]
  by_cases ht : p.solver.timeStep = 1
  · rw [if_pos ht, if_pos ht, if_pos ht]
    simp [getSolverIterations, hc, iterationCountsFile_open, iterationCountsFile_put,
      iterationCountsFile_endl, iterationCountsFile_flush, iterationCountsFile_close, hclosed,
      hopen, getIterFn_call_stream, String.append_assoc]
    funext f
    by_cases hf : f = p.solver.parameters.directory ++ "/iterationCounts.txt" <;> simp [hf]
  · rw [if_neg ht, if_neg ht, if_neg ht]
    simp [getSolverIterations, hc, iterationCountsFile_open, iterationCountsFile_put,
      iterationCountsFile_endl, iterationCountsFile_flush, iterationCountsFile_close, hclosed,
      hopen, getIterFn_call_stream, String.append_assoc]
    funext f
    by_cases hf : f = p.solver.parameters.directory ++ "/iterationCounts.txt" <;> simp [hf]

/-- `getSolverIterations` does not look at the state of the log stream. -/
theorem getSolverIterations_stream (E : Petsc M V) (s : NavierStokesSolver M V) (f : OfStream)
    (a b : Int) :
    getSolverIterations E { s with iterationCountsFile := f } a b
      = getSolverIterations E s a b := by
  unfold getSolverIterations
  simp only [getIterFn_call_stream]

/-- `getSolverIterations` returns 0 when `KSPGetIterationNumber` does. -/
theorem getSolverIterations_returned (E : Petsc M V)
    (hits : E.err PetscCall.KSPGetIterationNumber = 0) (s : NavierStokesSolver M V)
    (a b : Int) : (getSolverIterations E s a b).1 = Flow.returned 0 := by
  have hc := getIterFn_call_ok E hits
  unfold getSolverIterations
  simp [hc]

/-- What `writeIterationCounts` does on rank 0 when the stream is closed at entry and the log
file cannot be opened: the stream is never tested, so the routine goes on, returns 0 when
`MPI_Comm_rank` and `getSolverIterations` succeed, and leaves every text file as it was;
the stream is left without a file, in its fail state. -/
theorem writeIterationCounts_unwritable (E : Petsc M V) (p : Proc M V)
    (hrank : p.world.commRank = 0)
    (hmpi : E.err PetscCall.MPI_Comm_rank = 0)
    (hg : (getSolverIterations E p.solver 0 0).1 = Flow.returned 0)
    (hclosed : p.solver.iterationCountsFile.isOpen = false)
    (hno : p.world.writable (p.solver.parameters.directory ++ "/iterationCounts.txt")
      = false) :
    writeIterationCounts E p = (Flow.returned 0,
      { solver := { p.solver with iterationCountsFile :=
          { p.solver.iterationCountsFile with failed := true } },
        world := { p.world with
          events := p.world.events ++ [IOEvent.enter Routine.writeIterationCounts] } }) := by
  unfold writeIterationCounts
  simp only [hmpi, hrank, Proc.enter, World.log, ne_eq, not_true_eq_false, if_false, if_true]
  by_cases ht : p.solver.timeStep = 1
  · rw [if_pos ht]
    simp [hg, iterationCountsFile_open, iterationCountsFile_put,
      iterationCountsFile_endl, iterationCountsFile_flush, iterationCountsFile_close, hclosed,
      hno, getSolverIterations_stream]
  · rw [if_neg ht]
    simp [hg, iterationCountsFile_open, iterationCountsFile_put,
      iterationCountsFile_endl, iterationCountsFile_flush, iterationCountsFile_close, hclosed,
      hno, getSolverIterations_stream]

/-- What `writeFluxes` leaves behind when the library calls succeed. -/
theorem writeFluxes_ok (E : Petsc M V) (hok : E.allOk) (p : Proc M V) :
    (writeFluxes E p).1 = Flow.returned 0
    ∧ (writeFluxes E p).2.solver = p.solver
    ∧ (writeFluxes E p).2.world.events = p.world.events ++
        ([IOEvent.enter Routine.writeFluxes,
          IOEvent.mkdir (solutionDirectory p.solver.parameters.directory p.solver.timeStep),
          IOEvent.binaryOpen
            (solutionDirectory p.solver.parameters.directory p.solver.timeStep ++ "/qx.dat") true,
          IOEvent.binaryOpen
            (solutionDirectory p.solver.parameters.directory p.solver.timeStep ++ "/qy.dat") true]
          ++ (if p.solver.dim = Dim.three then
            [IOEvent.binaryOpen
              (solutionDirectory p.solver.parameters.directory p.solver.timeStep ++ "/qz.dat")
              true]
            else []))
    ∧ (writeFluxes E p).2.world.textFiles = p.world.textFiles
    ∧ (writeFluxes E p).2.world.binFiles
        (solutionDirectory p.solver.parameters.directory p.solver.timeStep ++ "/qx.dat")
        = some [p.solver.q 0]
    ∧ (writeFluxes E p).2.world.binFiles
        (solutionDirectory p.solver.parameters.directory p.solver.timeStep ++ "/qy.dat")
        = some [p.solver.q 1]
    ∧ (p.solver.dim = Dim.three → (writeFluxes E p).2.world.binFiles
        (solutionDirectory p.solver.parameters.directory p.solver.timeStep ++ "/qz.dat")
        = some [p.solver.q 2])
    ∧ (∀ f, f ≠ solutionDirectory p.solver.parameters.directory p.solver.timeStep ++ "/qx.dat" →
        f ≠ solutionDirectory p.solver.parameters.directory p.solver.timeStep ++ "/qy.dat" →
        (p.solver.dim = Dim.three →
          f ≠ solutionDirectory p.solver.parameters.directory p.solver.timeStep ++ "/qz.dat") →
        (writeFluxes E p).2.world.binFiles f = p.world.binFiles f) := by
  have h : ∀ c, E.err c = 0 := hok
  unfold writeFluxes
  cases hd : p.solver.dim <;>
    simp [Proc.enter, World.log, h, hd, Dim.val, PetscPrintf, World.PetscPrintf, mkdir,
      viewToFile, PetscViewerBinaryOpen, VecView, string_append_right_inj]
  · intro f h1 h2
    simp [h1, h2]
  · intro f h1 h2 h3
    simp [h1, h2, h3]

/-- What `writeLambda` leaves behind when the library calls succeed. -/
theorem writeLambda_ok (E : Petsc M V) (hok : E.allOk) (p : Proc M V) :
    (writeLambda E p).1 = Flow.returned 0
    ∧ (writeLambda E p).2.solver = p.solver
    ∧ (writeLambda E p).2.world.events = p.world.events ++
        [IOEvent.enter Routine.writeLambda,
          IOEvent.mkdir (solutionDirectory p.solver.parameters.directory p.solver.timeStep),
          IOEvent.binaryOpen
            (solutionDirectory p.solver.parameters.directory p.solver.timeStep ++ "/phi.dat")
            true]
    ∧ (writeLambda E p).2.world.textFiles = p.world.textFiles
    ∧ (writeLambda E p).2.world.binFiles
        (solutionDirectory p.solver.parameters.directory p.solver.timeStep ++ "/phi.dat")
        = some [p.solver.lambda 0]
    ∧ (∀ f, f ≠ solutionDirectory p.solver.parameters.directory p.solver.timeStep ++ "/phi.dat" →
        (writeLambda E p).2.world.binFiles f = p.world.binFiles f) := by
  have h : ∀ c, E.err c = 0 := hok
  unfold writeLambda
  simp [Proc.enter, World.log, h, PetscPrintf, World.PetscPrintf, mkdir,
      viewToFile, PetscViewerBinaryOpen, VecView]
  intro f h1
  simp [h1]

/-- The result of `writeData` when the library calls succeed. -/
theorem writeData_eq (E : Petsc M V) (hok : E.allOk) (p : Proc M V) :
    writeData E p =
      if Int.tmod p.solver.timeStep p.solver.parameters.nsave = 0 then
        (Flow.returned 0,
          (writeLambda E
            (writeFluxes E (writeIterationCounts E (p.enter Routine.writeData)).2).2).2)
      else (Flow.returned 0, (writeIterationCounts E (p.enter Routine.writeData)).2) := by
  obtain ⟨hi1, -, -, -, -, hi6, hi7, -⟩ :=
    writeIterationCounts_frame E hok (p.enter Routine.writeData)
  have hf1 := (writeFluxes_ok E hok (writeIterationCounts E (p.enter Routine.writeData)).2).1
  have hl1 := (writeLambda_ok E hok
      (writeFluxes E (writeIterationCounts E (p.enter Routine.writeData)).2).2).1
  have hts : (p.enter Routine.writeData).solver = p.solver := rfl
  rw [hts] at hi6 hi7
  unfold writeData
  simp [hi1, hi6, hi7, hf1, hl1]

/-- `writeData` leaves the time step alone and returns 0 when the library calls succeed. -/
theorem writeData_frame (E : Petsc M V) (hok : E.allOk) (p : Proc M V) :
    (writeData E p).2.solver.timeStep = p.solver.timeStep
    ∧ (writeData E p).1 = Flow.returned 0 := by
  obtain ⟨-, -, -, -, -, hi6, -⟩ := writeIterationCounts_frame E hok (p.enter Routine.writeData)
  have hf2 := (writeFluxes_ok E hok (writeIterationCounts E (p.enter Routine.writeData)).2).2.1
  have hl2 := (writeLambda_ok E hok
      (writeFluxes E (writeIterationCounts E (p.enter Routine.writeData)).2).2).2.1
  have hts : (p.enter Routine.writeData).solver = p.solver := rfl
  rw [hts] at hi6
  rw [writeData_eq E hok p]
  constructor
  · split_ifs
    · simp only []
      rw [hl2, hf2, hi6]
    · exact hi6
  · split_ifs <;> rfl

/-- Loading a vector from a file opens that file for reading, and does nothing else to the
log of actions. -/
theorem loadFromFile_events (E : Petsc M V) (path : String) (v : V) (w : World V) :
    (loadFromFile E path v w).2.2.events = w.events ++ [IOEvent.binaryOpen path false] := by
  unfold loadFromFile PetscViewerBinaryOpen
  cases hf : w.binFiles path <;> simp [World.log, hf] <;> split_ifs <;> simp

/-- What `readFluxes` does when the library calls succeed and the files of the time step
hold a vector each. -/
theorem readFluxes_ok (E : Petsc M V) (hok : E.allOk) (r : Proc M V) (vx vy vz : V)
    (lx ly lz : List V)
    (hx : r.world.binFiles
      (solutionDirectory r.solver.parameters.directory r.solver.timeStep ++ "/qx.dat")
        = some (vx :: lx))
    (hy : r.world.binFiles
      (solutionDirectory r.solver.parameters.directory r.solver.timeStep ++ "/qy.dat")
        = some (vy :: ly))
    (hz : r.solver.dim = Dim.three → r.world.binFiles
      (solutionDirectory r.solver.parameters.directory r.solver.timeStep ++ "/qz.dat")
        = some (vz :: lz)) :
    (readFluxes E r).1 = Flow.returned 0
    ∧ (readFluxes E r).2.solver.q 0 = vx
    ∧ (readFluxes E r).2.solver.q 1 = vy
    ∧ (r.solver.dim = Dim.three → (readFluxes E r).2.solver.q 2 = vz)
    ∧ (readFluxes E r).2.solver.lambda = r.solver.lambda
    ∧ (readFluxes E r).2.solver.timeStep = r.solver.timeStep
    ∧ (readFluxes E r).2.solver.parameters = r.solver.parameters
    ∧ (readFluxes E r).2.world.binFiles = r.world.binFiles
    ∧ (readFluxes E r).2.world.events = r.world.events ++
        ([IOEvent.enter Routine.readFluxes,
          IOEvent.binaryOpen
            (solutionDirectory r.solver.parameters.directory r.solver.timeStep ++ "/qx.dat")
            false,
          IOEvent.binaryOpen
            (solutionDirectory r.solver.parameters.directory r.solver.timeStep ++ "/qy.dat")
            false]
          ++ (if r.solver.dim = Dim.three then
            [IOEvent.binaryOpen
              (solutionDirectory r.solver.parameters.directory r.solver.timeStep ++ "/qz.dat")
              false]
            else [])) := by
  have h : ∀ c, E.err c = 0 := hok
  unfold readFluxes
  cases hd : r.solver.dim
  · simp [Proc.enter, World.log, h, hd, Dim.val, PetscPrintf, World.PetscPrintf,
      loadFromFile, PetscViewerBinaryOpen, VecLoad, hx, hy, setBlock]
  · have hz' := hz hd
    simp [Proc.enter, World.log, h, hd, Dim.val, PetscPrintf, World.PetscPrintf,
      loadFromFile, PetscViewerBinaryOpen, VecLoad, hx, hy, hz', setBlock]

/-- What `readLambda` does when the library calls succeed and the pressure file of the time
step holds a vector. -/
theorem readLambda_ok (E : Petsc M V) (hok : E.allOk) (r : Proc M V) (v : V) (l : List V)
    (hphi : r.world.binFiles
      (solutionDirectory r.solver.parameters.directory r.solver.timeStep ++ "/phi.dat")
        = some (v :: l)) :
    (readLambda E r).1 = Flow.returned 0
    ∧ (readLambda E r).2.solver.lambda 0 = v
    ∧ (∀ i, i ≠ 0 → (readLambda E r).2.solver.lambda i = r.solver.lambda i)
    ∧ (readLambda E r).2.solver.q = r.solver.q
    ∧ (readLambda E r).2.world.events = r.world.events ++
        [IOEvent.enter Routine.readLambda,
          IOEvent.binaryOpen
            (solutionDirectory r.solver.parameters.directory r.solver.timeStep ++ "/phi.dat")
            false] := by
  have h : ∀ c, E.err c = 0 := hok
  unfold readLambda
  simp [Proc.enter, World.log, h, PetscPrintf, World.PetscPrintf,
      loadFromFile, PetscViewerBinaryOpen, VecLoad, hphi, setBlock]
  intro i hi
  simp [hi]

/-- The first file `readFluxes` opens. -/
theorem readFluxes_opens_qx (E : Petsc M V) (hok : E.allOk) (p : Proc M V) :
    ∃ rest, (readFluxes E p).2.world.events = p.world.events ++
        (IOEvent.enter Routine.readFluxes ::
          IOEvent.binaryOpen
            (solutionDirectory p.solver.parameters.directory p.solver.timeStep ++ "/qx.dat")
            false :: rest) := by
  have h : ∀ c, E.err c = 0 := hok
  unfold readFluxes
  simp only [h, PetscPrintf, World.PetscPrintf, if_true, ne_eq, not_true_eq_false, if_false,
    ite_self]
  split_ifs <;> simp [loadFromFile_events, Proc.enter, World.log, h]

/-- The file `readLambda` opens. -/
theorem readLambda_opens_phi (E : Petsc M V) (hok : E.allOk) (p : Proc M V) :
    ∃ rest, (readLambda E p).2.world.events = p.world.events ++
        (IOEvent.enter Routine.readLambda ::
          IOEvent.binaryOpen
            (solutionDirectory p.solver.parameters.directory p.solver.timeStep ++ "/phi.dat")
            false :: rest) := by
  have h : ∀ c, E.err c = 0 := hok
  unfold readLambda
  cases hphi : p.world.binFiles
      (solutionDirectory p.solver.parameters.directory p.solver.timeStep ++ "/phi.dat") with
  | none =>
    simp [Proc.enter, World.log, h, PetscPrintf, World.PetscPrintf,
      loadFromFile, PetscViewerBinaryOpen, VecLoad, hphi, setBlock, PETSC_ERR_FILE_OPEN]
  | some l =>
    cases l <;>
    simp [Proc.enter, World.log, h, PetscPrintf, World.PetscPrintf,
      loadFromFile, PetscViewerBinaryOpen, VecLoad, hphi, setBlock, PETSC_ERR_FILE_READ]

/-- One pass through the body of the time loop without error. -/
theorem timeLoop_pass (S : Methods M V) (fuel : Nat) (p : Proc M V)
    (hnf : S.finished p = false) (hs : (S.stepTime p).1 = Flow.returned 0)
    (hw : (S.writeData (S.stepTime p).2).1 = Flow.returned 0) :
    timeLoop S (fuel + 1) p =
      (timeLoop S fuel (S.writeData (S.stepTime p).2).2).map fun r =>
        (r.1, r.2.1, DriverCall.stepTime p.solver.timeStep
          :: DriverCall.writeData (S.stepTime p).2.solver.timeStep :: r.2.2) := by
  rw [timeLoop]
  simp only [hnf, hs, hw, ne_eq, not_true_eq_false, if_false, Bool.false_eq_true]
  cases timeLoop S fuel (S.writeData (S.stepTime p).2).2 with
  | none => rfl
  | some r => rfl

/-- The time loop of an error-free run. -/
theorem timeLoop_run (S : Methods M V) (maxSteps : Int)
    (hfin : ∀ s, S.finished s = true ↔ maxSteps ≤ s.solver.timeStep)
    (hstep : ∀ s, (S.stepTime s).2.solver.timeStep = s.solver.timeStep + 1)
    (hwrite : ∀ s, (S.writeData s).2.solver.timeStep = s.solver.timeStep)
    (hsok : ∀ s, (S.stepTime s).1 = Flow.returned 0)
    (hwok : ∀ s, (S.writeData s).1 = Flow.returned 0) :
    ∀ (n fuel : Nat) (p : Proc M V), p.solver.timeStep + n = maxSteps → n < fuel →
      timeLoop S fuel p
        = some (Flow.returned 0, afterSteps S n p, loopCalls p.solver.timeStep n)
      ∧ (afterSteps S n p).solver.timeStep = maxSteps := by
  intro n
  induction n with
  | zero =>
    intro fuel p hp hf
    obtain ⟨k, rfl⟩ : ∃ k, fuel = k + 1 := ⟨fuel - 1, by omega⟩
    have hfp : S.finished p = true := (hfin p).2 (by omega)
    refine ⟨?_, by simpa using hp⟩
    rw [timeLoop]
    simp [hfp, afterSteps, loopCalls]
  | succ n ih =>
    intro fuel p hp hf
    obtain ⟨k, rfl⟩ : ∃ k, fuel = k + 1 := ⟨fuel - 1, by omega⟩
    have hnf : S.finished p = false := by
      cases hc : S.finished p with
      | false => rfl
      | true =>
        have := (hfin p).1 hc
        omega
    have hts : (S.writeData (S.stepTime p).2).2.solver.timeStep = p.solver.timeStep + 1 := by
      rw [hwrite, hstep]
    obtain ⟨h1, h2⟩ := ih k (S.writeData (S.stepTime p).2).2 (by rw [hts]; omega) (by omega)
    rw [timeLoop_pass S k p hnf (hsok p) (hwok _), h1]
    refine ⟨?_, h2⟩
    simp [afterSteps, loopCalls, hts, hstep]

/-- The calls of the loop body come in pairs, and `stepTime` is called at the time steps
`t0, ..., t0 + n - 1` only. -/
theorem loopCalls_spec (n : Nat) : ∀ (t0 : Int),
    (loopCalls t0 n).length = 2 * n
    ∧ (∀ t, DriverCall.stepTime t ∈ loopCalls t0 n → t0 ≤ t ∧ t < t0 + n)
    ∧ (∀ t, DriverCall.writeData t ∈ loopCalls t0 n → t0 < t ∧ t ≤ t0 + n) := by
  induction n with
  | zero => intro t0; simp [loopCalls]
  | succ n ih =>
    intro t0
    obtain ⟨h1, h2, h3⟩ := ih (t0 + 1)
    refine ⟨by simp [loopCalls, h1]; omega, ?_, ?_⟩
    · intro t ht
      simp only [loopCalls, List.mem_cons, DriverCall.stepTime.injEq] at ht
      rcases ht with rfl | h | h
      · constructor <;> push_cast <;> omega
      · cases h
      · have := h2 t h
        constructor <;> push_cast <;> omega
    · intro t ht
      simp only [loopCalls, List.mem_cons, DriverCall.writeData.injEq] at ht
      rcases ht with h | rfl | h
      · cases h
      · constructor <;> push_cast <;> omega
      · have := h3 t h
        constructor <;> push_cast <;> omega

/-! ## Divergence of the Krylov backend (C1, C2, C5) -/

/-- C1: when the library calls of the routine succeed, `solveV_KSP` and `solveP_KSP` end
the process exactly when the converged reason of the solve is negative; in that case the
text printed is the line with the current time step followed by the error line with the
numeric reason; for every reason that is zero or positive they return 0, print nothing
and do not end the process. -/
theorem solve_KSP_terminates_iff_reason_negative (E : Petsc M V) (p : Proc M V)
    (hok : E.allOk) :
    ((solveV_KSP E p).1.terminated = true ↔
        (E.krylov p.solver.ksp1 p.solver.rhs1 p.solver.qStar).reason < 0)
    ∧ ((E.krylov p.solver.ksp1 p.solver.rhs1 p.solver.qStar).reason < 0 →
        (solveV_KSP E p).2.world.stdout =
          p.world.stdout ++ ("\n[time-step " ++ fmt_d p.solver.timeStep ++ "]")
            ++ ("\nERROR: velocity solver diverged due to reason: "
              ++ fmt_d (E.krylov p.solver.ksp1 p.solver.rhs1 p.solver.qStar).reason ++ "\n"))
    ∧ (0 ≤ (E.krylov p.solver.ksp1 p.solver.rhs1 p.solver.qStar).reason →
        (solveV_KSP E p).1 = Flow.returned 0 ∧ (solveV_KSP E p).2.world = p.world)
    ∧ ((solveP_KSP E p).1.terminated = true ↔
        (E.krylov p.solver.ksp2 p.solver.rhs2 p.solver.lambda).reason < 0)
    ∧ ((E.krylov p.solver.ksp2 p.solver.rhs2 p.solver.lambda).reason < 0 →
        (solveP_KSP E p).2.world.stdout =
          p.world.stdout ++ ("\n[time-step " ++ fmt_d p.solver.timeStep ++ "]")
            ++ ("\nERROR: Poisson solver diverged due to reason: "
              ++ fmt_d (E.krylov p.solver.ksp2 p.solver.rhs2 p.solver.lambda).reason ++ "\n"))
    ∧ (0 ≤ (E.krylov p.solver.ksp2 p.solver.rhs2 p.solver.lambda).reason →
        (solveP_KSP E p).1 = Flow.returned 0 ∧ (solveP_KSP E p).2.world = p.world) := by
  have h : ∀ c, E.err c = 0 := hok
  refine ⟨?_, ?_, ?_, ?_, ?_, ?_⟩
  · by_cases hr : (E.krylov p.solver.ksp1 p.solver.rhs1 p.solver.qStar).reason < 0 <;>
      simp [solveV_KSP, KSPSolve, KSPGetConvergedReason, PetscPrintf, World.PetscPrintf, h, hr,
        Flow.terminated]
  · intro hr
    simp [solveV_KSP, KSPSolve, KSPGetConvergedReason, PetscPrintf, World.PetscPrintf, h, hr,
      String.append_assoc]
  · intro hr
    have hr' : ¬ (E.krylov p.solver.ksp1 p.solver.rhs1 p.solver.qStar).reason < 0 := by omega
    simp [solveV_KSP, KSPSolve, KSPGetConvergedReason, PetscPrintf, World.PetscPrintf, h, hr']
  · by_cases hr : (E.krylov p.solver.ksp2 p.solver.rhs2 p.solver.lambda).reason < 0 <;>
      simp [solveP_KSP, KSPSolve, KSPGetConvergedReason, PetscPrintf, World.PetscPrintf, h, hr,
        Flow.terminated]
  · intro hr
    simp [solveP_KSP, KSPSolve, KSPGetConvergedReason, PetscPrintf, World.PetscPrintf, h, hr,
      String.append_assoc]
  · intro hr
    have hr' : ¬ (E.krylov p.solver.ksp2 p.solver.rhs2 p.solver.lambda).reason < 0 := by omega
    simp [solveP_KSP, KSPSolve, KSPGetConvergedReason, PetscPrintf, World.PetscPrintf, h, hr']

/-- Instance of C1 at the diverging sample environment: every library call succeeds, the
reason is -3, and the velocity routine ends the process. -/
theorem solve_KSP_terminates_iff_reason_negative_witness :
    divergingEnv.allOk ∧
    ((solveV_KSP divergingEnv sampleProc).1.terminated = true ↔
        (divergingEnv.krylov sampleProc.solver.ksp1 sampleProc.solver.rhs1
          sampleProc.solver.qStar).reason < 0) :=
  ⟨fun _ => rfl,
    (solve_KSP_terminates_iff_reason_negative divergingEnv sampleProc (fun _ => rfl)).1⟩

/-- C2: with a Krylov solve that diverges with reason -3, `solveV_KSP` and `solveP_KSP`
end the process through `exit(0)`, and the whole program started with `-directory run`
ends with exit status 0, the status of a normal completion. -/
theorem diverged_solve_exit_status_zero :
    (solveV_KSP divergingEnv sampleProc).1 = Flow.exited 0
    ∧ (solveP_KSP divergingEnv sampleProc).1 = Flow.exited 0
    ∧ (main divergingEnv (sampleMethods divergingEnv) sampleCreateSolver "" 5 sampleWorld).map
        (fun r => r.1.exitStatus) = some 0 := by
  decide

/-- C5: in the driver loop, when the Krylov backend diverges during the solves of the
step started from `p`, the loop is left by the exit of the process right after the single
call of `stepTime`: `writeData` is not called for that step, and the log of actions, the
binary files and the text files are those from before the step (no directory made, no
flux or pressure file opened, no row written). -/
theorem divergence_skips_writeData (E : Petsc M V) (N : Numerics M V)
    (init fin : Proc M V → Flow × Proc M V) (p : Proc M V) (fuel : Nat)
    (hok : E.allOk) (hnf : finished p = false) (hdiv : KrylovDivergesInStep E N p) :
    ∃ p', timeLoop (NavierStokesSolver.methods E N init fin) (fuel + 1) p
        = some (Flow.exited 0, p', [DriverCall.stepTime p.solver.timeStep])
      ∧ p'.world.events = p.world.events
      ∧ p'.world.binFiles = p.world.binFiles
      ∧ p'.world.textFiles = p.world.textFiles := by
  have h : ∀ c, E.err c = 0 := hok
  have hw1 := solveFn_call_world E hok (beforeVelocitySolve N p).solver.solveV
    (beforeVelocitySolve N p)
  rw [← solveIntermediateVelocity_eq, beforeVelocitySolve_world] at hw1
  have hstep : (stepTime E N p).1 = Flow.exited 0
      ∧ (stepTime E N p).2.world.events = p.world.events
      ∧ (stepTime E N p).2.world.binFiles = p.world.binFiles
      ∧ (stepTime E N p).2.world.textFiles = p.world.textFiles := by
    rcases hdiv with ⟨hV, hr⟩ | ⟨hflow, hP, hr⟩
    · have hx : (solveIntermediateVelocity E (beforeVelocitySolve N p)).1 = Flow.exited 0 := by
        simp [solveIntermediateVelocity_eq, hV, SolveFn.call, solveV_KSP, KSPSolve,
          KSPGetConvergedReason, PetscPrintf, World.PetscPrintf, h, hr]
      simp only [stepTime, hx]
      simp
      exact ⟨hx, hw1⟩
    · have hx : (solvePoissonSystem E (beforePoissonSolve N
          (solveIntermediateVelocity E (beforeVelocitySolve N p)).2)).1 = Flow.exited 0 := by
        simp [solvePoissonSystem_eq, hP, SolveFn.call, solveP_KSP, KSPSolve,
          KSPGetConvergedReason, PetscPrintf, World.PetscPrintf, h, hr]
      have hw2 := solveFn_call_world E hok
        (beforePoissonSolve N
          (solveIntermediateVelocity E (beforeVelocitySolve N p)).2).solver.solveP
        (beforePoissonSolve N (solveIntermediateVelocity E (beforeVelocitySolve N p)).2)
      rw [← solvePoissonSystem_eq, beforePoissonSolve_world] at hw2
      simp only [stepTime, hflow, hx]
      simp
      exact ⟨hx, hw2.1.trans hw1.1, hw2.2.1.trans hw1.2.1, hw2.2.2.trans hw1.2.2⟩
  refine ⟨(stepTime E N p).2, ?_, hstep.2⟩
  simp [timeLoop, NavierStokesSolver.methods, hnf, hstep.1]

/-- Instance of C5: from the sample state at time step 0, with the velocity solve diverging
with reason -3, the loop ends by the exit of the process after one call of `stepTime`. -/
theorem divergence_skips_writeData_witness :
    divergingEnv.allOk ∧ finished sampleProc = false
    ∧ KrylovDivergesInStep divergingEnv sampleNumerics sampleProc
    ∧ ∃ p', timeLoop (NavierStokesSolver.methods divergingEnv sampleNumerics
          (createLinSolvers divergingEnv) (fun p => (Flow.returned 0, p))) (0 + 1) sampleProc
        = some (Flow.exited 0, p', [DriverCall.stepTime sampleProc.solver.timeStep])
      ∧ p'.world.events = sampleProc.world.events
      ∧ p'.world.binFiles = sampleProc.world.binFiles
      ∧ p'.world.textFiles = sampleProc.world.textFiles :=
  ⟨fun _ => rfl, by decide, Or.inl ⟨rfl, by decide⟩,
    divergence_skips_writeData divergingEnv sampleNumerics _ _ sampleProc 0 (fun _ => rfl)
      (by decide) (Or.inl ⟨rfl, by decide⟩)⟩

/-! ## The two backends (C4, C6) -/

/-- C4: the two backends of a system are handed the same problem.  After `createKSP1` the Krylov
solver of the velocity system works on operator `A`, and so does the multigrid solver after
`createAmgX1`; `solveV_KSP` leaves in `qStar` what the Krylov backend computes from
right-hand side `rhs1` and vector `qStar` (arguments in the order of `KSPSolve`), and
`solveV_AmgX` what the multigrid backend computes from vector `qStar` and right-hand side
`rhs1` (arguments in the order of `AmgXSolver::solve`); the same holds for the pressure
system with `QTBNQ`, `rhs2` and `lambda`.  Hence, when both backends compute the same exact
`solve operator guess rhs`, `qStar` and `lambda` do not depend on the backend. -/
theorem backends_solve_same_problem (E : Petsc M V) (p : Proc M V)
    (solve : Option M → Vec V → Vec V → Vec V) (hok : E.allOk)
    (hK : ∀ ksp b x, (E.krylov ksp b x).x = solve ksp.Amat x b)
    (hA : ∀ amgx x b, (E.multigrid amgx x b).p = solve amgx.A x b) :
    (createKSP1 E p).2.solver.ksp1.Amat = some p.solver.A
    ∧ (createAmgX1 p).2.solver.amgx1.A = some p.solver.A
    ∧ (solveV_KSP E (createKSP1 E p).2).2.solver.qStar
        = (E.krylov (createKSP1 E p).2.solver.ksp1 p.solver.rhs1 p.solver.qStar).x
    ∧ (solveV_AmgX E (createAmgX1 p).2).2.solver.qStar
        = (E.multigrid (createAmgX1 p).2.solver.amgx1 p.solver.qStar p.solver.rhs1).p
    ∧ (solveV_KSP E (createKSP1 E p).2).2.solver.qStar
        = solve (some p.solver.A) p.solver.qStar p.solver.rhs1
    ∧ (solveV_AmgX E (createAmgX1 p).2).2.solver.qStar
        = (solveV_KSP E (createKSP1 E p).2).2.solver.qStar
    ∧ (createKSP2 E p).2.solver.ksp2.Amat = some p.solver.QTBNQ
    ∧ (createAmgX2 p).2.solver.amgx2.A = some p.solver.QTBNQ
    ∧ (solveP_KSP E (createKSP2 E p).2).2.solver.lambda
        = (E.krylov (createKSP2 E p).2.solver.ksp2 p.solver.rhs2 p.solver.lambda).x
    ∧ (solveP_AmgX E (createAmgX2 p).2).2.solver.lambda
        = (E.multigrid (createAmgX2 p).2.solver.amgx2 p.solver.lambda p.solver.rhs2).p
    ∧ (solveP_KSP E (createKSP2 E p).2).2.solver.lambda
        = solve (some p.solver.QTBNQ) p.solver.lambda p.solver.rhs2
    ∧ (solveP_AmgX E (createAmgX2 p).2).2.solver.lambda
        = (solveP_KSP E (createKSP2 E p).2).2.solver.lambda := by
  have h : ∀ c, E.err c = 0 := hok
  obtain ⟨-, k1, k2, k3⟩ := createKSP1_ok E hok p
  obtain ⟨-, m1, m2, m3⟩ := createKSP2_ok E hok p
  have vK : (solveV_KSP E (createKSP1 E p).2).2.solver.qStar
      = (E.krylov (createKSP1 E p).2.solver.ksp1 p.solver.rhs1 p.solver.qStar).x := by
    rw [← k2, ← k3]
    by_cases hr : (E.krylov (createKSP1 E p).2.solver.ksp1 (createKSP1 E p).2.solver.rhs1
        (createKSP1 E p).2.solver.qStar).reason < 0 <;>
      simp [solveV_KSP, KSPSolve, KSPGetConvergedReason, PetscPrintf, World.PetscPrintf, h, hr]
  have pK : (solveP_KSP E (createKSP2 E p).2).2.solver.lambda
      = (E.krylov (createKSP2 E p).2.solver.ksp2 p.solver.rhs2 p.solver.lambda).x := by
    rw [← m2, ← m3]
    by_cases hr : (E.krylov (createKSP2 E p).2.solver.ksp2 (createKSP2 E p).2.solver.rhs2
        (createKSP2 E p).2.solver.lambda).reason < 0 <;>
      simp [solveP_KSP, KSPSolve, KSPGetConvergedReason, PetscPrintf, World.PetscPrintf, h, hr]
  have vA : (solveV_AmgX E (createAmgX1 p).2).2.solver.qStar
      = (E.multigrid (createAmgX1 p).2.solver.amgx1 p.solver.qStar p.solver.rhs1).p := by
    simp [solveV_AmgX, AmgXSolver.solve, createAmgX1, h]
  have pA : (solveP_AmgX E (createAmgX2 p).2).2.solver.lambda
      = (E.multigrid (createAmgX2 p).2.solver.amgx2 p.solver.lambda p.solver.rhs2).p := by
    simp [solveP_AmgX, AmgXSolver.solve, createAmgX2, h]
  have a1 : (createAmgX1 p).2.solver.amgx1.A = some p.solver.A := rfl
  have a2 : (createAmgX2 p).2.solver.amgx2.A = some p.solver.QTBNQ := rfl
  refine ⟨k1, a1, vK, vA, ?_, ?_, m1, a2, pK, pA, ?_, ?_⟩
  · rw [vK, hK, k1]
  · rw [vA, vK, hA, hK, k1, a1]
  · rw [pK, hK, m1]
  · rw [pA, pK, hA, hK, m1, a2]

/-- Instance of C4 at the sample environment, whose two backends both return the right-hand
side. -/
theorem backends_solve_same_problem_witness :
    sampleEnv.allOk ∧
    (∀ (ksp : KSP Nat) (b x : Vec Nat), (sampleEnv.krylov ksp b x).x = (fun _ _ b => b) ksp.Amat x b) ∧
    (∀ (amgx : AmgXSolver Nat) (x b : Vec Nat),
      (sampleEnv.multigrid amgx x b).p = (fun _ _ b => b) amgx.A x b) ∧
    (solveV_AmgX sampleEnv (createAmgX1 sampleProc).2).2.solver.qStar
        = (solveV_KSP sampleEnv (createKSP1 sampleEnv sampleProc).2).2.solver.qStar :=
  ⟨fun _ => rfl, fun _ _ _ => rfl, fun _ _ _ => rfl,
    (backends_solve_same_problem sampleEnv sampleProc (fun _ _ b => b) (fun _ => rfl)
      (fun _ _ _ => rfl) (fun _ _ _ => rfl)).2.2.2.2.2.1⟩

/-- C6: provided the log-stage push and pop succeed, `solveV_AmgX` and `solveP_AmgX` return 0
and do not end the process, whatever the multigrid backend computes; they store its result
and leave the world alone, and the iteration getters of the multigrid solvers return 0 with
the iteration count of that solve. -/
theorem solve_AmgX_always_succeeds (E : Petsc M V) (p : Proc M V)
    (hpush : E.err PetscCall.PetscLogStagePush = 0)
    (hpop : E.err PetscCall.PetscLogStagePop = 0) :
    (solveV_AmgX E p).1 = Flow.returned 0
    ∧ (solveP_AmgX E p).1 = Flow.returned 0
    ∧ (solveV_AmgX E p).2.solver.qStar
        = (E.multigrid p.solver.amgx1 p.solver.qStar p.solver.rhs1).p
    ∧ (solveP_AmgX E p).2.solver.lambda
        = (E.multigrid p.solver.amgx2 p.solver.lambda p.solver.rhs2).p
    ∧ (solveV_AmgX E p).2.world = p.world
    ∧ (solveP_AmgX E p).2.world = p.world
    ∧ (∀ i, getSolverIterationsAmgX1 (solveV_AmgX E p).2.solver i
        = (Flow.returned 0, (E.multigrid p.solver.amgx1 p.solver.qStar p.solver.rhs1).iters))
    ∧ (∀ i, getSolverIterationsAmgX2 (solveP_AmgX E p).2.solver i
        = (Flow.returned 0, (E.multigrid p.solver.amgx2 p.solver.lambda p.solver.rhs2).iters)) := by
  simp [solveV_AmgX, solveP_AmgX, AmgXSolver.solve, hpush, hpop, getSolverIterationsAmgX1,
    getSolverIterationsAmgX2, AmgXSolver.getIters]

/-- Instance of C6 at an environment whose push and pop succeed. -/
theorem solve_AmgX_always_succeeds_witness :
    divergingEnv.err PetscCall.PetscLogStagePush = 0
    ∧ divergingEnv.err PetscCall.PetscLogStagePop = 0
    ∧ (solveV_AmgX divergingEnv sampleProc).1 = Flow.returned 0 :=
  ⟨rfl, rfl, (solve_AmgX_always_succeeds divergingEnv sampleProc rfl rfl).1⟩

/-! ## Diagnostics and snapshots (C3, C7, C8, C9) -/

/-- C3: when the library calls succeed and the save interval is positive, `writeData` returns 0
and enters `writeIterationCounts` first; it then enters `writeFluxes` followed by
`writeLambda` exactly when `timeStep % nsave = 0`, that is when `nsave` divides the time
step.  In that case the binary files opened for writing are the flux files and then the
pressure file of the directory of the time step; otherwise no binary file is opened, no
directory is made and the binary files are unchanged. -/
theorem writeData_snapshot_iff (E : Petsc M V) (p : Proc M V) (hok : E.allOk)
    (_hnsave : 0 < p.solver.parameters.nsave) :
    (writeData E p).1 = Flow.returned 0
    ∧ routinesEntered (writeData E p).2.world.events
        = routinesEntered p.world.events
          ++ (Routine.writeData :: Routine.writeIterationCounts ::
            (if Int.tmod p.solver.timeStep p.solver.parameters.nsave = 0 then
              [Routine.writeFluxes, Routine.writeLambda] else []))
    ∧ (Int.tmod p.solver.timeStep p.solver.parameters.nsave = 0 →
        binaryWrites (writeData E p).2.world.events
          = binaryWrites p.world.events
            ++ ([solutionDirectory p.solver.parameters.directory p.solver.timeStep ++ "/qx.dat",
                solutionDirectory p.solver.parameters.directory p.solver.timeStep ++ "/qy.dat"]
              ++ (if p.solver.dim = Dim.three then
                  [solutionDirectory p.solver.parameters.directory p.solver.timeStep ++ "/qz.dat"]
                else [])
              ++ [solutionDirectory p.solver.parameters.directory p.solver.timeStep
                ++ "/phi.dat"]))
    ∧ (Int.tmod p.solver.timeStep p.solver.parameters.nsave ≠ 0 →
        binaryWrites (writeData E p).2.world.events = binaryWrites p.world.events
        ∧ directoriesMade (writeData E p).2.world.events = directoriesMade p.world.events
        ∧ (writeData E p).2.world.binFiles = p.world.binFiles)
    ∧ (Int.tmod p.solver.timeStep p.solver.parameters.nsave = 0
        ↔ p.solver.parameters.nsave ∣ p.solver.timeStep) := by
  obtain ⟨-, hi2, hi3, hi4, hi5, hi6, hi7, hi8⟩ :=
    writeIterationCounts_frame E hok (p.enter Routine.writeData)
  obtain ⟨-, hf2, hf3, -⟩ :=
    writeFluxes_ok E hok (writeIterationCounts E (p.enter Routine.writeData)).2
  obtain ⟨-, -, hl3, -⟩ :=
    writeLambda_ok E hok
      (writeFluxes E (writeIterationCounts E (p.enter Routine.writeData)).2).2
  have he : (p.enter Routine.writeData).world.events
      = p.world.events ++ [IOEvent.enter Routine.writeData] := rfl
  have hts : (p.enter Routine.writeData).solver = p.solver := rfl
  have hb : (p.enter Routine.writeData).world.binFiles = p.world.binFiles := rfl
  rw [hts] at hi6 hi7 hi8
  rw [he] at hi2 hi3 hi4
  rw [hb] at hi5
  rw [hf2] at hl3
  simp only [hi6, hi7, hi8] at hf3 hl3
  have hr0 : routinesEntered (p.world.events ++ [IOEvent.enter Routine.writeData])
      = routinesEntered p.world.events ++ [Routine.writeData] := by
    simp [routinesEntered, List.filterMap_append]
  have hb0 : binaryWrites (p.world.events ++ [IOEvent.enter Routine.writeData])
      = binaryWrites p.world.events := by
    simp [binaryWrites, List.filterMap_append]
  have hd0 : directoriesMade (p.world.events ++ [IOEvent.enter Routine.writeData])
      = directoriesMade p.world.events := by
    simp [directoriesMade, List.filterMap_append]
  rw [hr0] at hi2
  rw [hb0] at hi3
  rw [hd0] at hi4
  rw [writeData_eq E hok p]
  refine ⟨?_, ?_, ?_, ?_, Int.dvd_iff_tmod_eq_zero.symm⟩
  · split_ifs <;> rfl
  · by_cases hm : Int.tmod p.solver.timeStep p.solver.parameters.nsave = 0
    · simp only [hm, if_true, hl3, hf3]
      unfold routinesEntered at hi2 ⊢
      rw [List.filterMap_append, List.filterMap_append, hi2]
      cases p.solver.dim <;> simp
    · simp only [hm, if_false, hi2]
      simp
  · intro hm
    simp only [hm, if_true, hl3, hf3]
    unfold binaryWrites at hi3 ⊢
    rw [List.filterMap_append, List.filterMap_append, hi3]
    cases p.solver.dim <;> simp
  · intro hm
    simp only [hm, if_false]
    exact ⟨hi3, hi4, hi5⟩

/-- Instance of C3 at the sample state, where all calls succeed and `nsave` is 2. -/
theorem writeData_snapshot_iff_witness :
    sampleEnv.allOk ∧ 0 < sampleProc.solver.parameters.nsave ∧
    (writeData sampleEnv sampleProc).1 = Flow.returned 0 :=
  ⟨fun _ => rfl, by decide,
    (writeData_snapshot_iff sampleEnv sampleProc (fun _ => rfl) (by decide)).1⟩

/-- C7: on rank 0, with the stream closed at entry and the calls `MPI_Comm_rank` and
`KSPGetIterationNumber` succeeding, `writeIterationCounts` returns 0.  When the log file
`<directory>/iterationCounts.txt` can be opened, it holds afterwards: at time step 1 exactly
the row, at every other time step its previous content followed by the row; no other text
file changes and the stream is closed again, its buffer empty.  The row is the time step, a
tab, the count obtained through `getSolverIterationsFP1`, a tab, the count obtained through
`getSolverIterationsFP2` and a newline; the first count is the iteration number of `ksp1` or
the iterations of `amgx1`, the second that of `ksp2` or `amgx2`, according to the getter
selected.  When the log file cannot be opened, the routine, which never tests the stream,
still returns 0 and no row is written: every text file is as before. -/
theorem writeIterationCounts_row (E : Petsc M V) (p : Proc M V)
    (hrank : p.world.commRank = 0)
    (hmpi : E.err PetscCall.MPI_Comm_rank = 0)
    (hits : E.err PetscCall.KSPGetIterationNumber = 0)
    (hclosed : p.solver.iterationCountsFile.isOpen = false) :
    (writeIterationCounts E p).1 = Flow.returned 0
    ∧ (p.world.writable (p.solver.parameters.directory ++ "/iterationCounts.txt") = true →
        (p.solver.timeStep = 1 →
          (writeIterationCounts E p).2.world.textFiles
              (p.solver.parameters.directory ++ "/iterationCounts.txt")
            = some (fmt_d p.solver.timeStep ++ "\t"
                ++ fmt_d (p.solver.getSolverIterationsFP1.call E p.solver 0).2 ++ "\t"
                ++ fmt_d (p.solver.getSolverIterationsFP2.call E p.solver 0).2 ++ "\n"))
        ∧ (p.solver.timeStep ≠ 1 →
          (writeIterationCounts E p).2.world.textFiles
              (p.solver.parameters.directory ++ "/iterationCounts.txt")
            = some ((p.world.textFiles
                  (p.solver.parameters.directory ++ "/iterationCounts.txt")).getD ""
                ++ (fmt_d p.solver.timeStep ++ "\t"
                ++ fmt_d (p.solver.getSolverIterationsFP1.call E p.solver 0).2 ++ "\t"
                ++ fmt_d (p.solver.getSolverIterationsFP2.call E p.solver 0).2 ++ "\n")))
        ∧ (∀ f, f ≠ p.solver.parameters.directory ++ "/iterationCounts.txt" →
          (writeIterationCounts E p).2.world.textFiles f = p.world.textFiles f)
        ∧ (writeIterationCounts E p).2.solver.iterationCountsFile.isOpen = false
        ∧ (writeIterationCounts E p).2.solver.iterationCountsFile.buf = "")
    ∧ (p.world.writable (p.solver.parameters.directory ++ "/iterationCounts.txt") = false →
        (writeIterationCounts E p).2.world.textFiles = p.world.textFiles
        ∧ (writeIterationCounts E p).2.solver.iterationCountsFile.isOpen = false
        ∧ (writeIterationCounts E p).2.solver.iterationCountsFile.failed = true)
    ∧ (p.solver.getSolverIterationsFP1 = GetIterFn.getSolverIterationsKSP1 →
        (p.solver.getSolverIterationsFP1.call E p.solver 0).2 = p.solver.ksp1.its)
    ∧ (p.solver.getSolverIterationsFP1 = GetIterFn.getSolverIterationsAmgX1 →
        (p.solver.getSolverIterationsFP1.call E p.solver 0).2 = p.solver.amgx1.iters)
    ∧ (p.solver.getSolverIterationsFP2 = GetIterFn.getSolverIterationsKSP2 →
        (p.solver.getSolverIterationsFP2.call E p.solver 0).2 = p.solver.ksp2.its)
    ∧ (p.solver.getSolverIterationsFP2 = GetIterFn.getSolverIterationsAmgX2 →
        (p.solver.getSolverIterationsFP2.call E p.solver 0).2 = p.solver.amgx2.iters) := by
  have hg := getSolverIterations_returned E hits p.solver 0 0
  refine ⟨?_, ?_, ?_, ?_, ?_, ?_, ?_⟩
  · by_cases hw : p.world.writable (p.solver.parameters.directory ++ "/iterationCounts.txt")
        = true
    · rw [writeIterationCounts_eq E p hrank hmpi hits hclosed hw]
    · rw [writeIterationCounts_unwritable E p hrank hmpi hg hclosed (by simpa using hw)]
  · intro hw
    rw [writeIterationCounts_eq E p hrank hmpi hits hclosed hw]
    refine ⟨?_, ?_, ?_, rfl, rfl⟩
    · intro ht
      simp [ht]
    · intro ht
      simp [ht]
    · intro f hf
      simp [hf]
  · intro hw
    rw [writeIterationCounts_unwritable E p hrank hmpi hg hclosed hw]
    exact ⟨rfl, hclosed, rfl⟩
  · intro h1
    simp [h1, GetIterFn.call, getSolverIterationsKSP1, KSPGetIterationNumber, hits]
  · intro h1
    simp [h1, GetIterFn.call, getSolverIterationsAmgX1, AmgXSolver.getIters]
  · intro h1
    simp [h1, GetIterFn.call, getSolverIterationsKSP2, KSPGetIterationNumber, hits]
  · intro h1
    simp [h1, GetIterFn.call, getSolverIterationsAmgX2, AmgXSolver.getIters]

/-- Instance of C7 at the sample state (time step 0, no previous log): the log holds the single
row `0 0 0`; in the same state with a log file that cannot be opened the routine returns 0
and there is no log. -/
theorem writeIterationCounts_row_witness :
    sampleProc.world.commRank = 0
    ∧ sampleEnv.err PetscCall.MPI_Comm_rank = 0
    ∧ sampleEnv.err PetscCall.KSPGetIterationNumber = 0
    ∧ sampleProc.solver.iterationCountsFile.isOpen = false
    ∧ sampleProc.world.writable "run/iterationCounts.txt" = true
    ∧ (writeIterationCounts sampleEnv sampleProc).2.world.textFiles "run/iterationCounts.txt"
        = some "0\t0\t0\n"
    ∧ (writeIterationCounts sampleEnv sampleProcReadOnly).1 = Flow.returned 0
    ∧ (writeIterationCounts sampleEnv sampleProcReadOnly).2.world.textFiles
        "run/iterationCounts.txt" = none :=
  ⟨rfl, rfl, rfl, rfl, rfl,
    (((writeIterationCounts_row sampleEnv sampleProc rfl rfl rfl rfl).2.1 rfl).2.1
      (by decide)).trans (by decide),
    (writeIterationCounts_row sampleEnv sampleProcReadOnly rfl rfl rfl rfl).1,
    congrFun ((writeIterationCounts_row sampleEnv sampleProcReadOnly rfl rfl rfl rfl).2.2.1
      rfl).1 "run/iterationCounts.txt"⟩

/-- C8: for a time step `t` with `0 ≤ t < 10 ^ 7` the solution directory is the simulation
directory, `/`, and the decimal text of `t` preceded by as many `0` as make 7 characters.
`writeFluxes` makes that directory and opens for writing, in this order, `qx.dat`, `qy.dat`
and, in three dimensions only, `qz.dat` inside it, leaving every other binary file as it
was; `writeLambda` makes the directory and opens `phi.dat` inside it, leaving every other
binary file as it was; `readFluxes` and `readLambda` open `qx.dat` and `phi.dat` of the same
directory first. -/
theorem snapshot_directory_and_files (E : Petsc M V) (p : Proc M V) (hok : E.allOk)
    (h0 : 0 ≤ p.solver.timeStep) (h7 : p.solver.timeStep < 10 ^ 7) :
    solutionDirectory p.solver.parameters.directory p.solver.timeStep
        = p.solver.parameters.directory ++ "/"
          ++ (String.mk (List.replicate (7 - (Nat.repr p.solver.timeStep.toNat).length) '0')
            ++ Nat.repr p.solver.timeStep.toNat)
    ∧ (String.mk (List.replicate (7 - (Nat.repr p.solver.timeStep.toNat).length) '0')
            ++ Nat.repr p.solver.timeStep.toNat).length = 7
    ∧ (writeFluxes E p).1 = Flow.returned 0
    ∧ (writeFluxes E p).2.world.events = p.world.events ++
        ([IOEvent.enter Routine.writeFluxes,
          IOEvent.mkdir (solutionDirectory p.solver.parameters.directory p.solver.timeStep),
          IOEvent.binaryOpen
            (solutionDirectory p.solver.parameters.directory p.solver.timeStep ++ "/qx.dat") true,
          IOEvent.binaryOpen
            (solutionDirectory p.solver.parameters.directory p.solver.timeStep ++ "/qy.dat") true]
          ++ (if p.solver.dim = Dim.three then
            [IOEvent.binaryOpen
              (solutionDirectory p.solver.parameters.directory p.solver.timeStep ++ "/qz.dat")
              true]
            else []))
    ∧ (∀ f, f ≠ solutionDirectory p.solver.parameters.directory p.solver.timeStep ++ "/qx.dat" →
        f ≠ solutionDirectory p.solver.parameters.directory p.solver.timeStep ++ "/qy.dat" →
        (p.solver.dim = Dim.three →
          f ≠ solutionDirectory p.solver.parameters.directory p.solver.timeStep ++ "/qz.dat") →
        (writeFluxes E p).2.world.binFiles f = p.world.binFiles f)
    ∧ (writeLambda E p).1 = Flow.returned 0
    ∧ (writeLambda E p).2.world.events = p.world.events ++
        [IOEvent.enter Routine.writeLambda,
          IOEvent.mkdir (solutionDirectory p.solver.parameters.directory p.solver.timeStep),
          IOEvent.binaryOpen
            (solutionDirectory p.solver.parameters.directory p.solver.timeStep ++ "/phi.dat")
            true]
    ∧ (∀ f, f ≠ solutionDirectory p.solver.parameters.directory p.solver.timeStep ++ "/phi.dat" →
        (writeLambda E p).2.world.binFiles f = p.world.binFiles f)
    ∧ (∃ rest, (readFluxes E p).2.world.events = p.world.events ++
        (IOEvent.enter Routine.readFluxes ::
          IOEvent.binaryOpen
            (solutionDirectory p.solver.parameters.directory p.solver.timeStep ++ "/qx.dat")
            false :: rest))
    ∧ (∃ rest, (readLambda E p).2.world.events = p.world.events ++
        (IOEvent.enter Routine.readLambda ::
          IOEvent.binaryOpen
            (solutionDirectory p.solver.parameters.directory p.solver.timeStep ++ "/phi.dat")
            false :: rest)) := by
  have h : ∀ c, E.err c = 0 := hok
  obtain ⟨hf1, -, hf3, -, -, -, -, hf8⟩ := writeFluxes_ok E hok p
  obtain ⟨hl1, -, hl3, -, -, hl6⟩ := writeLambda_ok E hok p
  have hlen : (Nat.repr p.solver.timeStep.toNat).length ≤ 7 := by
    apply Nat.repr_length _ 7 (by norm_num)
    omega
  refine ⟨?_, ?_, hf1, hf3, hf8, hl1, hl3, hl6, ?_, ?_⟩
  · simp [solutionDirectory, setfill_setw, fmt_d_of_nonneg _ h0, String.append_assoc]
  · rw [String.length_append]
    show (List.replicate _ _).length + _ = 7
    rw [List.length_replicate]
    omega
  · exact readFluxes_opens_qx E hok p
  · exact readLambda_opens_phi E hok p

/-- Instance of C8 at time step 250: the directory is `run/0000250`. -/
theorem snapshot_directory_and_files_witness :
    sampleEnv.allOk
    ∧ 0 ≤ (sampleProcAt 250).solver.timeStep
    ∧ (sampleProcAt 250).solver.timeStep < 10 ^ 7
    ∧ solutionDirectory (sampleProcAt 250).solver.parameters.directory
        (sampleProcAt 250).solver.timeStep = "run/0000250" :=
  ⟨fun _ => rfl, by decide, by decide,
    (snapshot_directory_and_files sampleEnv (sampleProcAt 250) (fun _ => rfl) (by decide)
      (by decide)).1.trans (by decide)⟩

/-- C9: after `writeFluxes` and `writeLambda` at a time step, a process of the same dimension at
the same time step and directory that sees the written files reads them back with
`readFluxes` and `readLambda` without error: the flux blocks x, y (and z in three
dimensions) and the pressure block of `lambda` take the values that were written,
`readLambda` leaves `q` alone, and the files opened for reading are exactly the files opened
for writing, in the same order. -/
theorem checkpoint_write_then_read (E : Petsc M V) (p r : Proc M V) (hok : E.allOk)
    (hdim : r.solver.dim = p.solver.dim)
    (hts : r.solver.timeStep = p.solver.timeStep)
    (hdir : r.solver.parameters.directory = p.solver.parameters.directory)
    (hfiles : r.world.binFiles = (writeLambda E (writeFluxes E p).2).2.world.binFiles) :
    (readFluxes E r).1 = Flow.returned 0
    ∧ (readFluxes E r).2.solver.q 0 = p.solver.q 0
    ∧ (readFluxes E r).2.solver.q 1 = p.solver.q 1
    ∧ (p.solver.dim = Dim.three → (readFluxes E r).2.solver.q 2 = p.solver.q 2)
    ∧ (readLambda E (readFluxes E r).2).1 = Flow.returned 0
    ∧ (readLambda E (readFluxes E r).2).2.solver.lambda 0 = p.solver.lambda 0
    ∧ (readLambda E (readFluxes E r).2).2.solver.q = (readFluxes E r).2.solver.q
    ∧ binaryReads ((readFluxes E r).2.world.events.drop r.world.events.length)
        = binaryWrites ((writeFluxes E p).2.world.events.drop p.world.events.length)
    ∧ binaryReads ((readLambda E (readFluxes E r).2).2.world.events.drop
          (readFluxes E r).2.world.events.length)
        = binaryWrites ((writeLambda E (writeFluxes E p).2).2.world.events.drop
          (writeFluxes E p).2.world.events.length)
    ∧ binaryWrites ((writeFluxes E p).2.world.events.drop p.world.events.length)
        = [solutionDirectory p.solver.parameters.directory p.solver.timeStep ++ "/qx.dat",
            solutionDirectory p.solver.parameters.directory p.solver.timeStep ++ "/qy.dat"]
          ++ (if p.solver.dim = Dim.three then
            [solutionDirectory p.solver.parameters.directory p.solver.timeStep ++ "/qz.dat"]
            else [])
    ∧ binaryWrites ((writeLambda E (writeFluxes E p).2).2.world.events.drop
          (writeFluxes E p).2.world.events.length)
        = [solutionDirectory p.solver.parameters.directory p.solver.timeStep ++ "/phi.dat"] := by
  obtain ⟨-, hf2, hf3, -, hf5, hf6, hf7, -⟩ := writeFluxes_ok E hok p
  obtain ⟨-, -, hl3, -, hl5, hl6⟩ := writeLambda_ok E hok (writeFluxes E p).2
  rw [hf2] at hl3 hl5 hl6
  have hx : r.world.binFiles
      (solutionDirectory r.solver.parameters.directory r.solver.timeStep ++ "/qx.dat")
        = some [p.solver.q 0] := by
    rw [hfiles, hts, hdir, hl6 _ (by simp [string_append_right_inj]), hf5]
  have hy : r.world.binFiles
      (solutionDirectory r.solver.parameters.directory r.solver.timeStep ++ "/qy.dat")
        = some [p.solver.q 1] := by
    rw [hfiles, hts, hdir, hl6 _ (by simp [string_append_right_inj]), hf6]
  have hz : r.solver.dim = Dim.three → r.world.binFiles
      (solutionDirectory r.solver.parameters.directory r.solver.timeStep ++ "/qz.dat")
        = some [p.solver.q 2] := by
    intro h3
    rw [hfiles, hts, hdir, hl6 _ (by simp [string_append_right_inj]), hf7 (hdim ▸ h3)]
  obtain ⟨hr1, hr2, hr3, hr4, -, hr6, hr7, hr8, hr9⟩ :=
    readFluxes_ok E hok r _ _ _ _ _ _ hx hy hz
  have hphi : (readFluxes E r).2.world.binFiles
      (solutionDirectory (readFluxes E r).2.solver.parameters.directory
        (readFluxes E r).2.solver.timeStep ++ "/phi.dat") = some [p.solver.lambda 0] := by
    rw [hr8, hr6, hr7, hfiles, hts, hdir, hl5]
  obtain ⟨hm1, hm2, -, hm4, hm5⟩ := readLambda_ok E hok (readFluxes E r).2 _ _ hphi
  rw [hr6, hr7, hts, hdir] at hm5
  rw [hts, hdir, hdim] at hr9
  refine ⟨hr1, hr2, hr3, fun h3 => hr4 (hdim.trans h3), hm1, hm2, hm4, ?_, ?_, ?_, ?_⟩
  · rw [hr9, hf3]
    cases p.solver.dim <;> simp [binaryReads, binaryWrites]
  · rw [hm5, hl3]
    simp [binaryReads, binaryWrites]
  · rw [hf3]
    cases p.solver.dim <;> simp [binaryWrites]
  · rw [hl3]
    simp [binaryWrites]

/-- Instance of C9: the sample fields written at time step 2 are read back into a process
restarted with zeroed fields. -/
theorem checkpoint_write_then_read_witness :
    sampleEnv.allOk
    ∧ (sampleRestart 2).solver.dim = (sampleProcAt 2).solver.dim
    ∧ (sampleRestart 2).solver.timeStep = (sampleProcAt 2).solver.timeStep
    ∧ (sampleRestart 2).solver.parameters.directory
        = (sampleProcAt 2).solver.parameters.directory
    ∧ (sampleRestart 2).world.binFiles
        = (writeLambda sampleEnv (writeFluxes sampleEnv (sampleProcAt 2)).2).2.world.binFiles
    ∧ (readFluxes sampleEnv (sampleRestart 2)).2.solver.q 0 = (sampleProcAt 2).solver.q 0
    ∧ (readFluxes sampleEnv (sampleRestart 2)).2.solver.q 1 = (sampleProcAt 2).solver.q 1 :=
  ⟨fun _ => rfl, rfl, rfl, rfl, rfl,
    (checkpoint_write_then_read sampleEnv (sampleProcAt 2) (sampleRestart 2) (fun _ => rfl)
      rfl rfl rfl rfl).2.1,
    (checkpoint_write_then_read sampleEnv (sampleProcAt 2) (sampleRestart 2) (fun _ => rfl)
      rfl rfl rfl rfl).2.2.1⟩

/-! ## The driver loop (C10) -/

/-- C10: assume `finished` is true exactly when the time step has reached `maxSteps`, `stepTime`
adds one to the time step and `writeData` leaves it alone.  (1) In a run without errors
entered at a time step `n` steps below `maxSteps`, with enough fuel, the driver returns 0
after `initialize`, exactly `n` passes of `stepTime` immediately followed by `writeData`,
and one `finalize`; `stepTime` is only called at time steps below `maxSteps`.  (2) When
`finished` is true the loop ends without calling `stepTime`.  (3) When `stepTime` returns a
nonzero error code the loop ends with that code right after it, without `writeData`, and (4)
the driver returns that code as its exit status. -/
theorem driver_runs_until_finished (E : Petsc M V) (S : Methods M V) (maxSteps : Int)
    (p : Proc M V)
    (hfin : ∀ s, S.finished s = true ↔ maxSteps ≤ s.solver.timeStep)
    (hstep : ∀ s, (S.stepTime s).2.solver.timeStep = s.solver.timeStep + 1)
    (hwrite : ∀ s, (S.writeData s).2.solver.timeStep = s.solver.timeStep) :
    (∀ (n fuel : Nat),
        (S.initialize_ p).1 = Flow.returned 0 →
        (S.initialize_ p).2.solver.timeStep + n = maxSteps →
        (∀ s, (S.stepTime s).1 = Flow.returned 0) →
        (∀ s, (S.writeData s).1 = Flow.returned 0) →
        (∀ s, (S.finalize s).1 = Flow.returned 0) →
        E.err PetscCall.PetscPrintf = 0 → E.err PetscCall.PetscFinalize = 0 →
        n < fuel →
        (∃ final, runSolver E S fuel p = some (Flow.returned 0, final,
            DriverCall.initialize_ p.solver.timeStep
              :: loopCalls (S.initialize_ p).2.solver.timeStep n
              ++ [DriverCall.finalize maxSteps])
          ∧ final.solver = (S.finalize (afterSteps S n (S.initialize_ p).2)).2.solver)
        ∧ (loopCalls (S.initialize_ p).2.solver.timeStep n).length = 2 * n
        ∧ (∀ t, DriverCall.stepTime t ∈ loopCalls (S.initialize_ p).2.solver.timeStep n →
            t < maxSteps))
    ∧ (∀ (s : Proc M V) (fuel : Nat), S.finished s = true →
        timeLoop S (fuel + 1) s = some (Flow.returned 0, s, []))
    ∧ (∀ (s : Proc M V) (fuel : Nat) (e : Int), S.finished s = false →
        (S.stepTime s).1 = Flow.returned e → e ≠ 0 →
        timeLoop S (fuel + 1) s
          = some (Flow.returned e, (S.stepTime s).2, [DriverCall.stepTime s.solver.timeStep]))
    ∧ (∀ (fuel : Nat) (e : Int) (s : Proc M V) (calls : List DriverCall),
        (S.initialize_ p).1 = Flow.returned 0 →
        timeLoop S fuel (S.initialize_ p).2 = some (Flow.returned e, s, calls) → e ≠ 0 →
        runSolver E S fuel p
          = some (Flow.returned e, s, DriverCall.initialize_ p.solver.timeStep :: calls)
        ∧ (Flow.returned e).exitStatus = e) := by
  refine ⟨?_, ?_, ?_, ?_⟩
  · intro n fuel hi hn hsok hwok hzok hpr hfz hf
    obtain ⟨h1, h2⟩ :=
      timeLoop_run S maxSteps hfin hstep hwrite hsok hwok n fuel (S.initialize_ p).2 hn hf
    obtain ⟨-, l2, -⟩ := loopCalls_spec n (S.initialize_ p).2.solver.timeStep
    refine ⟨⟨(PetscPrintf E
        "\n=====================\n*** PetIBM - Done ***\n=====================\n"
        (S.finalize (afterSteps S n (S.initialize_ p).2)).2).2, ?_, ?_⟩,
      (loopCalls_spec n _).1, fun t ht => ?_⟩
    · unfold runSolver
      simp only [hi, h1, hzok, h2, PetscPrintf, World.PetscPrintf, hpr, hfz, ne_eq,
        not_true_eq_false, if_false, if_true]
    · rfl
    · have := l2 t ht
      omega
  · intro s fuel hs
    rw [timeLoop]
    simp [hs]
  · intro s fuel e hs he hne
    rw [timeLoop]
    simp [hs, he, hne]
  · intro fuel e s calls hi hl hne
    refine ⟨?_, rfl⟩
    unfold runSolver
    simp [hi, hl, hne]

/-- Instance of C10: the solver routines over the sample environment, with `finished` true from
time step 2 on, run two passes from time step 0. -/
theorem driver_runs_until_finished_witness :
    (∀ s, sampleMethodsUntilTwo.finished s = true ↔ (2 : Int) ≤ s.solver.timeStep)
    ∧ (∀ s, (sampleMethodsUntilTwo.stepTime s).2.solver.timeStep = s.solver.timeStep + 1)
    ∧ (∀ s, (sampleMethodsUntilTwo.writeData s).2.solver.timeStep = s.solver.timeStep)
    ∧ (∃ final, runSolver sampleEnv sampleMethodsUntilTwo 3 sampleProc
          = some (Flow.returned 0, final,
            DriverCall.initialize_ sampleProc.solver.timeStep
              :: loopCalls (sampleMethodsUntilTwo.initialize_ sampleProc).2.solver.timeStep 2
              ++ [DriverCall.finalize 2])
        ∧ final.solver = (sampleMethodsUntilTwo.finalize
            (afterSteps sampleMethodsUntilTwo 2
              (sampleMethodsUntilTwo.initialize_ sampleProc).2)).2.solver) :=
  have hok : sampleEnv.allOk := fun _ => rfl
  have hconv : ∀ (ksp : KSP Nat) (b x : Vec Nat), 0 ≤ (sampleEnv.krylov ksp b x).reason :=
    fun _ _ _ => by
      show (0 : Int) ≤ 2
      decide
  have h1 : ∀ s, sampleMethodsUntilTwo.finished s = true ↔ (2 : Int) ≤ s.solver.timeStep :=
    fun s => by simp [sampleMethodsUntilTwo]
  have h2 : ∀ s, (sampleMethodsUntilTwo.stepTime s).2.solver.timeStep = s.solver.timeStep + 1 :=
    fun s => (stepTime_frame sampleEnv hok sampleNumerics s).1
  have h3 : ∀ s, (sampleMethodsUntilTwo.writeData s).2.solver.timeStep = s.solver.timeStep :=
    fun s => (writeData_frame sampleEnv hok s).1
  ⟨h1, h2, h3,
    ((driver_runs_until_finished sampleEnv sampleMethodsUntilTwo 2 sampleProc h1 h2 h3).1 2 3
      (by decide) (by decide)
      (fun s => (stepTime_frame sampleEnv hok sampleNumerics s).2 hconv)
      (fun s => (writeData_frame sampleEnv hok s).2)
      (fun _ => rfl) rfl rfl (by decide)).1⟩


/-! ## Configuration of the linear solvers (C11, C12, C13) -/

/-- What `KSPSetFromOptions` leaves in the solver when the call succeeds: each setting takes
the value of its key in the options database when the key is there, and keeps its value
otherwise. -/
theorem KSPSetFromOptions_ok (E : Petsc M V) (hok : E.allOk) (db : List (String × String))
    (ksp : KSP M) :
    (KSPSetFromOptions E db ksp).2.kspType
        = (db.lookup ("-" ++ ksp.optionsPre ++ "ksp_type")).getD ksp.kspType
    ∧ (KSPSetFromOptions E db ksp).2.initialGuessNonzero
        = ((db.lookup ("-" ++ ksp.optionsPre ++ "ksp_initial_guess_nonzero")).map
            PetscOptionsStringToBool).getD ksp.initialGuessNonzero
    ∧ (KSPSetFromOptions E db ksp).2.reusePreconditioner
        = ((db.lookup ("-" ++ ksp.optionsPre ++ "ksp_reuse_preconditioner")).map
            PetscOptionsStringToBool).getD ksp.reusePreconditioner
    ∧ (KSPSetFromOptions E db ksp).2.optionsPre = ksp.optionsPre := by
  unfold KSPSetFromOptions
  simp only [hok PetscCall.KSPSetFromOptions, if_true]
  cases h1 : db.lookup ("-" ++ ksp.optionsPre ++ "ksp_type") <;>
    cases h2 : db.lookup ("-" ++ ksp.optionsPre ++ "ksp_initial_guess_nonzero") <;>
    cases h3 : db.lookup ("-" ++ ksp.optionsPre ++ "ksp_reuse_preconditioner") <;>
    simp

/-- The options database `createKSP1` leaves behind is the one `KSPSetFromOptions` read. -/
theorem createKSP1_config (E : Petsc M V) (hok : E.allOk) (p : Proc M V) :
    (createKSP1 E p).2.solver.ksp1
      = (KSPSetFromOptions E (createKSP1 E p).2.world.options
          { optionsPre := "velocity_", Amat := some p.solver.A, Pmat := some p.solver.A,
            initialGuessNonzero := true, kspType := KSPCG, reusePreconditioner := true }).2 := by
  have h : ∀ c, E.err c = 0 := hok
  unfold createKSP1
  simp [h, PetscPrintf, World.PetscPrintf, PetscOptionsInsertFile_fst E hok,
    KSPSetFromOptions_fst E hok]

/-- The options database `createKSP2` leaves behind is the one `KSPSetFromOptions` read. -/
theorem createKSP2_config (E : Petsc M V) (hok : E.allOk) (p : Proc M V) :
    (createKSP2 E p).2.solver.ksp2
      = (KSPSetFromOptions E (createKSP2 E p).2.world.options
          { optionsPre := "poisson_", Amat := some p.solver.QTBNQ, Pmat := some p.solver.QTBNQ,
            initialGuessNonzero := true, kspType := KSPCG, reusePreconditioner := true }).2 := by
  have h : ∀ c, E.err c = 0 := hok
  unfold createKSP2
  simp [h, PetscPrintf, World.PetscPrintf, PetscOptionsInsertFile_fst E hok,
    KSPSetFromOptions_fst E hok]

/-- Setting a key of the options database does not change what another key holds. -/
theorem lookup_PetscOptionsSetValue (db : List (String × String)) (k k' v : String)
    (hne : k ≠ k') : (PetscOptionsSetValue db (k', v)).lookup k = db.lookup k := by
  unfold PetscOptionsSetValue
  induction db with
  | nil =>
    have hkk : (k == k') = false := by simpa using hne
    simp [List.lookup, hkk]
  | cons e db ih =>
    obtain ⟨a, b⟩ := e
    by_cases ha : a = k'
    · subst ha
      have hka : (k == a) = false := by simpa using hne
      simp only [List.filter_cons, ne_eq, not_true_eq_false, decide_False, List.lookup, hka]
      simpa using ih
    · by_cases hk : k = a
      · subst hk
        simp [List.filter_cons, ha, List.lookup]
      · have hka : (k == a) = false := by simpa using hk
        simp only [List.filter_cons, ne_eq, ha, not_false_eq_true, decide_True, if_true,
          List.cons_append, List.lookup, hka]
        simpa using ih

/-- Setting a key of the options database makes the key hold the value set. -/
theorem lookup_PetscOptionsSetValue_self (db : List (String × String)) (k v : String) :
    (PetscOptionsSetValue db (k, v)).lookup k = some v := by
  unfold PetscOptionsSetValue
  rw [List.lookup_append]
  have h : (db.filter (fun e => e.1 ≠ k)).lookup k = none := by
    induction db with
    | nil => rfl
    | cons e db ih =>
      obtain ⟨a, b⟩ := e
      by_cases ha : a = k
      · subst ha
        simpa [List.filter_cons] using ih
      · have hka : (k == a) = false := by simpa using fun h : k = a => ha h.symm
        simp only [List.filter_cons, ne_eq, ha, not_false_eq_true, decide_True, if_true,
          List.lookup, hka]
        simpa using ih
  rw [h]
  simp [List.lookup]

/-- After the entries of an options file have been inserted into the database, a key holds
the value of its last entry in the file or, when the file has no entry for it, what the
database held before. -/
theorem lookup_insertEntries (entries : List (String × String)) :
    ∀ (db : List (String × String)) (k : String),
      (entries.foldl PetscOptionsSetValue db).lookup k
        = (entries.reverse.lookup k).or (db.lookup k) := by
  induction entries with
  | nil => intro db k; simp [List.lookup]
  | cons e es ih =>
    intro db k
    obtain ⟨a, b⟩ := e
    rw [List.foldl_cons, ih, List.reverse_cons, List.lookup_append]
    cases es.reverse.lookup k with
    | some v => simp
    | none =>
      by_cases hk : k = a
      · subst hk
        simp [lookup_PetscOptionsSetValue_self, List.lookup]
      · have hka : (k == a) = false := by simpa using hk
        simp [lookup_PetscOptionsSetValue db k a b hk, List.lookup, hka]

/-- The options database `createKSP1` leaves behind: the incoming database with the entries
of the options file of the simulation directory inserted (nothing when there is no such
file). -/
theorem createKSP1_options (E : Petsc M V) (hok : E.allOk) (p : Proc M V) :
    (createKSP1 E p).2.world.options
      = ((p.world.optionFiles
          (p.solver.parameters.directory ++ "/solversPetscOptions.info")).getD []).foldl
          PetscOptionsSetValue p.world.options := by
  have h : ∀ c, E.err c = 0 := hok
  unfold createKSP1
  cases hf : p.world.optionFiles (p.solver.parameters.directory ++ "/solversPetscOptions.info") <;>
    simp [h, hf, PetscPrintf, World.PetscPrintf, PetscOptionsInsertFile,
      KSPSetFromOptions_fst E hok]

/-- The options database `createKSP2` leaves behind: the incoming database with the entries
of the options file of the simulation directory inserted (nothing when there is no such
file). -/
theorem createKSP2_options (E : Petsc M V) (hok : E.allOk) (p : Proc M V) :
    (createKSP2 E p).2.world.options
      = ((p.world.optionFiles
          (p.solver.parameters.directory ++ "/solversPetscOptions.info")).getD []).foldl
          PetscOptionsSetValue p.world.options := by
  have h : ∀ c, E.err c = 0 := hok
  unfold createKSP2
  cases hf : p.world.optionFiles (p.solver.parameters.directory ++ "/solversPetscOptions.info") <;>
    simp [h, hf, PetscPrintf, World.PetscPrintf, PetscOptionsInsertFile,
      KSPSetFromOptions_fst E hok]

/-- C11: when every library call succeeds, `createKSP1` hands the operator `A` and
`createKSP2` the operator `QTBNQ` to its Krylov solver.  The options database they leave is
the incoming one with the entries of the file `solversPetscOptions.info` of the simulation
directory inserted.  Each of the three settings (non-zero initial guess, reuse of the
preconditioner, Krylov method) holds the value the options source gives for its key, that
is the last entry of the options file for the key or else the entry of the incoming
database, and the default when the source has none: `true`, `true` and conjugate gradient.
An option therefore overrides the default, never the reverse. -/
theorem createKSP_defaults_then_options (E : Petsc M V) (p : Proc M V) (hok : E.allOk) :
    (createKSP1 E p).2.solver.ksp1.Amat = some p.solver.A
    ∧ (createKSP1 E p).2.world.options
        = ((p.world.optionFiles
            (p.solver.parameters.directory ++ "/solversPetscOptions.info")).getD []).foldl
            PetscOptionsSetValue p.world.options
    ∧ (createKSP1 E p).2.solver.ksp1.initialGuessNonzero
        = ((optionSource p.world p.solver.parameters.directory
            "-velocity_ksp_initial_guess_nonzero").map PetscOptionsStringToBool).getD true
    ∧ (createKSP1 E p).2.solver.ksp1.reusePreconditioner
        = ((optionSource p.world p.solver.parameters.directory
            "-velocity_ksp_reuse_preconditioner").map PetscOptionsStringToBool).getD true
    ∧ (createKSP1 E p).2.solver.ksp1.kspType
        = (optionSource p.world p.solver.parameters.directory "-velocity_ksp_type").getD KSPCG
    ∧ (createKSP2 E p).2.solver.ksp2.Amat = some p.solver.QTBNQ
    ∧ (createKSP2 E p).2.world.options
        = ((p.world.optionFiles
            (p.solver.parameters.directory ++ "/solversPetscOptions.info")).getD []).foldl
            PetscOptionsSetValue p.world.options
    ∧ (createKSP2 E p).2.solver.ksp2.initialGuessNonzero
        = ((optionSource p.world p.solver.parameters.directory
            "-poisson_ksp_initial_guess_nonzero").map PetscOptionsStringToBool).getD true
    ∧ (createKSP2 E p).2.solver.ksp2.reusePreconditioner
        = ((optionSource p.world p.solver.parameters.directory
            "-poisson_ksp_reuse_preconditioner").map PetscOptionsStringToBool).getD true
    ∧ (createKSP2 E p).2.solver.ksp2.kspType
        = (optionSource p.world p.solver.parameters.directory "-poisson_ksp_type").getD KSPCG
    ∧ KSPCG = "cg" := by
  obtain ⟨-, a1, -, -⟩ := createKSP1_ok E hok p
  obtain ⟨-, a2, -, -⟩ := createKSP2_ok E hok p
  have c1 := createKSP1_config E hok p
  have c2 := createKSP2_config E hok p
  have o1 := createKSP1_options E hok p
  have o2 := createKSP2_options E hok p
  obtain ⟨k1, k2, k3, -⟩ := KSPSetFromOptions_ok E hok (createKSP1 E p).2.world.options
    { optionsPre := "velocity_", Amat := some p.solver.A, Pmat := some p.solver.A,
      initialGuessNonzero := true, kspType := KSPCG, reusePreconditioner := true }
  obtain ⟨m1, m2, m3, -⟩ := KSPSetFromOptions_ok E hok (createKSP2 E p).2.world.options
    { optionsPre := "poisson_", Amat := some p.solver.QTBNQ, Pmat := some p.solver.QTBNQ,
      initialGuessNonzero := true, kspType := KSPCG, reusePreconditioner := true }
  rw [← c1, o1, lookup_insertEntries] at k1 k2 k3
  rw [← c2, o2, lookup_insertEntries] at m1 m2 m3
  exact ⟨a1, o1, k2, k3, k1, a2, o2, m2, m3, m1, rfl⟩

/-- Instance of C11: the options file asks for `gmres` on the velocity system and the incoming
database for `bcgs` on both systems and for a zero initial guess on the pressure system; the
velocity solver takes the method of the file, the pressure solver the method and the initial
guess of the database, and the settings no source names keep their defaults. -/
theorem createKSP_defaults_then_options_witness :
    sampleEnv.allOk
    ∧ (createKSP1 sampleEnv sampleProcWithOptionsFile).2.solver.ksp1.kspType = "gmres"
    ∧ (createKSP1 sampleEnv sampleProcWithOptionsFile).2.solver.ksp1.initialGuessNonzero = true
    ∧ (createKSP2 sampleEnv sampleProcWithOptionsFile).2.solver.ksp2.kspType = "bcgs"
    ∧ (createKSP2 sampleEnv sampleProcWithOptionsFile).2.solver.ksp2.initialGuessNonzero
      = false
    ∧ (createKSP2 sampleEnv sampleProcWithOptionsFile).2.solver.ksp2.reusePreconditioner
      = true :=
  ⟨fun _ => rfl,
    (createKSP_defaults_then_options sampleEnv sampleProcWithOptionsFile
      (fun _ => rfl)).2.2.2.2.1.trans (by decide),
    (createKSP_defaults_then_options sampleEnv sampleProcWithOptionsFile
      (fun _ => rfl)).2.2.1.trans (by decide),
    (createKSP_defaults_then_options sampleEnv sampleProcWithOptionsFile
      (fun _ => rfl)).2.2.2.2.2.2.2.2.2.1.trans (by decide),
    (createKSP_defaults_then_options sampleEnv sampleProcWithOptionsFile
      (fun _ => rfl)).2.2.2.2.2.2.2.1.trans (by decide),
    (createKSP_defaults_then_options sampleEnv sampleProcWithOptionsFile
      (fun _ => rfl)).2.2.2.2.2.2.2.2.1.trans (by decide)⟩

/-- `KSPSetFromOptions` reads the options database only at keys that start with `-` and the
prefix of the solver. -/
theorem KSPSetFromOptions_congr (E : Petsc M V) (db db' : List (String × String))
    (ksp : KSP M)
    (h : ∀ s, db'.lookup ("-" ++ ksp.optionsPre ++ s) = db.lookup ("-" ++ ksp.optionsPre ++ s)) :
    KSPSetFromOptions E db' ksp = KSPSetFromOptions E db ksp := by
  have h1 := h "ksp_type"
  have h2 := h "ksp_initial_guess_nonzero"
  have h3 := h "ksp_reuse_preconditioner"
  unfold KSPSetFromOptions
  split_ifs
  · rw [h1]
    cases db.lookup ("-" ++ ksp.optionsPre ++ "ksp_type") <;> dsimp only <;> rw [h2] <;>
      cases db.lookup ("-" ++ ksp.optionsPre ++ "ksp_initial_guess_nonzero") <;>
      dsimp only <;> rw [h3]
  · rfl

/-- C12: when every library call succeeds, the Krylov solvers of the two systems carry the
prefixes `velocity_` and `poisson_`; the two differ, neither is a prefix of the other, no
option key is read by both solvers, and setting a key of one solver leaves what
`KSPSetFromOptions` gives the other unchanged. The multigrid solvers are configured from
`solversAmgXOptions_v.info` and `solversAmgXOptions_p.info` in the simulation directory,
two different files. -/
theorem option_sources_do_not_collide (E : Petsc M V) (p : Proc M V) (hok : E.allOk) :
    (createKSP1 E p).2.solver.ksp1.optionsPre = "velocity_"
    ∧ (createKSP2 E p).2.solver.ksp2.optionsPre = "poisson_"
    ∧ (createKSP1 E p).2.solver.ksp1.optionsPre ≠ (createKSP2 E p).2.solver.ksp2.optionsPre
    ∧ ¬ ((createKSP1 E p).2.solver.ksp1.optionsPre.data
          <+: (createKSP2 E p).2.solver.ksp2.optionsPre.data)
    ∧ ¬ ((createKSP2 E p).2.solver.ksp2.optionsPre.data
          <+: (createKSP1 E p).2.solver.ksp1.optionsPre.data)
    ∧ (∀ a b : String,
        "-" ++ (createKSP1 E p).2.solver.ksp1.optionsPre ++ a
          ≠ "-" ++ (createKSP2 E p).2.solver.ksp2.optionsPre ++ b)
    ∧ (∀ (db : List (String × String)) (a v : String) (ksp : KSP M),
        ksp.optionsPre = "velocity_" →
        KSPSetFromOptions E (PetscOptionsSetValue db ("-poisson_" ++ a, v)) ksp
          = KSPSetFromOptions E db ksp)
    ∧ (∀ (db : List (String × String)) (a v : String) (ksp : KSP M),
        ksp.optionsPre = "poisson_" →
        KSPSetFromOptions E (PetscOptionsSetValue db ("-velocity_" ++ a, v)) ksp
          = KSPSetFromOptions E db ksp)
    ∧ (createAmgX1 p).2.solver.amgx1.configFile
        = p.solver.parameters.directory ++ "/solversAmgXOptions_v.info"
    ∧ (createAmgX2 p).2.solver.amgx2.configFile
        = p.solver.parameters.directory ++ "/solversAmgXOptions_p.info"
    ∧ (createAmgX1 p).2.solver.amgx1.configFile ≠ (createAmgX2 p).2.solver.amgx2.configFile := by
  have c1 := createKSP1_config E hok p
  have c2 := createKSP2_config E hok p
  have k : (createKSP1 E p).2.solver.ksp1.optionsPre = "velocity_" := by
    rw [c1]
    exact (KSPSetFromOptions_ok E hok _ _).2.2.2
  have m : (createKSP2 E p).2.solver.ksp2.optionsPre = "poisson_" := by
    rw [c2]
    exact (KSPSetFromOptions_ok E hok _ _).2.2.2
  have e1 : ("-" ++ "velocity_" : String) = "-velocity_" := by decide
  have e2 : ("-" ++ "poisson_" : String) = "-poisson_" := by decide
  have hkey : ∀ a b : String, "-velocity_" ++ a ≠ "-poisson_" ++ b := by
    intro a b h
    have hd := congrArg String.data h
    simp only [String.data_append] at hd
    simp at hd
  refine ⟨k, m, ?_, ?_, ?_, ?_, ?_, ?_, rfl, rfl, ?_⟩
  · rw [k, m]; decide
  · rw [k, m]; decide
  · rw [k, m]; decide
  · intro a b
    rw [k, m, e1, e2]
    exact hkey a b
  · intro db a v ksp hp
    apply KSPSetFromOptions_congr
    intro s
    rw [hp, e1]
    exact lookup_PetscOptionsSetValue db _ _ v (hkey _ a)
  · intro db a v ksp hp
    apply KSPSetFromOptions_congr
    intro s
    rw [hp, e2]
    exact lookup_PetscOptionsSetValue db _ _ v (fun h => hkey _ _ h.symm)
  · show p.solver.parameters.directory ++ "/solversAmgXOptions_v.info"
      ≠ p.solver.parameters.directory ++ "/solversAmgXOptions_p.info"
    rw [Ne, string_append_right_inj]
    decide

/-- Instance of C12 on the sample process. -/
theorem option_sources_do_not_collide_witness :
    sampleEnv.allOk
    ∧ (createKSP1 sampleEnv sampleProc).2.solver.ksp1.optionsPre = "velocity_" :=
  ⟨fun _ => rfl, (option_sources_do_not_collide sampleEnv sampleProc (fun _ => rfl)).1⟩

/-- C13: a key under the prefix `sys1_` (`sys2_`) named in the documentation of `createKSP1`
(`createKSP2`) is not read: with `-sys1_ksp_type gmres` the velocity solver keeps conjugate
gradient, while `-velocity_ksp_type gmres` changes it; the prefixes the code sets are
`velocity_` and `poisson_`. -/
theorem createKSP_ignores_sys_keys :
    (createKSP1 sampleEnv (sampleProcWithOptions [("-sys1_ksp_type", "gmres")])).2.solver.ksp1.kspType
      = "cg"
    ∧ (createKSP1 sampleEnv
        (sampleProcWithOptions [("-velocity_ksp_type", "gmres")])).2.solver.ksp1.kspType
      = "gmres"
    ∧ (createKSP1 sampleEnv (sampleProcWithOptions [])).2.solver.ksp1.optionsPre = "velocity_"
    ∧ (createKSP2 sampleEnv (sampleProcWithOptions [("-sys2_ksp_type", "gmres")])).2.solver.ksp2.kspType
      = "cg"
    ∧ (createKSP2 sampleEnv
        (sampleProcWithOptions [("-poisson_ksp_type", "gmres")])).2.solver.ksp2.kspType
      = "gmres"
    ∧ (createKSP2 sampleEnv (sampleProcWithOptions [])).2.solver.ksp2.optionsPre = "poisson_" := by
  decide

/-! ## Names of the snapshot directories (C18) -/

/-- The character of a decimal digit has the code of `0` plus the digit. -/
theorem digitChar_value (k : Nat) (hk : k < 10) : (Nat.digitChar k).toNat - 48 = k := by
  interval_cases k <;> rfl

/-- The digits are put in front of the accumulator. -/
theorem toDigitsCore_append (fuel : Nat) : ∀ (n : Nat) (ds : List Char),
    Nat.toDigitsCore 10 fuel n ds = Nat.toDigitsCore 10 fuel n [] ++ ds := by
  induction fuel with
  | zero => intro n ds; simp [Nat.toDigitsCore]
  | succ fuel ih =>
    intro n ds
    simp only [Nat.toDigitsCore]
    split_ifs
    · simp
    · rw [ih (n / 10) (Nat.digitChar (n % 10) :: ds), ih (n / 10) [Nat.digitChar (n % 10)]]
      simp

/-- With enough fuel the digits of `n` denote `n`, and `n` is below ten to their number. -/
theorem toDigitsCore_value (fuel : Nat) : ∀ (n : Nat), n < fuel →
    decimalValue (Nat.toDigitsCore 10 fuel n []) = n
    ∧ n < 10 ^ (Nat.toDigitsCore 10 fuel n []).length := by
  induction fuel with
  | zero => intro n h; omega
  | succ fuel ih =>
    intro n hn
    simp only [Nat.toDigitsCore]
    have hd := digitChar_value (n % 10) (Nat.mod_lt _ (by norm_num))
    split_ifs with h0
    · have hlt : n < 10 := by
        by_contra hc
        have : 1 ≤ n / 10 := by omega
        omega
      have hm : n % 10 = n := Nat.mod_eq_of_lt hlt
      rw [hm] at hd ⊢
      simp only [decimalValue, List.foldl_cons, List.foldl_nil, List.length_singleton]
      rw [hd]
      omega
    · have hlt : n / 10 < fuel := by omega
      obtain ⟨h1, h2⟩ := ih (n / 10) hlt
      rw [toDigitsCore_append]
      simp only [decimalValue, List.foldl_append, List.foldl_cons, List.foldl_nil,
        List.length_append, List.length_singleton] at h1 ⊢
      rw [h1, hd]
      constructor
      · omega
      · rw [pow_succ]
        omega

/-- The decimal text of `n` denotes `n`, and `n` is below ten to its length. -/
theorem repr_value (n : Nat) :
    decimalValue (Nat.repr n).data = n ∧ n < 10 ^ (Nat.repr n).length := by
  have h := toDigitsCore_value (n + 1) n (Nat.lt_succ_self n)
  exact h

/-- Leading zeros do not change the number denoted. -/
theorem decimalValue_zeros (k : Nat) (l : List Char) :
    decimalValue (List.replicate k '0' ++ l) = decimalValue l := by
  unfold decimalValue
  rw [List.foldl_append]
  congr 1
  induction k with
  | zero => rfl
  | succ k ih => simpa [List.replicate_succ] using ih

/-- The zero-padded decimal text of `n` denotes `n`. -/
theorem padded_value (n : Nat) :
    decimalValue (setfill_setw '0' 7 (Nat.repr n)).data = n := by
  unfold setfill_setw
  rw [String.data_append]
  show decimalValue (List.replicate _ '0' ++ (Nat.repr n).data) = n
  rw [decimalValue_zeros]
  exact (repr_value n).1

/-- C18: for non-negative time steps the snapshot directory determines the time step, so two
different time steps never share a directory; from `10 ^ 7` on the name is the simulation
directory, a slash and the full decimal text of the time step, which is longer than seven
characters. -/
theorem solutionDirectory_injective (directory : String) (t1 t2 : Int)
    (h1 : 0 ≤ t1) (h2 : 0 ≤ t2) :
    (solutionDirectory directory t1 = solutionDirectory directory t2 → t1 = t2)
    ∧ (10 ^ 7 ≤ t1 →
        solutionDirectory directory t1 = directory ++ "/" ++ Nat.repr t1.toNat
        ∧ 7 < (Nat.repr t1.toNat).length) := by
  constructor
  · intro h
    unfold solutionDirectory at h
    rw [String.append_assoc, String.append_assoc, string_append_right_inj,
      string_append_right_inj, fmt_d_of_nonneg t1 h1, fmt_d_of_nonneg t2 h2] at h
    have hv := congrArg (fun s : String => decimalValue s.data) h
    simp only [padded_value] at hv
    omega
  · intro h7
    have hlen : 7 < (Nat.repr t1.toNat).length := by
      have hb := (repr_value t1.toNat).2
      by_contra hc
      have hle : (Nat.repr t1.toNat).length ≤ 7 := by omega
      have hp : 10 ^ (Nat.repr t1.toNat).length ≤ 10 ^ 7 :=
        Nat.pow_le_pow_right (by norm_num) hle
      have hn : 10 ^ 7 ≤ t1.toNat := by
        have : (10 : Int) ^ 7 = 10000000 := by norm_num
        omega
      omega
    refine ⟨?_, hlen⟩
    unfold solutionDirectory setfill_setw
    rw [fmt_d_of_nonneg t1 h1]
    have hz : 7 - (Nat.repr t1.toNat).length = 0 := by omega
    rw [hz]
    rfl

/-- Instance of C18 at the time steps 12345678 and 3. -/
theorem solutionDirectory_injective_witness :
    (0 : Int) ≤ 12345678 ∧ (0 : Int) ≤ 3
    ∧ solutionDirectory "run" 12345678 = "run" ++ "/" ++ Nat.repr (12345678 : Int).toNat :=
  ⟨by decide, by decide,
    ((solutionDirectory_injective "run" 12345678 3 (by decide) (by decide)).2 (by decide)).1⟩

/-! ## The simulation directory (C14) -/

/-- C14: an invocation without `-directory` is not rejected.  Started with an empty command
line in an environment where every library call succeeds, the program builds the solver from
the content of its unset buffer (here `garbage`), makes every call of a complete run on it,
writes the snapshot of time step 2 under that name (one `mkdir` for the fluxes, one for the
pressure), and returns 0. -/
theorem main_without_directory_is_not_rejected :
    ({} : World Nat).commandLine = []
    ∧ (PetscOptionsGetString sampleEnv ({} : World Nat) "-directory" "garbage"
        PETSC_MAX_PATH_LEN) = (0, "garbage")
    ∧ (main sampleEnv (sampleMethods sampleEnv) sampleCreateSolver "garbage" 4 {}).map
        (fun r => (r.1, r.2.2))
      = some (Flow.returned 0,
          [DriverCall.initialize_ 0, DriverCall.stepTime 0, DriverCall.writeData 1,
            DriverCall.stepTime 1, DriverCall.writeData 2, DriverCall.finalize 2])
    ∧ (main sampleEnv (sampleMethods sampleEnv) sampleCreateSolver "garbage" 4 {}).map
        (fun r => directoriesMade r.2.1.events)
      = some ["garbage/0000002", "garbage/0000002"] := by
  decide

/-! ## The grid description file (C15) -/

/-- Insertion into an open stream that has not failed appends to its buffer. -/
theorem ofStream_put_ok (s : OfStream) (text : String) (ho : s.isOpen = true)
    (hf : s.failed = false) : s.put text = { s with buf := s.buf ++ text } := by
  unfold OfStream.put
  simp [ho, hf]

/-- The loop over a coordinate array appends one line per entry, in the stored order, to the
buffer of an open stream that has not failed. -/
theorem putCoordinates_ok (E : Petsc M V) (v : List PetscReal) :
    ∀ (s : OfStream), s.isOpen = true → s.failed = false →
      putCoordinates E v s
        = { s with buf := (v.map E.fmtReal).foldl (fun text line => text ++ line ++ "\n") s.buf } := by
  induction v with
  | nil => intro s _ _; rfl
  | cons a v ih =>
    intro s ho hf
    unfold putCoordinates at ih ⊢
    rw [List.foldl_cons, ofStream_put_ok s _ ho hf,
      ofStream_put_ok { s with buf := s.buf ++ E.fmtReal a } "\n" ho hf,
      ih { s with buf := s.buf ++ E.fmtReal a ++ "\n" } ho hf]
    rfl

/-- An insertion never attaches or detaches the file of a stream. -/
theorem ofStream_put_isOpen (s : OfStream) (text : String) :
    (s.put text).isOpen = s.isOpen := by
  unfold OfStream.put
  split_ifs <;> rfl

/-- The loop over a coordinate array never attaches or detaches the file of a stream. -/
theorem putCoordinates_isOpen (E : Petsc M V) (v : List PetscReal) :
    ∀ (s : OfStream), (putCoordinates E v s).isOpen = s.isOpen := by
  induction v with
  | nil => intro s; rfl
  | cons a v ih =>
    intro s
    unfold putCoordinates at ih ⊢
    rw [List.foldl_cons, ih, ofStream_put_isOpen, ofStream_put_isOpen]

/-- C15: when `PetscPrintf` and `MPI_Comm_rank` succeed, `writeGrid` returns 0.  On rank 0,
when the file `grid.txt` of the simulation directory can be opened, it then holds the lines
the specification lists, each ended by a newline, and no other file is changed: in two
dimensions `nx` and `ny` separated by a tab, then the entries of `x`, then those of `y`,
which makes `1 + |x| + |y|` lines; in three dimensions `nx`, `ny` and `nz` separated by
tabs, then the entries of `x`, of `y` and of `z`, which makes `1 + |x| + |y| + |z|` lines.
When the file cannot be opened, the routine, which never tests the stream, still returns 0
and writes nothing: every text file is as before.  On any other rank no text file and no
binary file is changed and no file is opened. -/
theorem writeGrid_text (E : Petsc M V) (p : Proc M V)
    (hpr : E.err PetscCall.PetscPrintf = 0) (hmpi : E.err PetscCall.MPI_Comm_rank = 0) :
    (writeGrid E p).1 = Flow.returned 0
    ∧ (p.world.commRank = 0 →
        p.world.writable (p.solver.parameters.directory ++ "/grid.txt") = true →
        (writeGrid E p).2.world.textFiles (p.solver.parameters.directory ++ "/grid.txt")
          = some (linesText (gridLines E p.solver.dim p.solver.mesh))
        ∧ (∀ f, f ≠ p.solver.parameters.directory ++ "/grid.txt" →
            (writeGrid E p).2.world.textFiles f = p.world.textFiles f)
        ∧ (p.solver.dim = Dim.two →
            gridLines E p.solver.dim p.solver.mesh
              = (fmt_d p.solver.mesh.nx ++ "\t" ++ fmt_d p.solver.mesh.ny)
                :: (p.solver.mesh.x.map E.fmtReal ++ p.solver.mesh.y.map E.fmtReal)
            ∧ (gridLines E p.solver.dim p.solver.mesh).length
              = 1 + p.solver.mesh.x.length + p.solver.mesh.y.length)
        ∧ (p.solver.dim = Dim.three →
            gridLines E p.solver.dim p.solver.mesh
              = (fmt_d p.solver.mesh.nx ++ "\t" ++ fmt_d p.solver.mesh.ny ++ "\t"
                  ++ fmt_d p.solver.mesh.nz)
                :: (p.solver.mesh.x.map E.fmtReal ++ p.solver.mesh.y.map E.fmtReal
                  ++ p.solver.mesh.z.map E.fmtReal)
            ∧ (gridLines E p.solver.dim p.solver.mesh).length
              = 1 + p.solver.mesh.x.length + p.solver.mesh.y.length
                + p.solver.mesh.z.length))
    ∧ (p.world.commRank = 0 →
        p.world.writable (p.solver.parameters.directory ++ "/grid.txt") = false →
        (writeGrid E p).2.world.textFiles = p.world.textFiles
        ∧ (writeGrid E p).2.world.events
          = p.world.events ++ [IOEvent.enter Routine.writeGrid])
    ∧ (p.world.commRank ≠ 0 →
        (writeGrid E p).2.world.textFiles = p.world.textFiles
        ∧ (writeGrid E p).2.world.binFiles = p.world.binFiles
        ∧ (writeGrid E p).2.world.events
          = p.world.events ++ [IOEvent.enter Routine.writeGrid]) := by
  refine ⟨?_, ?_, ?_, ?_⟩
  · unfold writeGrid
    simp [PetscPrintf, World.PetscPrintf, hpr, hmpi]
  · intro hr hw
    refine ⟨?_, ?_, ?_, ?_⟩
    · unfold writeGrid
      simp only [PetscPrintf, World.PetscPrintf, hpr, hmpi, Proc.enter, World.log, hr,
        ne_eq, not_true_eq_false, if_false, if_true]
      cases hd : p.solver.dim
      · simp [Dim.val, ofstream_open, ofstream_close, putCoordinates_ok, ofStream_put_ok,
          gridLines, linesText, List.foldl_append, hd, hw]
      · simp [Dim.val, ofstream_open, ofstream_close, putCoordinates_ok, ofStream_put_ok,
          gridLines, linesText, List.foldl_append, hd, hw]
    · intro f hf
      unfold writeGrid
      simp only [PetscPrintf, World.PetscPrintf, hpr, hmpi, Proc.enter, World.log, hr,
        ne_eq, not_true_eq_false, if_false, if_true]
      cases hd : p.solver.dim
      · simp [Dim.val, ofstream_open, ofstream_close, putCoordinates_ok, ofStream_put_ok, hf,
          hw]
      · simp [Dim.val, ofstream_open, ofstream_close, putCoordinates_ok, ofStream_put_ok, hf,
          hw]
    · intro hd
      rw [hd]
      simp only [gridLines, List.length_cons, List.length_append, List.length_map, true_and]
      omega
    · intro hd
      rw [hd]
      simp only [gridLines, List.length_cons, List.length_append, List.length_map, true_and]
      omega
  · intro hr hw
    unfold writeGrid
    simp only [PetscPrintf, World.PetscPrintf, hpr, hmpi, Proc.enter, World.log, hr,
      ne_eq, not_true_eq_false, if_false, if_true]
    cases hd : p.solver.dim
    · simp [Dim.val, ofstream_open, ofstream_close, putCoordinates_isOpen,
        ofStream_put_isOpen, hw]
    · simp [Dim.val, ofstream_open, ofstream_close, putCoordinates_isOpen,
        ofStream_put_isOpen, hw]
  · intro hr
    unfold writeGrid
    simp [PetscPrintf, World.PetscPrintf, hpr, hmpi, Proc.enter, World.log, hr]

/-- Instance of C15: the grid file of the sample mesh on rank 0, no grid file on rank 0 when
the file cannot be opened, and no grid file on rank 1. -/
theorem writeGrid_text_witness :
    sampleEnv.err PetscCall.PetscPrintf = 0 ∧ sampleEnv.err PetscCall.MPI_Comm_rank = 0
    ∧ (sampleProcWithMesh 0).world.writable "run/grid.txt" = true
    ∧ (writeGrid sampleEnv (sampleProcWithMesh 0)).2.world.textFiles "run/grid.txt"
      = some "2\t1\n0\n0.5\n1\n0\n1\n"
    ∧ (writeGrid sampleEnv sampleProcWithMeshReadOnly).1 = Flow.returned 0
    ∧ (writeGrid sampleEnv sampleProcWithMeshReadOnly).2.world.textFiles "run/grid.txt" = none
    ∧ (writeGrid sampleEnv (sampleProcWithMesh 1)).2.world.textFiles
      = (sampleProcWithMesh 1).world.textFiles :=
  ⟨rfl, rfl, rfl,
    ((writeGrid_text sampleEnv (sampleProcWithMesh 0) rfl rfl).2.1 rfl rfl).1.trans
      (by decide),
    (writeGrid_text sampleEnv sampleProcWithMeshReadOnly rfl rfl).1,
    congrFun ((writeGrid_text sampleEnv sampleProcWithMeshReadOnly rfl rfl).2.2.1 rfl rfl).1
      "run/grid.txt",
    ((writeGrid_text sampleEnv (sampleProcWithMesh 1) rfl rfl).2.2.2 (by decide)).1⟩


/-! ## Auxiliary facts about the iteration-count log -/

/-- Printing leaves the solver object alone. -/
theorem PetscPrintf_solver (E : Petsc M V) (text : String) (p : Proc M V) :
    (PetscPrintf E text p).2.solver = p.solver := rfl

/-- Printing changes nothing of the world but the printed text. -/
theorem PetscPrintf_world (E : Petsc M V) (text : String) (p : Proc M V) :
    (PetscPrintf E text p).2.world.textFiles = p.world.textFiles
    ∧ (PetscPrintf E text p).2.world.commRank = p.world.commRank
    ∧ (PetscPrintf E text p).2.world.events = p.world.events
    ∧ (PetscPrintf E text p).2.world.binFiles = p.world.binFiles
    ∧ (PetscPrintf E text p).2.world.writable = p.world.writable := by
  unfold PetscPrintf World.PetscPrintf
  split_ifs <;> exact ⟨rfl, rfl, rfl, rfl, rfl⟩

/-- A solve routine, however it ends, leaves the log stream, the text files, the rank, the
parameters and the writable paths alone. -/
theorem solveFn_call_log (E : Petsc M V) (f : SolveFn) (p : Proc M V) :
    (f.call E p).2.solver.iterationCountsFile = p.solver.iterationCountsFile
    ∧ (f.call E p).2.world.textFiles = p.world.textFiles
    ∧ (f.call E p).2.world.commRank = p.world.commRank
    ∧ (f.call E p).2.solver.parameters = p.solver.parameters
    ∧ (f.call E p).2.solver.timeStep = p.solver.timeStep
    ∧ (f.call E p).2.solver.getSolverIterationsFP1 = p.solver.getSolverIterationsFP1
    ∧ (f.call E p).2.solver.getSolverIterationsFP2 = p.solver.getSolverIterationsFP2
    ∧ (f.call E p).2.world.writable = p.world.writable := by
  cases f
  · simp only [SolveFn.call, solveV_KSP]
    split_ifs <;>
      simp only [PetscPrintf_solver, (PetscPrintf_world E _ _).1, (PetscPrintf_world E _ _).2.1,
        (PetscPrintf_world E _ _).2.2.2.2, and_self]
  · simp only [SolveFn.call, solveP_KSP]
    split_ifs <;>
      simp only [PetscPrintf_solver, (PetscPrintf_world E _ _).1, (PetscPrintf_world E _ _).2.1,
        (PetscPrintf_world E _ _).2.2.2.2, and_self]
  · simp only [SolveFn.call, solveV_AmgX]
    split_ifs <;> exact ⟨rfl, rfl, rfl, rfl, rfl, rfl, rfl, rfl⟩
  · simp only [SolveFn.call, solveP_AmgX]
    split_ifs <;> exact ⟨rfl, rfl, rfl, rfl, rfl, rfl, rfl, rfl⟩

/-- The modelled `stepTime`, however it ends, leaves the log stream, the text files, the
rank, the parameters and the writable paths alone, and adds one to the time step. -/
theorem stepTime_log (E : Petsc M V) (N : Numerics M V) (p : Proc M V) :
    (stepTime E N p).2.solver.iterationCountsFile = p.solver.iterationCountsFile
    ∧ (stepTime E N p).2.world.textFiles = p.world.textFiles
    ∧ (stepTime E N p).2.world.commRank = p.world.commRank
    ∧ (stepTime E N p).2.solver.parameters = p.solver.parameters
    ∧ (stepTime E N p).2.solver.timeStep = p.solver.timeStep + 1
    ∧ (stepTime E N p).2.world.writable = p.world.writable := by
  obtain ⟨a1, a2, a3, a4, a5, -, -, a6⟩ := solveFn_call_log E (beforeVelocitySolve N p).solver.solveV
    (beforeVelocitySolve N p)
  obtain ⟨b1, b2, b3, b4, b5, -, -, b6⟩ := solveFn_call_log E
    (beforePoissonSolve N (solveIntermediateVelocity E (beforeVelocitySolve N p)).2).solver.solveP
    (beforePoissonSolve N (solveIntermediateVelocity E (beforeVelocitySolve N p)).2)
  rw [← solveIntermediateVelocity_eq] at a1 a2 a3 a4 a5 a6
  rw [← solvePoissonSystem_eq] at b1 b2 b3 b4 b5 b6
  have a6' : (solveIntermediateVelocity E (beforeVelocitySolve N p)).2.world.writable
      = p.world.writable := a6
  have b6' : (solvePoissonSystem E (beforePoissonSolve N
      (solveIntermediateVelocity E (beforeVelocitySolve N p)).2)).2.world.writable
      = p.world.writable := b6.trans a6'
  have a5' : (solveIntermediateVelocity E (beforeVelocitySolve N p)).2.solver.timeStep
      = p.solver.timeStep + 1 := a5
  have b5' : (solvePoissonSystem E (beforePoissonSolve N
      (solveIntermediateVelocity E (beforeVelocitySolve N p)).2)).2.solver.timeStep
      = p.solver.timeStep + 1 := b5.trans a5'
  have a1' : (solveIntermediateVelocity E (beforeVelocitySolve N p)).2.solver.iterationCountsFile
      = p.solver.iterationCountsFile := a1
  have a2' : (solveIntermediateVelocity E (beforeVelocitySolve N p)).2.world.textFiles
      = p.world.textFiles := a2
  have a3' : (solveIntermediateVelocity E (beforeVelocitySolve N p)).2.world.commRank
      = p.world.commRank := a3
  have a4' : (solveIntermediateVelocity E (beforeVelocitySolve N p)).2.solver.parameters
      = p.solver.parameters := a4
  have b1' : (solvePoissonSystem E (beforePoissonSolve N
      (solveIntermediateVelocity E (beforeVelocitySolve N p)).2)).2.solver.iterationCountsFile
      = p.solver.iterationCountsFile := b1.trans a1'
  have b2' : (solvePoissonSystem E (beforePoissonSolve N
      (solveIntermediateVelocity E (beforeVelocitySolve N p)).2)).2.world.textFiles
      = p.world.textFiles := b2.trans a2'
  have b3' : (solvePoissonSystem E (beforePoissonSolve N
      (solveIntermediateVelocity E (beforeVelocitySolve N p)).2)).2.world.commRank
      = p.world.commRank := b3.trans a3'
  have b4' : (solvePoissonSystem E (beforePoissonSolve N
      (solveIntermediateVelocity E (beforeVelocitySolve N p)).2)).2.solver.parameters
      = p.solver.parameters := b4.trans a4'
  unfold stepTime
  simp only []
  split_ifs
  · exact ⟨a1', a2', a3', a4', a5', a6'⟩
  · exact ⟨b1', b2', b3', b4', b5', b6'⟩
  · exact ⟨b1', b2', b3', b4', b5', b6'⟩

/-- Dumping a vector into a binary file leaves the text files, the rank and the writable
paths alone. -/
theorem viewToFile_world (E : Petsc M V) (path : String) (v : V) (w : World V) :
    (viewToFile E path v w).2.textFiles = w.textFiles
    ∧ (viewToFile E path v w).2.commRank = w.commRank
    ∧ (viewToFile E path v w).2.writable = w.writable := by
  simp only [viewToFile, PetscViewerBinaryOpen, VecView, World.log]
  split_ifs <;> exact ⟨rfl, rfl, rfl⟩

/-- A property of both branches holds of the conditional. -/
theorem frame_ite {α : Type} (P : α → Prop) (c : Prop) [Decidable c] (a b : α)
    (ha : P a) (hb : P b) : P (if c then a else b) := by
  split_ifs <;> assumption

/-- `writeFluxes`, however it ends, leaves the solver object, the text files, the rank and
the writable paths alone. -/
theorem writeFluxes_log (E : Petsc M V) (p : Proc M V) :
    (writeFluxes E p).2.solver = p.solver
    ∧ (writeFluxes E p).2.world.textFiles = p.world.textFiles
    ∧ (writeFluxes E p).2.world.commRank = p.world.commRank
    ∧ (writeFluxes E p).2.world.writable = p.world.writable := by
  have e1 : ∀ (r : Routine) (s : Proc M V), (s.enter r).solver = s.solver := fun _ _ => rfl
  have e2 : ∀ (r : Routine) (s : Proc M V), (s.enter r).world.textFiles = s.world.textFiles :=
    fun _ _ => rfl
  have e3 : ∀ (r : Routine) (s : Proc M V), (s.enter r).world.commRank = s.world.commRank :=
    fun _ _ => rfl
  have m1 : ∀ (d : String) (s : Proc M V), (mkdir d s).solver = s.solver := fun _ _ => rfl
  have m2 : ∀ (d : String) (s : Proc M V), (mkdir d s).world.textFiles = s.world.textFiles :=
    fun _ _ => rfl
  have m3 : ∀ (d : String) (s : Proc M V), (mkdir d s).world.commRank = s.world.commRank :=
    fun _ _ => rfl
  have e4 : ∀ (r : Routine) (s : Proc M V), (s.enter r).world.writable = s.world.writable :=
    fun _ _ => rfl
  have m4 : ∀ (d : String) (s : Proc M V), (mkdir d s).world.writable = s.world.writable :=
    fun _ _ => rfl
  let P : Flow × Proc M V → Prop := fun r =>
    r.2.solver = p.solver ∧ r.2.world.textFiles = p.world.textFiles
      ∧ r.2.world.commRank = p.world.commRank ∧ r.2.world.writable = p.world.writable
  show P (writeFluxes E p)
  unfold writeFluxes
  repeat' (refine frame_ite P _ _ _ ?_ ?_)
  all_goals
    simp only [P, PetscPrintf_solver, (PetscPrintf_world E _ _).1,
      (PetscPrintf_world E _ _).2.1, (PetscPrintf_world E _ _).2.2.2.2,
      (viewToFile_world E _ _ _).1, (viewToFile_world E _ _ _).2.1,
      (viewToFile_world E _ _ _).2.2, e1, e2, e3, e4, m1, m2, m3, m4, and_self, true_and]
  all_goals
    split_ifs <;>
      simp only [PetscPrintf_solver, (PetscPrintf_world E _ _).1,
        (PetscPrintf_world E _ _).2.1, (PetscPrintf_world E _ _).2.2.2.2,
        (viewToFile_world E _ _ _).1, (viewToFile_world E _ _ _).2.1,
        (viewToFile_world E _ _ _).2.2, e1, e2, e3, e4, m1, m2, m3, m4, and_self]

/-- `writeLambda`, however it ends, leaves the solver object, the text files, the rank and
the writable paths alone. -/
theorem writeLambda_log (E : Petsc M V) (p : Proc M V) :
    (writeLambda E p).2.solver = p.solver
    ∧ (writeLambda E p).2.world.textFiles = p.world.textFiles
    ∧ (writeLambda E p).2.world.commRank = p.world.commRank
    ∧ (writeLambda E p).2.world.writable = p.world.writable := by
  have e1 : ∀ (r : Routine) (s : Proc M V), (s.enter r).solver = s.solver := fun _ _ => rfl
  have e2 : ∀ (r : Routine) (s : Proc M V), (s.enter r).world.textFiles = s.world.textFiles :=
    fun _ _ => rfl
  have e3 : ∀ (r : Routine) (s : Proc M V), (s.enter r).world.commRank = s.world.commRank :=
    fun _ _ => rfl
  have m1 : ∀ (d : String) (s : Proc M V), (mkdir d s).solver = s.solver := fun _ _ => rfl
  have m2 : ∀ (d : String) (s : Proc M V), (mkdir d s).world.textFiles = s.world.textFiles :=
    fun _ _ => rfl
  have m3 : ∀ (d : String) (s : Proc M V), (mkdir d s).world.commRank = s.world.commRank :=
    fun _ _ => rfl
  have e4 : ∀ (r : Routine) (s : Proc M V), (s.enter r).world.writable = s.world.writable :=
    fun _ _ => rfl
  have m4 : ∀ (d : String) (s : Proc M V), (mkdir d s).world.writable = s.world.writable :=
    fun _ _ => rfl
  let P : Flow × Proc M V → Prop := fun r =>
    r.2.solver = p.solver ∧ r.2.world.textFiles = p.world.textFiles
      ∧ r.2.world.commRank = p.world.commRank ∧ r.2.world.writable = p.world.writable
  show P (writeLambda E p)
  unfold writeLambda
  repeat' (refine frame_ite P _ _ _ ?_ ?_)
  all_goals
    simp only [P, PetscPrintf_solver, (PetscPrintf_world E _ _).1,
      (PetscPrintf_world E _ _).2.1, (PetscPrintf_world E _ _).2.2.2.2,
      (viewToFile_world E _ _ _).1, (viewToFile_world E _ _ _).2.1,
      (viewToFile_world E _ _ _).2.2, e1, e2, e3, e4, m1, m2, m3, m4, and_self]


/-- The state `writeIterationCounts` leaves on rank 0 when the stream is closed at entry, the
log file can be opened and `MPI_Comm_rank` and `getSolverIterations` succeed. -/
theorem writeIterationCounts_rank0 (E : Petsc M V) (p : Proc M V)
    (hrank : p.world.commRank = 0)
    (hmpi : E.err PetscCall.MPI_Comm_rank = 0)
    (hg : (getSolverIterations E p.solver 0 0).1 = Flow.returned 0)
    (hclosed : p.solver.iterationCountsFile.isOpen = false)
    (hopen : p.world.writable (p.solver.parameters.directory ++ "/iterationCounts.txt")
      = true) :
    writeIterationCounts E p = (Flow.returned 0,
      { solver := { p.solver with iterationCountsFile :=
          { isOpen := false, path := p.solver.parameters.directory ++ "/iterationCounts.txt",
            failed := false, buf := "" } },
        world := { p.world with
          textFiles := fun f =>
            if f = p.solver.parameters.directory ++ "/iterationCounts.txt" then
              some ((if p.solver.timeStep = 1 then ""
                  else (p.world.textFiles
                    (p.solver.parameters.directory ++ "/iterationCounts.txt")).getD "")
                ++ (fmt_d p.solver.timeStep ++ "\t"
                  ++ fmt_d (getSolverIterations E p.solver 0 0).2.1 ++ "\t"
                  ++ fmt_d (getSolverIterations E p.solver 0 0).2.2 ++ "\n"))
            else p.world.textFiles f,
          events := p.world.events ++
            [IOEvent.enter Routine.writeIterationCounts,
              IOEvent.textOpen (p.solver.parameters.directory ++ "/iterationCounts.txt")
                (if p.solver.timeStep = 1 then false else true)] } }) := by
  unfold writeIterationCounts
  simp only [hmpi, hrank, Proc.enter, World.log, ne_eq, not_true_eq_false, if_false, if_true]
  by_cases ht : p.solver.timeStep = 1
  · rw [if_pos ht, if_pos ht, if_pos ht]
    simp [hg, iterationCountsFile_open, iterationCountsFile_put,
      iterationCountsFile_endl, iterationCountsFile_flush, iterationCountsFile_close, hclosed,
      hopen, getSolverIterations_stream, String.append_assoc]
    funext f
    by_cases hf : f = p.solver.parameters.directory ++ "/iterationCounts.txt" <;> simp [hf]
  · rw [if_neg ht, if_neg ht, if_neg ht]
    simp [hg, iterationCountsFile_open, iterationCountsFile_put,
      iterationCountsFile_endl, iterationCountsFile_flush, iterationCountsFile_close, hclosed,
      hopen, getSolverIterations_stream, String.append_assoc]
    funext f
    by_cases hf : f = p.solver.parameters.directory ++ "/iterationCounts.txt" <;> simp [hf]

/-- When `writeIterationCounts` is entered on rank 0 with the stream closed and returns 0,
`MPI_Comm_rank` and `getSolverIterations` have succeeded. -/
theorem writeIterationCounts_returned (E : Petsc M V) (p : Proc M V)
    (hdone : (writeIterationCounts E p).1 = Flow.returned 0) :
    E.err PetscCall.MPI_Comm_rank = 0
    ∧ (p.world.commRank = 0 → p.solver.iterationCountsFile.isOpen = false →
        (getSolverIterations E p.solver 0 0).1 = Flow.returned 0) := by
  unfold writeIterationCounts at hdone
  simp only [Proc.enter, World.log] at hdone
  by_cases hmpi : E.err PetscCall.MPI_Comm_rank = 0
  · refine ⟨hmpi, fun hrank hclosed => ?_⟩
    by_contra hg
    by_cases hw : p.world.writable (p.solver.parameters.directory ++ "/iterationCounts.txt")
      = true
    · by_cases ht : p.solver.timeStep = 1
      · rw [if_pos ht] at hdone
        simp [hmpi, hrank, hg, hw, iterationCountsFile_open, hclosed,
          getSolverIterations_stream] at hdone
      · rw [if_neg ht] at hdone
        simp [hmpi, hrank, hg, hw, iterationCountsFile_open, hclosed,
          getSolverIterations_stream] at hdone
    · by_cases ht : p.solver.timeStep = 1
      · rw [if_pos ht] at hdone
        simp [hmpi, hrank, hg, hw, iterationCountsFile_open, hclosed,
          getSolverIterations_stream] at hdone
      · rw [if_neg ht] at hdone
        simp [hmpi, hrank, hg, hw, iterationCountsFile_open, hclosed,
          getSolverIterations_stream] at hdone
  · exfalso
    simp [hmpi] at hdone

/-- A call of `writeIterationCounts` that is entered with the log stream closed and its
buffer empty and that returns 0 leaves the stream closed and its buffer empty.  On rank 0,
when the log file can be opened, the file then ends with the row of the time step, after
nothing when the time step is 1 and after the previous content otherwise.  On another rank,
and when the log file cannot be opened, no text file is changed. -/
theorem writeIterationCounts_done (E : Petsc M V) (p : Proc M V)
    (hclosed : p.solver.iterationCountsFile.isOpen = false)
    (hbuf : p.solver.iterationCountsFile.buf = "")
    (hdone : (writeIterationCounts E p).1 = Flow.returned 0) :
    (writeIterationCounts E p).2.solver.iterationCountsFile.isOpen = false
    ∧ (writeIterationCounts E p).2.solver.iterationCountsFile.buf = ""
    ∧ (writeIterationCounts E p).2.solver.timeStep = p.solver.timeStep
    ∧ (writeIterationCounts E p).2.solver.parameters = p.solver.parameters
    ∧ (writeIterationCounts E p).2.world.commRank = p.world.commRank
    ∧ (writeIterationCounts E p).2.world.writable = p.world.writable
    ∧ (p.world.commRank = 0 →
        p.world.writable (p.solver.parameters.directory ++ "/iterationCounts.txt") = true →
        (writeIterationCounts E p).2.world.textFiles
            (p.solver.parameters.directory ++ "/iterationCounts.txt")
          = some ((if p.solver.timeStep = 1 then ""
              else (p.world.textFiles
                (p.solver.parameters.directory ++ "/iterationCounts.txt")).getD "")
            ++ (fmt_d p.solver.timeStep ++ "\t"
              ++ fmt_d (getSolverIterations E p.solver 0 0).2.1 ++ "\t"
              ++ fmt_d (getSolverIterations E p.solver 0 0).2.2 ++ "\n")))
    ∧ (p.world.commRank ≠ 0 →
        (writeIterationCounts E p).2.world.textFiles = p.world.textFiles)
    ∧ (p.world.writable (p.solver.parameters.directory ++ "/iterationCounts.txt") = false →
        (writeIterationCounts E p).2.world.textFiles = p.world.textFiles) := by
  obtain ⟨hmpi, hg⟩ := writeIterationCounts_returned E p hdone
  by_cases hrank : p.world.commRank = 0
  · by_cases hw : p.world.writable (p.solver.parameters.directory ++ "/iterationCounts.txt")
      = true
    · rw [writeIterationCounts_rank0 E p hrank hmpi (hg hrank hclosed) hclosed hw]
      simp [hrank, hw]
    · have hno : p.world.writable (p.solver.parameters.directory ++ "/iterationCounts.txt")
          = false := by simpa using hw
      rw [writeIterationCounts_unwritable E p hrank hmpi (hg hrank hclosed) hclosed hno]
      simp [hrank, hno, hclosed, hbuf]
  · unfold writeIterationCounts
    simp [hmpi, hrank, hclosed, hbuf, Proc.enter, World.log]

/-- When `writeData` returns 0, so did its call of `writeIterationCounts`, and what follows
that call leaves the solver object, the text files, the rank and the writable paths
alone. -/
theorem writeData_after_counts (E : Petsc M V) (p : Proc M V)
    (hdone : (writeData E p).1 = Flow.returned 0) :
    (writeIterationCounts E (p.enter Routine.writeData)).1 = Flow.returned 0
    ∧ (writeData E p).2.solver
        = (writeIterationCounts E (p.enter Routine.writeData)).2.solver
    ∧ (writeData E p).2.world.textFiles
        = (writeIterationCounts E (p.enter Routine.writeData)).2.world.textFiles
    ∧ (writeData E p).2.world.commRank
        = (writeIterationCounts E (p.enter Routine.writeData)).2.world.commRank
    ∧ (writeData E p).2.world.writable
        = (writeIterationCounts E (p.enter Routine.writeData)).2.world.writable := by
  have hwic : (writeIterationCounts E (p.enter Routine.writeData)).1 = Flow.returned 0 := by
    by_contra h
    unfold writeData at hdone
    simp only [ne_eq, h, not_false_eq_true, if_true] at hdone
  refine ⟨hwic, ?_⟩
  obtain ⟨f1, f2, f3, f4⟩ :=
    writeFluxes_log E (writeIterationCounts E (p.enter Routine.writeData)).2
  obtain ⟨l1, l2, l3, l4⟩ := writeLambda_log E
    (writeFluxes E (writeIterationCounts E (p.enter Routine.writeData)).2).2
  let P : Flow × Proc M V → Prop := fun r =>
    r.2.solver = (writeIterationCounts E (p.enter Routine.writeData)).2.solver
      ∧ r.2.world.textFiles
        = (writeIterationCounts E (p.enter Routine.writeData)).2.world.textFiles
      ∧ r.2.world.commRank
        = (writeIterationCounts E (p.enter Routine.writeData)).2.world.commRank
      ∧ r.2.world.writable
        = (writeIterationCounts E (p.enter Routine.writeData)).2.world.writable
  show P (writeData E p)
  unfold writeData
  refine frame_ite P _ _ _ ?_ (frame_ite P _ _ _
    (frame_ite P _ _ _ ?_ (frame_ite P _ _ _ ?_ ?_)) ?_)
  · exact ⟨rfl, rfl, rfl, rfl⟩
  · exact ⟨f1, f2, f3, f4⟩
  · exact ⟨l1.trans f1, l2.trans f2, l3.trans f3, l4.trans f4⟩
  · exact ⟨l1.trans f1, l2.trans f2, l3.trans f3, l4.trans f4⟩
  · exact ⟨rfl, rfl, rfl, rfl⟩

/-- A call of `writeData` that is entered with the log stream closed and its buffer empty
and that returns 0 leaves the stream closed and its buffer empty.  On rank 0, when the log
file can be opened, the file then ends with the row of the time step, after nothing when the
time step is 1 and after the previous content otherwise.  On another rank, and when the log
file cannot be opened, no text file is changed. -/
theorem writeData_done (E : Petsc M V) (p : Proc M V)
    (hclosed : p.solver.iterationCountsFile.isOpen = false)
    (hbuf : p.solver.iterationCountsFile.buf = "")
    (hdone : (writeData E p).1 = Flow.returned 0) :
    (writeData E p).2.solver.iterationCountsFile.isOpen = false
    ∧ (writeData E p).2.solver.iterationCountsFile.buf = ""
    ∧ (writeData E p).2.solver.timeStep = p.solver.timeStep
    ∧ (writeData E p).2.solver.parameters = p.solver.parameters
    ∧ (writeData E p).2.world.commRank = p.world.commRank
    ∧ (writeData E p).2.world.writable = p.world.writable
    ∧ (p.world.commRank = 0 →
        p.world.writable (p.solver.parameters.directory ++ "/iterationCounts.txt") = true →
        (writeData E p).2.world.textFiles
            (p.solver.parameters.directory ++ "/iterationCounts.txt")
          = some ((if p.solver.timeStep = 1 then ""
              else (p.world.textFiles
                (p.solver.parameters.directory ++ "/iterationCounts.txt")).getD "")
            ++ (fmt_d p.solver.timeStep ++ "\t"
              ++ fmt_d (getSolverIterations E p.solver 0 0).2.1 ++ "\t"
              ++ fmt_d (getSolverIterations E p.solver 0 0).2.2 ++ "\n")))
    ∧ (p.world.commRank ≠ 0 → (writeData E p).2.world.textFiles = p.world.textFiles)
    ∧ (p.world.writable (p.solver.parameters.directory ++ "/iterationCounts.txt") = false →
        (writeData E p).2.world.textFiles = p.world.textFiles) := by
  obtain ⟨hwic, s1, s2, s3, s4⟩ := writeData_after_counts E p hdone
  obtain ⟨c1, c2, c3, c4, c5, c6, c7, c8, c9⟩ :=
    writeIterationCounts_done E (p.enter Routine.writeData) hclosed hbuf hwic
  rw [s1, s2, s3, s4]
  exact ⟨c1, c2, c3, c4, c5, c6, c7, c8, c9⟩

/-- One pass through the body of the time loop whose `writeData` returns 0, entered with the
log stream closed and its buffer empty, when `stepTime` adds one to the time step and leaves
the log alone: the stream is closed and its buffer empty afterwards; on rank 0, when the log
file can be opened, the file ends with the row of the new time step, after nothing when that
time step is 1 and after the previous content otherwise; when the log file cannot be opened,
no text file is changed. -/
theorem pass_log (E : Petsc M V) (S : Methods M V) (hwd : S.writeData = writeData E)
    (hstep : ∀ s, (S.stepTime s).2.solver.timeStep = s.solver.timeStep + 1)
    (hlog : ∀ s, (S.stepTime s).2.solver.iterationCountsFile = s.solver.iterationCountsFile
      ∧ (S.stepTime s).2.world.textFiles = s.world.textFiles
      ∧ (S.stepTime s).2.world.commRank = s.world.commRank
      ∧ (S.stepTime s).2.solver.parameters = s.solver.parameters
      ∧ (S.stepTime s).2.world.writable = s.world.writable)
    (p : Proc M V)
    (hclosed : p.solver.iterationCountsFile.isOpen = false)
    (hbuf : p.solver.iterationCountsFile.buf = "")
    (hdone : (S.writeData (S.stepTime p).2).1 = Flow.returned 0) :
    (S.writeData (S.stepTime p).2).2.solver.iterationCountsFile.isOpen = false
    ∧ (S.writeData (S.stepTime p).2).2.solver.iterationCountsFile.buf = ""
    ∧ (S.writeData (S.stepTime p).2).2.solver.timeStep = p.solver.timeStep + 1
    ∧ (S.writeData (S.stepTime p).2).2.solver.parameters = p.solver.parameters
    ∧ (S.writeData (S.stepTime p).2).2.world.commRank = p.world.commRank
    ∧ (S.writeData (S.stepTime p).2).2.world.writable = p.world.writable
    ∧ (p.world.commRank = 0 →
        p.world.writable (p.solver.parameters.directory ++ "/iterationCounts.txt") = true →
        (S.writeData (S.stepTime p).2).2.world.textFiles
            (p.solver.parameters.directory ++ "/iterationCounts.txt")
          = some ((if p.solver.timeStep = 0 then ""
              else (p.world.textFiles
                (p.solver.parameters.directory ++ "/iterationCounts.txt")).getD "")
            ++ iterationRow (p.solver.timeStep + 1)
              (getSolverIterations E (S.stepTime p).2.solver 0 0).2.1
              (getSolverIterations E (S.stepTime p).2.solver 0 0).2.2))
    ∧ (p.world.writable (p.solver.parameters.directory ++ "/iterationCounts.txt") = false →
        (S.writeData (S.stepTime p).2).2.world.textFiles = p.world.textFiles) := by
  obtain ⟨g1, g2, g3, g4, g5⟩ := hlog p
  rw [hwd] at hdone ⊢
  obtain ⟨c1, c2, c3, c4, c5, c6, c7, -, c9⟩ := writeData_done E (S.stepTime p).2
    (by rw [g1]; exact hclosed) (by rw [g1]; exact hbuf) hdone
  refine ⟨c1, c2, c3.trans (hstep p), c4.trans g4, c5.trans g3, c6.trans g5,
    fun hrank hw => ?_, fun hw => ?_⟩
  · have h7 := c7 (g3.trans hrank) (by rw [g5, g4]; exact hw)
    rw [g4, g2, hstep p] at h7
    rw [h7]
    have hiff : (p.solver.timeStep + 1 = 1) ↔ (p.solver.timeStep = 0) := by omega
    simp only [hiff]
    rfl
  · exact (c9 (by rw [g5, g4]; exact hw)).trans g2

/-- The log after `n` passes through the body of the time loop whose `writeData` return 0,
entered on rank 0 at a time step that is not negative with the log stream closed and its
buffer empty, when the log file can be opened and `stepTime` adds one to the time step and
leaves the log alone: the stream is closed and its buffer empty, and for `n ≥ 1` the log
file holds `n` consecutive rows that start at the time step after the one of entry, after
nothing when the run is entered at time step 0 and after the previous content otherwise. -/
theorem afterSteps_log (E : Petsc M V) (S : Methods M V) (hwd : S.writeData = writeData E)
    (hstep : ∀ s, (S.stepTime s).2.solver.timeStep = s.solver.timeStep + 1)
    (hlog : ∀ s, (S.stepTime s).2.solver.iterationCountsFile = s.solver.iterationCountsFile
      ∧ (S.stepTime s).2.world.textFiles = s.world.textFiles
      ∧ (S.stepTime s).2.world.commRank = s.world.commRank
      ∧ (S.stepTime s).2.solver.parameters = s.solver.parameters
      ∧ (S.stepTime s).2.world.writable = s.world.writable) :
    ∀ (n : Nat) (p : Proc M V),
      p.solver.iterationCountsFile.isOpen = false →
      p.solver.iterationCountsFile.buf = "" →
      p.world.commRank = 0 →
      p.world.writable (p.solver.parameters.directory ++ "/iterationCounts.txt") = true →
      0 ≤ p.solver.timeStep →
      (∀ k, k < n → (S.writeData (S.stepTime (afterSteps S k p)).2).1 = Flow.returned 0) →
      (afterSteps S n p).solver.iterationCountsFile.isOpen = false
      ∧ (afterSteps S n p).solver.iterationCountsFile.buf = ""
      ∧ (afterSteps S n p).solver.timeStep = p.solver.timeStep + n
      ∧ (afterSteps S n p).solver.parameters = p.solver.parameters
      ∧ (afterSteps S n p).world.commRank = 0
      ∧ ∃ counts : List (Int × Int), counts.length = n
        ∧ (afterSteps S n p).world.textFiles
            (p.solver.parameters.directory ++ "/iterationCounts.txt")
          = if n = 0 then
              p.world.textFiles (p.solver.parameters.directory ++ "/iterationCounts.txt")
            else
              some ((if p.solver.timeStep = 0 then ""
                  else (p.world.textFiles
                    (p.solver.parameters.directory ++ "/iterationCounts.txt")).getD "")
                ++ iterationRows (p.solver.timeStep + 1) counts) := by
  intro n
  induction n with
  | zero =>
    intro p hclosed hbuf hrank _ _ _
    refine ⟨hclosed, hbuf, ?_, rfl, hrank, [], rfl, ?_⟩
    · show p.solver.timeStep = p.solver.timeStep + ((0 : Nat) : Int)
      omega
    · rfl
  | succ n ih =>
    intro p hclosed hbuf hrank hw ht hdone
    obtain ⟨q1, q2, q3, q4, q5, q6, q7, -⟩ :=
      pass_log E S hwd hstep hlog p hclosed hbuf (hdone 0 (Nat.succ_pos n))
    have hq7 := q7 hrank hw
    obtain ⟨r1, r2, r3, r4, r5, counts, hlen, hfile⟩ :=
      ih (S.writeData (S.stepTime p).2).2 q1 q2 (q5.trans hrank) (by rw [q6, q4]; exact hw)
        (by rw [q3]; omega) (fun k hk => hdone (k + 1) (Nat.succ_lt_succ hk))
    have hne : (S.writeData (S.stepTime p).2).2.solver.timeStep ≠ 0 := by
      rw [q3]
      omega
    rw [q4, if_neg hne, hq7, q3] at hfile
    refine ⟨r1, r2, ?_, r4.trans q4, r5,
      (getSolverIterations E (S.stepTime p).2.solver 0 0).2 :: counts, ?_, ?_⟩
    · show (afterSteps S n (S.writeData (S.stepTime p).2).2).solver.timeStep
        = p.solver.timeStep + ((n + 1 : Nat) : Int)
      rw [r3, q3]
      push_cast
      omega
    · simp [hlen]
    · show (afterSteps S n (S.writeData (S.stepTime p).2).2).world.textFiles
          (p.solver.parameters.directory ++ "/iterationCounts.txt") = _
      rw [hfile, if_neg (Nat.succ_ne_zero n)]
      by_cases hn : n = 0
      · subst hn
        have hc : counts = [] := List.length_eq_zero.mp hlen
        subst hc
        simp [iterationRows]
      · simp [hn, iterationRows, String.append_assoc]

/-- After any number of passes through the body of the time loop whose `writeData` return
0, entered with the log stream closed and its buffer empty, when `stepTime` leaves the log
alone: the stream is closed and its buffer empty, and when the log file cannot be opened
the text files are those of entry. -/
theorem afterSteps_closed (E : Petsc M V) (S : Methods M V) (hwd : S.writeData = writeData E)
    (hstep : ∀ s, (S.stepTime s).2.solver.timeStep = s.solver.timeStep + 1)
    (hlog : ∀ s, (S.stepTime s).2.solver.iterationCountsFile = s.solver.iterationCountsFile
      ∧ (S.stepTime s).2.world.textFiles = s.world.textFiles
      ∧ (S.stepTime s).2.world.commRank = s.world.commRank
      ∧ (S.stepTime s).2.solver.parameters = s.solver.parameters
      ∧ (S.stepTime s).2.world.writable = s.world.writable) :
    ∀ (n : Nat) (p : Proc M V),
      p.solver.iterationCountsFile.isOpen = false →
      p.solver.iterationCountsFile.buf = "" →
      (∀ k, k < n → (S.writeData (S.stepTime (afterSteps S k p)).2).1 = Flow.returned 0) →
      (afterSteps S n p).solver.iterationCountsFile.isOpen = false
      ∧ (afterSteps S n p).solver.iterationCountsFile.buf = ""
      ∧ (p.world.writable (p.solver.parameters.directory ++ "/iterationCounts.txt") = false →
          (afterSteps S n p).world.textFiles = p.world.textFiles) := by
  intro n
  induction n with
  | zero =>
    intro p hclosed hbuf _
    exact ⟨hclosed, hbuf, fun _ => rfl⟩
  | succ n ih =>
    intro p hclosed hbuf hdone
    obtain ⟨q1, q2, -, q4, -, q6, -, q8⟩ :=
      pass_log E S hwd hstep hlog p hclosed hbuf (hdone 0 (Nat.succ_pos n))
    obtain ⟨r1, r2, r3⟩ := ih (S.writeData (S.stepTime p).2).2 q1 q2
      (fun k hk => hdone (k + 1) (Nat.succ_lt_succ hk))
    refine ⟨r1, r2, fun hw => ?_⟩
    exact (r3 (by rw [q6, q4]; exact hw)).trans (q8 hw)

/-! ## The iteration-count log over a run (C16, C17) -/

/-- C16: the rows of the iteration-count log are on disk before any abort, provided the log
file can be opened.  (1) A call of `writeIterationCounts` entered with the log stream closed
and its buffer empty that returns 0 leaves the stream closed and the buffer empty; on rank 0,
when the log file can be opened, the row of the time step is then the end of the log file,
and when it cannot be opened no text file is changed.  (2) `stepTime`, however it ends, and
a `writeData` that returns 0 keep the stream closed and the buffer empty, so the stream is
closed after any number of completed passes of the time loop.  (3) After `n` completed
passes, at the end of the next `stepTime`, however that call ends, the text files are those
the last completed `writeData` left, the stream is closed and no character is pending in its
buffer; on rank 0, in a run entered at a time step that is not negative with a log file that
can be opened, the log file then holds the `n` rows of the completed steps.  (4) When the
log file cannot be opened the passes complete all the same and the text files at that moment
are those of entry: no row is on disk, and none is pending. -/
theorem log_flushed_before_abort (E : Petsc M V) (N : Numerics M V)
    (init fin : Proc M V → Flow × Proc M V) (p : Proc M V) (n : Nat)
    (hclosed : p.solver.iterationCountsFile.isOpen = false)
    (hbuf : p.solver.iterationCountsFile.buf = "")
    (hdone : ∀ k, k < n →
      (stepTime E N (afterSteps (NavierStokesSolver.methods E N init fin) k p)).1
        = Flow.returned 0
      ∧ (writeData E
          (stepTime E N (afterSteps (NavierStokesSolver.methods E N init fin) k p)).2).1
        = Flow.returned 0) :
    (∀ s : Proc M V, s.solver.iterationCountsFile.isOpen = false →
        s.solver.iterationCountsFile.buf = "" →
        (writeIterationCounts E s).1 = Flow.returned 0 →
        (writeIterationCounts E s).2.solver.iterationCountsFile.isOpen = false
        ∧ (writeIterationCounts E s).2.solver.iterationCountsFile.buf = ""
        ∧ (s.world.commRank = 0 →
            s.world.writable (s.solver.parameters.directory ++ "/iterationCounts.txt")
              = true →
            (writeIterationCounts E s).2.world.textFiles
                (s.solver.parameters.directory ++ "/iterationCounts.txt")
              = some ((if s.solver.timeStep = 1 then ""
                  else (s.world.textFiles
                    (s.solver.parameters.directory ++ "/iterationCounts.txt")).getD "")
                ++ iterationRow s.solver.timeStep
                  (getSolverIterations E s.solver 0 0).2.1
                  (getSolverIterations E s.solver 0 0).2.2))
        ∧ (s.world.writable (s.solver.parameters.directory ++ "/iterationCounts.txt")
              = false →
            (writeIterationCounts E s).2.world.textFiles = s.world.textFiles))
    ∧ (∀ s : Proc M V, s.solver.iterationCountsFile.isOpen = false →
        s.solver.iterationCountsFile.buf = "" →
        (stepTime E N s).2.solver.iterationCountsFile.isOpen = false
        ∧ (stepTime E N s).2.solver.iterationCountsFile.buf = "")
    ∧ (∀ s : Proc M V, s.solver.iterationCountsFile.isOpen = false →
        s.solver.iterationCountsFile.buf = "" →
        (writeData E s).1 = Flow.returned 0 →
        (writeData E s).2.solver.iterationCountsFile.isOpen = false
        ∧ (writeData E s).2.solver.iterationCountsFile.buf = "")
    ∧ (afterSteps (NavierStokesSolver.methods E N init fin) n p).solver.iterationCountsFile.isOpen
        = false
    ∧ (stepTime E N (afterSteps (NavierStokesSolver.methods E N init fin) n p)).2.world.textFiles
        = (afterSteps (NavierStokesSolver.methods E N init fin) n p).world.textFiles
    ∧ (stepTime E N
        (afterSteps (NavierStokesSolver.methods E N init fin) n p)).2.solver.iterationCountsFile.isOpen
        = false
    ∧ (stepTime E N
        (afterSteps (NavierStokesSolver.methods E N init fin) n p)).2.solver.iterationCountsFile.buf
        = ""
    ∧ (p.world.commRank = 0 →
        p.world.writable (p.solver.parameters.directory ++ "/iterationCounts.txt") = true →
        0 ≤ p.solver.timeStep → 1 ≤ n →
        ∃ counts : List (Int × Int), counts.length = n
          ∧ (stepTime E N
              (afterSteps (NavierStokesSolver.methods E N init fin) n p)).2.world.textFiles
              (p.solver.parameters.directory ++ "/iterationCounts.txt")
            = some ((if p.solver.timeStep = 0 then ""
                else (p.world.textFiles
                  (p.solver.parameters.directory ++ "/iterationCounts.txt")).getD "")
              ++ iterationRows (p.solver.timeStep + 1) counts))
    ∧ (p.world.writable (p.solver.parameters.directory ++ "/iterationCounts.txt") = false →
        (stepTime E N
          (afterSteps (NavierStokesSolver.methods E N init fin) n p)).2.world.textFiles
          = p.world.textFiles) := by
  have hstep : ∀ s, ((NavierStokesSolver.methods E N init fin).stepTime s).2.solver.timeStep
      = s.solver.timeStep + 1 := fun s => (stepTime_log E N s).2.2.2.2.1
  have hlog : ∀ s,
      ((NavierStokesSolver.methods E N init fin).stepTime s).2.solver.iterationCountsFile
        = s.solver.iterationCountsFile
      ∧ ((NavierStokesSolver.methods E N init fin).stepTime s).2.world.textFiles
        = s.world.textFiles
      ∧ ((NavierStokesSolver.methods E N init fin).stepTime s).2.world.commRank
        = s.world.commRank
      ∧ ((NavierStokesSolver.methods E N init fin).stepTime s).2.solver.parameters
        = s.solver.parameters
      ∧ ((NavierStokesSolver.methods E N init fin).stepTime s).2.world.writable
        = s.world.writable :=
    fun s => ⟨(stepTime_log E N s).1, (stepTime_log E N s).2.1, (stepTime_log E N s).2.2.1,
      (stepTime_log E N s).2.2.2.1, (stepTime_log E N s).2.2.2.2.2⟩
  have hd : ∀ k, k < n → ((NavierStokesSolver.methods E N init fin).writeData
      ((NavierStokesSolver.methods E N init fin).stepTime
        (afterSteps (NavierStokesSolver.methods E N init fin) k p)).2).1 = Flow.returned 0 :=
    fun k hk => (hdone k hk).2
  obtain ⟨z1, z2, z3⟩ := afterSteps_closed E (NavierStokesSolver.methods E N init fin) rfl
    hstep hlog n p hclosed hbuf hd
  obtain ⟨l1, l2, -⟩ := stepTime_log E N (afterSteps (NavierStokesSolver.methods E N init fin) n p)
  refine ⟨?_, ?_, ?_, z1, l2, ?_, ?_, ?_, ?_⟩
  · intro s hs hb hret
    obtain ⟨c1, c2, -, -, -, -, c7, -, c9⟩ := writeIterationCounts_done E s hs hb hret
    exact ⟨c1, c2, c7, c9⟩
  · intro s hs hb
    obtain ⟨g1, -⟩ := stepTime_log E N s
    rw [g1]
    exact ⟨hs, hb⟩
  · intro s hs hb hret
    obtain ⟨c1, c2, -⟩ := writeData_done E s hs hb hret
    exact ⟨c1, c2⟩
  · rw [l1]
    exact z1
  · rw [l1]
    exact z2
  · intro hrank hw ht hn
    obtain ⟨-, -, -, -, -, counts, hlen, hfile⟩ :=
      afterSteps_log E (NavierStokesSolver.methods E N init fin) rfl hstep hlog n p hclosed hbuf
        hrank hw ht hd
    refine ⟨counts, hlen, ?_⟩
    rw [l2, hfile, if_neg (by omega)]
  · intro hw
    rw [l2]
    exact z3 hw

/-- Instance of C16: the Krylov solver converges in the first step and
diverges in the second; when the second `stepTime` ends the process, the row of the first
step is in the log file. -/
theorem log_flushed_before_abort_witness :
    sampleProc.solver.iterationCountsFile.isOpen = false
    ∧ sampleProc.solver.iterationCountsFile.buf = ""
    ∧ sampleProc.world.writable "run/iterationCounts.txt" = true
    ∧ (stepTime divergingLaterEnv clockNumerics sampleProc).1 = Flow.returned 0
    ∧ (writeData divergingLaterEnv
        (stepTime divergingLaterEnv clockNumerics sampleProc).2).1 = Flow.returned 0
    ∧ (stepTime divergingLaterEnv clockNumerics
        (afterSteps (NavierStokesSolver.methods divergingLaterEnv clockNumerics
          (createLinSolvers divergingLaterEnv) (fun s => (Flow.returned 0, s))) 1 sampleProc)).1
        = Flow.exited 0
    ∧ (stepTime divergingLaterEnv clockNumerics
        (afterSteps (NavierStokesSolver.methods divergingLaterEnv clockNumerics
          (createLinSolvers divergingLaterEnv) (fun s => (Flow.returned 0, s))) 1
          sampleProc)).2.world.textFiles "run/iterationCounts.txt"
        = some "1\t5\t5\n" :=
  ⟨rfl, rfl, rfl, by decide, by decide, by decide,
    (congrFun (log_flushed_before_abort divergingLaterEnv clockNumerics
      (createLinSolvers divergingLaterEnv) (fun s => (Flow.returned 0, s)) sampleProc 1 rfl rfl
      (fun k hk => by
        have hk0 : k = 0 := by omega
        subst hk0
        exact ⟨by decide, by decide⟩)).2.2.2.2.1 "run/iterationCounts.txt").trans
      (by decide)⟩

/-- C17: take a driver whose `writeData` is that of the solver class and whose `stepTime`
adds one to the time step and leaves the log alone, on rank 0, with the log stream closed
and its buffer empty at entry, and `n ≥ 1` iterations of the driver loop in which `stepTime`
and `writeData` return 0.  When the log file can be opened, it consists afterwards of
exactly `n` rows with first fields 1, 2, ..., `n` if the run is entered at time step 0,
whatever the file held before; if the run is entered at a time step `N ≥ 1`, it is the
previous content followed by `n` rows with first fields `N + 1`, ..., `N + n`.  When the log
file cannot be opened, the iterations leave every text file as it was. -/
theorem iteration_log_rows (E : Petsc M V) (S : Methods M V) (p : Proc M V) (n : Nat)
    (hwd : S.writeData = writeData E)
    (hstep : ∀ s, (S.stepTime s).2.solver.timeStep = s.solver.timeStep + 1)
    (hlog : ∀ s, (S.stepTime s).2.solver.iterationCountsFile = s.solver.iterationCountsFile
      ∧ (S.stepTime s).2.world.textFiles = s.world.textFiles
      ∧ (S.stepTime s).2.world.commRank = s.world.commRank
      ∧ (S.stepTime s).2.solver.parameters = s.solver.parameters
      ∧ (S.stepTime s).2.world.writable = s.world.writable)
    (hclosed : p.solver.iterationCountsFile.isOpen = false)
    (hbuf : p.solver.iterationCountsFile.buf = "")
    (hrank : p.world.commRank = 0)
    (hn : 1 ≤ n)
    (hdone : ∀ k, k < n →
      (S.stepTime (afterSteps S k p)).1 = Flow.returned 0
      ∧ (S.writeData (S.stepTime (afterSteps S k p)).2).1 = Flow.returned 0) :
    (p.world.writable (p.solver.parameters.directory ++ "/iterationCounts.txt") = true →
      (p.solver.timeStep = 0 →
        ∃ counts : List (Int × Int), counts.length = n
          ∧ (afterSteps S n p).world.textFiles
              (p.solver.parameters.directory ++ "/iterationCounts.txt")
            = some (iterationRows 1 counts))
      ∧ (1 ≤ p.solver.timeStep →
        ∃ counts : List (Int × Int), counts.length = n
          ∧ (afterSteps S n p).world.textFiles
              (p.solver.parameters.directory ++ "/iterationCounts.txt")
            = some ((p.world.textFiles
                (p.solver.parameters.directory ++ "/iterationCounts.txt")).getD ""
              ++ iterationRows (p.solver.timeStep + 1) counts)))
    ∧ (p.world.writable (p.solver.parameters.directory ++ "/iterationCounts.txt") = false →
        (afterSteps S n p).world.textFiles = p.world.textFiles)
    ∧ (∀ (t : Int) (c : Int × Int) (cs : List (Int × Int)),
        iterationRows t (c :: cs)
          = (fmt_d t ++ "\t" ++ fmt_d c.1 ++ "\t" ++ fmt_d c.2 ++ "\n")
            ++ iterationRows (t + 1) cs)
    ∧ (∀ t : Int, iterationRows t [] = "") := by
  have hd : ∀ k, k < n →
      (S.writeData (S.stepTime (afterSteps S k p)).2).1 = Flow.returned 0 :=
    fun k hk => (hdone k hk).2
  refine ⟨fun hw => ⟨fun ht => ?_, fun ht => ?_⟩, fun hw => ?_, fun _ _ _ => rfl,
    fun _ => rfl⟩
  · obtain ⟨-, -, -, -, -, counts, hlen, hfile⟩ :=
      afterSteps_log E S hwd hstep hlog n p hclosed hbuf hrank hw (by omega) hd
    refine ⟨counts, hlen, ?_⟩
    rw [hfile, if_neg (by omega), if_pos ht, ht]
    simp
  · obtain ⟨-, -, -, -, -, counts, hlen, hfile⟩ :=
      afterSteps_log E S hwd hstep hlog n p hclosed hbuf hrank hw (by omega) hd
    refine ⟨counts, hlen, ?_⟩
    rw [hfile, if_neg (by omega), if_neg (by omega)]
  · exact (afterSteps_closed E S hwd hstep hlog n p hclosed hbuf hd).2.2 hw

/-- Instance of C17: two passes of the sample run entered at time step 0
over a log file left by an earlier run. -/
theorem iteration_log_rows_witness :
    (sampleMethods sampleEnv).writeData = writeData sampleEnv
    ∧ (sampleProcWithLog 0).solver.iterationCountsFile.isOpen = false
    ∧ (sampleProcWithLog 0).world.commRank = 0
    ∧ (sampleProcWithLog 0).world.writable "run/iterationCounts.txt" = true
    ∧ (sampleProcWithLog 0).world.textFiles "run/iterationCounts.txt" = some "stale\n"
    ∧ (afterSteps (sampleMethods sampleEnv) 2 (sampleProcWithLog 0)).world.textFiles
        "run/iterationCounts.txt" = some "1\t5\t5\n2\t5\t5\n"
    ∧ (∃ counts : List (Int × Int), counts.length = 2
        ∧ (afterSteps (sampleMethods sampleEnv) 2 (sampleProcWithLog 0)).world.textFiles
            ((sampleProcWithLog 0).solver.parameters.directory ++ "/iterationCounts.txt")
          = some (iterationRows 1 counts)) :=
  have hok : sampleEnv.allOk := fun _ => rfl
  have hconv : ∀ (ksp : KSP Nat) (b x : Vec Nat), 0 ≤ (sampleEnv.krylov ksp b x).reason :=
    fun _ _ _ => by
      show (0 : Int) ≤ 2
      decide
  ⟨rfl, rfl, rfl, rfl, rfl, by decide,
    ((iteration_log_rows sampleEnv (sampleMethods sampleEnv) (sampleProcWithLog 0) 2 rfl
      (fun s => (stepTime_log sampleEnv sampleNumerics s).2.2.2.2.1)
      (fun s => ⟨(stepTime_log sampleEnv sampleNumerics s).1,
        (stepTime_log sampleEnv sampleNumerics s).2.1,
        (stepTime_log sampleEnv sampleNumerics s).2.2.1,
        (stepTime_log sampleEnv sampleNumerics s).2.2.2.1,
        (stepTime_log sampleEnv sampleNumerics s).2.2.2.2.2⟩)
      rfl rfl rfl (by decide)
      (fun _ _ => ⟨(stepTime_frame sampleEnv hok sampleNumerics _).2 hconv,
        (writeData_frame sampleEnv hok _).2⟩)).1 rfl).1 rfl⟩

end PetIBM
